import Mathlib

/-!
# Aliyun ECS docker-machine driver: provisioning orchestrator

A shallow embedding of `drivers/aliyunecs/ecs.go`.

* Go strings are `String`; where the code looks inside a string
  (`strings.Split`, `strconv.Atoi`, `fmt.Sprintf("%d/%d")`) the characters are
  handled as `List Char`.
* Go `int` is `Int`; `strconv.Atoi` saturates at the 64-bit bounds.
* The remote control plane (the `ecs` and `slb` clients, the ssh helper) is an
  oracle `Env`: every operation answers as a function of the calls made so far.
  Every call is appended, with its outcome, to the trace held in the state.
* Loops take fuel; a run ends by returning (`done`), by a Go panic such as an
  out-of-range index (`panic`), or with the fuel used up (`outOfFuel`).
* `time.Sleep` and the random jitter of the retry loops have no effect on the
  calls made and are left out.
-/

namespace Aliyunecs

/-! ## Constants and package variables -/

def ipRange : String := "0.0.0.0/0"

def timeout : Nat := 300

def maxRetry : Nat := 20

/-- The package-level variables `dockerPort` and `swarmPort`. -/
structure Globals where
  dockerPort : Int
  swarmPort : Int
deriving DecidableEq, Repr

/-- Values of the package variables when the program starts. -/
def initGlobals : Globals := { dockerPort := 2376, swarmPort := 3376 }

/-- Constants of the `ecs` client package that the driver sends as protocol
names (`ecs.IpProtocolTCP`, `ecs.IpProtocolAll`); the package is not part of
the sources, so they are parameters. -/
structure EcsConsts where
  IpProtocolTCP : String
  IpProtocolAll : String
deriving DecidableEq, Repr

/-! ## Errors -/

/-- Go `error` values: `api` is a `*common.Error` of the client library,
`wrapped` is the result of `fmt.Errorf(".. %v", err)`, `other` is any other
error value. -/
inductive Error where
  | api (statusCode : Int) (code : String)
  | other (msg : String)
  | wrapped (msg : String) (cause : Error)
deriving DecidableEq, Repr

/-! ## Records of the client library used by the driver -/

/-- The instance statuses of the provider; `Other` is any status the driver
does not name. -/
inductive InstanceStatus where
  | Starting
  | Running
  | Stopping
  | Stopped
  | Other
deriving DecidableEq, Repr

structure EipAddressAssociateType where
  AllocationId : String
  IpAddress : String
deriving DecidableEq, Repr

structure VpcAttributesType where
  VpcId : String
  PrivateIpAddress : List String
deriving DecidableEq, Repr

structure InstanceAttributesType where
  InstanceId : String
  RegionId : String
  ZoneId : String
  Status : InstanceStatus
  InnerIpAddress : List String
  PublicIpAddress : List String
  VpcAttributes : VpcAttributesType
  EipAddress : EipAddressAssociateType
deriving DecidableEq, Repr

structure PermissionType where
  IpProtocol : String
  PortRange : String
  Policy : String
deriving DecidableEq, Repr

structure DescribeSecurityGroupAttributeResponse where
  SecurityGroupId : String
  SecurityGroupName : String
  VpcId : String
  Permissions : List PermissionType
deriving DecidableEq, Repr

structure SecurityGroupItemType where
  SecurityGroupId : String
  SecurityGroupName : String
  VpcId : String
deriving DecidableEq, Repr

structure RouteEntrySetType where
  RouteTableId : String
  DestinationCidrBlock : String
  InstanceId : String
deriving DecidableEq, Repr

structure IpPermission where
  IpProtocol : String
  FromPort : Int
  ToPort : Int
  IpRange : String
deriving DecidableEq, Repr

/-! ## The driver -/

structure Driver where
  MachineName : String
  IPAddress : String
  SwarmMaster : Bool
  Region : String
  ImageID : String
  SSHPassword : String
  PublicKey : String
  InstanceId : String
  InstanceType : String
  PrivateIPAddress : String
  SecurityGroupId : String
  SecurityGroupName : String
  VpcId : String
  VSwitchId : String
  Zone : String
  PrivateIPOnly : Bool
  InternetMaxBandwidthOut : Int
  RouteCIDR : String
  SLBID : String
  SLBIPAddress : String
  Tags : List (String × String)
  DiskSize : Int
  DiskCategory : String
  UpgradeKernel : Bool
  AccessKey : String := ""
  SecretKey : String := ""
  SwarmHost : String := ""
  SwarmDiscovery : String := ""
  SSHUser : String := ""
  SSHPort : Int := 0
deriving DecidableEq, Repr

/-! ## Effective IP selection -/

/-- `GetPrivateIP`: first classic inner address, else first VPC private
address, else the empty string. -/
def GetPrivateIP (inst : InstanceAttributesType) : String :=
  match inst.InnerIpAddress with
  | ip :: _ => ip
  | [] =>
    match inst.VpcAttributes.PrivateIpAddress with
    | ip :: _ => ip
    | [] => ""

/-- `getIP`: the address the driver reports for the instance. -/
def getIP (d : Driver) (inst : InstanceAttributesType) : String :=
  if d.PrivateIPOnly then GetPrivateIP inst
  else
    match inst.PublicIpAddress with
    | ip :: _ => ip
    | [] =>
      if inst.EipAddress.IpAddress.length > 0 then inst.EipAddress.IpAddress
      else ""

/-! ## String helpers used by the firewall-rule diff -/

/-- `strings.Split(s, "/")` on the characters of `s`. -/
def splitSlash : List Char → List (List Char)
  | [] => [[]]
  | c :: cs =>
    if c = '/' then [] :: splitSlash cs
    else
      match splitSlash cs with
      | [] => [[c]]
      | h :: t => (c :: h) :: t

/-- Value of a decimal digit character. -/
def digitVal (c : Char) : Option Nat :=
  if 48 ≤ c.toNat ∧ c.toNat ≤ 57 then some (c.toNat - 48) else none

/-- Reads decimal digits after the accumulator `acc`; `none` on a character
that is not a digit. -/
def parseDigitsFrom : Nat → List Char → Option Nat
  | acc, [] => some acc
  | acc, c :: cs =>
    match digitVal c with
    | none => none
    | some v => parseDigitsFrom (acc * 10 + v) cs

def intMax : Int := 9223372036854775807

def intMin : Int := -9223372036854775808

/-- Unsigned part of `strconv.Atoi`: at least one digit, digits only. -/
def parseUnsigned (s : List Char) : Option Nat :=
  match s with
  | [] => none
  | _ :: _ => parseDigitsFrom 0 s

/-- `strconv.Atoi` with the error made explicit: the value (0 on a syntax
error, the nearest 64-bit bound on a range error) and whether it succeeded. -/
def Atoi (s : List Char) : Int × Bool :=
  match s with
  | [] => (0, false)
  | c :: cs =>
    if c = '-' then
      match parseUnsigned cs with
      | none => (0, false)
      | some v => if (v : Int) > -intMin then (intMin, false) else (-(v : Int), true)
    else
      match parseUnsigned (if c = '+' then cs else c :: cs) with
      | none => (0, false)
      | some v => if (v : Int) > intMax then (intMax, false) else ((v : Int), true)

/-- Character of a decimal digit. -/
def digitChar (n : Nat) : Char := Char.ofNat (48 + n)

/-- Decimal digits of `n` in front of `acc`; `fuel` bounds the recursion. -/
def natDigitsAux : Nat → Nat → List Char → List Char
  | 0, _, acc => acc
  | fuel + 1, n, acc =>
    if n / 10 = 0 then digitChar (n % 10) :: acc
    else natDigitsAux fuel (n / 10) (digitChar (n % 10) :: acc)

/-- The verb `%d` on a natural number. -/
def formatNat (n : Nat) : List Char := natDigitsAux (n + 1) n []

/-- The verb `%d` of `fmt.Sprintf` on an `int`. -/
def formatInt (k : Int) : List Char :=
  if k < 0 then '-' :: formatNat k.natAbs else formatNat k.natAbs

/-! ## Firewall-rule diff -/

/-- `createAuthorizeSecurityGroupArgs`: the fields of the authorize request
that depend on the rule (protocol, source CIDR, port range `from/to`). -/
structure AuthorizeSecurityGroupArgs where
  RegionId : String
  SecurityGroupId : String
  IpProtocol : String
  SourceCidrIp : String
  PortRange : String
deriving DecidableEq, Repr

def IpPermission.createAuthorizeSecurityGroupArgs (p : IpPermission)
    (regionId securityGroupId : String) : AuthorizeSecurityGroupArgs :=
  { RegionId := regionId
    SecurityGroupId := securityGroupId
    IpProtocol := p.IpProtocol
    SourceCidrIp := p.IpRange
    PortRange := String.mk (formatInt p.FromPort ++ '/' :: formatInt p.ToPort) }

/-- The four local flags of `configureSecurityGroupPermissions`. -/
structure PortFlags where
  hasSSHPort : Bool
  hasDockerPort : Bool
  hasSwarmPort : Bool
  hasAllIncomingPort : Bool
deriving DecidableEq, Repr

/-- One iteration of the loop over the group's permissions. `none` is the
run-time panic of `portRange[1]` on a port range without a second part. -/
def scanPermission (G : Globals) (f : PortFlags) (p : PermissionType) : Option PortFlags :=
  let portRange := splitSlash p.PortRange.data
  let fromPort := (Atoi (portRange.headD [])).1
  if fromPort = -1 then
    match portRange[1]? with
    | none => none
    | some hi =>
      if hi = "-1".data ∧ p.IpProtocol = "ALL" ∧ p.Policy = "Accept" then
        some { f with hasAllIncomingPort := true }
      else some f
  else if fromPort = 22 then some { f with hasSSHPort := true }
  else if fromPort = G.dockerPort then some { f with hasDockerPort := true }
  else if fromPort = G.swarmPort then some { f with hasSwarmPort := true }
  else some f

/-- The loop over `group.Permissions.Permission`. -/
def scanPermissions (G : Globals) : PortFlags → List PermissionType → Option PortFlags
  | f, [] => some f
  | f, p :: ps =>
    match scanPermission G f p with
    | none => none
    | some f1 => scanPermissions G f1 ps

/-- The rules appended for the flags that stayed false. -/
def missingRules (K : EcsConsts) (G : Globals) (d : Driver) (f : PortFlags) : List IpPermission :=
  (if !f.hasSSHPort then
    [{ IpProtocol := K.IpProtocolTCP, FromPort := 22, ToPort := 22, IpRange := ipRange }]
   else []) ++
  (if !f.hasDockerPort then
    [{ IpProtocol := K.IpProtocolTCP, FromPort := G.dockerPort, ToPort := G.dockerPort,
       IpRange := ipRange }]
   else []) ++
  (if !f.hasSwarmPort && d.SwarmMaster then
    [{ IpProtocol := K.IpProtocolTCP, FromPort := G.swarmPort, ToPort := G.swarmPort,
       IpRange := ipRange }]
   else []) ++
  (if !f.hasAllIncomingPort then
    [{ IpProtocol := K.IpProtocolAll, FromPort := -1, ToPort := -1, IpRange := ipRange }]
   else [])

/-- `configureSecurityGroupPermissions`: the rules to authorize for `group`;
`none` when the loop panics. -/
def configureSecurityGroupPermissions (K : EcsConsts) (G : Globals) (d : Driver)
    (group : DescribeSecurityGroupAttributeResponse) : Option (List IpPermission) :=
  match scanPermissions G ⟨false, false, false, false⟩ group.Permissions with
  | none => none
  | some f => some (missingRules K G d f)

/-! ## Remote calls, traces and the run monad -/

inductive EipStatus where
  | Available
  | InUse
deriving DecidableEq, Repr

/-- A page request of a paginated describe call. -/
structure Pagination where
  PageNumber : Int
  PageSize : Int
deriving DecidableEq, Repr

structure DataDiskType where
  DiskName : String
  Size : Int
  Category : String
  Device : String
  DeleteWithInstance : Bool
deriving DecidableEq, Repr

structure CreateInstanceArgs where
  RegionId : String
  InstanceName : String
  ImageId : String
  InstanceType : String
  SecurityGroupId : String
  Password : String
  VSwitchId : String
  ZoneId : String
  InternetMaxBandwidthOut : Int
  DataDisk : List DataDiskType
deriving DecidableEq, Repr

structure VpcSetType where
  VpcId : String
  VRouterId : String
deriving DecidableEq, Repr

structure VRouterSetType where
  VRouterId : String
  RouteTableIds : List String
deriving DecidableEq, Repr

structure RouteTableSetType where
  RouteTableId : String
  RouteEntrys : List RouteEntrySetType
deriving DecidableEq, Repr

/-- Every operation the driver asks of a collaborator, with its arguments
(idempotency tokens left out). -/
inductive Call where
  | DescribeLoadBalancerAttribute (slbId : String)
  | GenerateSSHKey
  | ReadPublicKey
  | DescribeSecurityGroups (region vpcId : String) (page : Pagination)
  | DescribeSecurityGroupAttribute (groupId region : String)
  | CreateSecurityGroup (region name vpcId : String)
  | AuthorizeSecurityGroup (args : AuthorizeSecurityGroupArgs)
  | DescribeImages (region : String) (page : Pagination)
  | CreateInstance (args : CreateInstanceArgs)
  | WaitForInstance (instanceId : String) (status : InstanceStatus) (timeoutSec : Nat)
  | AllocatePublicIpAddress (instanceId : String)
  | DescribeVpcs (vpcId region : String)
  | DescribeVRouters (vrouterId region : String)
  | DescribeRouteTables (vrouterId : String)
  | CreateRouteEntry (routeTableId cidr nextHopId : String)
  | DeleteRouteEntry (routeTableId cidr nextHopId : String)
  | AllocateEipAddress (region : String) (bandwidth : Int)
  | WaitForEip (region allocationId : String) (status : EipStatus) (timeoutSec : Nat)
  | AssociateEipAddress (allocationId instanceId : String)
  | UnassociateEipAddress (allocationId instanceId : String)
  | ReleaseEipAddress (allocationId : String)
  | AddBackendServers (slbId serverId : String) (weight : Nat)
  | StartInstance (instanceId : String)
  | StopInstance (instanceId : String) (force : Bool)
  | RebootInstance (instanceId : String) (force : Bool)
  | DescribeInstanceAttribute (instanceId : String)
  | AddTags (region resourceId : String) (tags : List (String × String))
  | DeleteInstance (instanceId : String)
  | SshNewClient (address : String)
  | SshOutput (command : String)
deriving DecidableEq, Repr

/-- A call together with whether it returned without error. -/
structure Event where
  call : Call
  ok : Bool
deriving DecidableEq, Repr

/-- The collaborators. Each answer may depend on every call made so far. -/
structure Env where
  unit : List Event → Call → Except Error Unit
  text : List Event → Call → Except Error String
  inst : List Event → Call → Except Error InstanceAttributesType
  groups : List Event → Call → Except Error (List SecurityGroupItemType × Option Pagination)
  group : List Event → Call → Except Error DescribeSecurityGroupAttributeResponse
  images : List Event → Call → Except Error (List String × Option Pagination)
  vpcs : List Event → Call → Except Error (List VpcSetType)
  vrouters : List Event → Call → Except Error (List VRouterSetType)
  routeTables : List Event → Call → Except Error (List RouteTableSetType)
  randomPassword : List Event → String
  waitForAttempts : Nat
  defaultUbuntuImageID : String
  defaultUbuntuImagePrefix : String

/-- How a run ends: it returns a value, it panics, or the fuel of a loop is
used up. Each outcome keeps the trace reached. -/
inductive Run (α : Type) where
  | done (a : α) (tr : List Event)
  | panic (tr : List Event)
  | outOfFuel (tr : List Event)
deriving DecidableEq, Repr

def Run.trace {α : Type} : Run α → List Event
  | .done _ tr => tr
  | .panic tr => tr
  | .outOfFuel tr => tr

/-- The value returned, when the run returns. -/
def Run.result {α : Type} : Run α → Option α
  | .done a _ => some a
  | .panic _ => none
  | .outOfFuel _ => none

/-- A computation over the trace of calls made so far. -/
def M (α : Type) : Type := List Event → Run α

def M.pure {α : Type} (a : α) : M α := fun tr => .done a tr

def M.bind {α β : Type} (m : M α) (f : α → M β) : M β := fun tr =>
  match m tr with
  | .done a tr1 => f a tr1
  | .panic tr1 => .panic tr1
  | .outOfFuel tr1 => .outOfFuel tr1

instance : Monad M where
  pure := M.pure
  bind := M.bind

/-- A Go run-time panic. -/
def panicM {α : Type} : M α := fun tr => .panic tr

/-- The loop fuel is used up. -/
def outOfFuelM {α : Type} : M α := fun tr => .outOfFuel tr

def isOk {ρ : Type} : Except Error ρ → Bool
  | .ok _ => true
  | .error _ => false

/-- Performs one call: asks the collaborator and records the event. -/
def ask {ρ : Type} (oracle : List Event → Call → Except Error ρ) (c : Call) :
    M (Except Error ρ) := fun tr =>
  .done (oracle tr c) (tr ++ [{ call := c, ok := isOk (oracle tr c) }])

/-- The error of a call that returns nothing else. -/
def errOf {ρ : Type} : Except Error ρ → Option Error
  | .ok _ => none
  | .error e => some e

/-! ## Footprints -/

/-- Every event the computation adds to the trace satisfies `P`, however the
run ends. -/
structure Emits {α : Type} (P : Event → Prop) (m : M α) : Prop where
  out : ∀ tr, ∃ evs, (m tr).trace = tr ++ evs ∧ ∀ e ∈ evs, P e

/-! ## Instance state, stop, describe -/

/-- The machine states of `libmachine/state` that `GetState` produces. -/
inductive MachineState where
  | Running
  | Starting
  | Stopping
  | Stopped
  | Error
deriving DecidableEq, Repr

/-- `getInstance`. -/
def getInstance (env : Env) (d : Driver) : M (Except Error InstanceAttributesType) :=
  ask env.inst (.DescribeInstanceAttribute d.InstanceId)

/-- `GetState`. -/
def GetState (env : Env) (d : Driver) : M (MachineState × Option Error) := do
  let r ← getInstance env d
  match r with
  | .error e => pure (.Error, some e)
  | .ok inst =>
    match inst.Status with
    | .Starting => pure (.Starting, none)
    | .Running => pure (.Running, none)
    | .Stopping => pure (.Stopping, none)
    | .Stopped => pure (.Stopped, none)
    | .Other => pure (.Error, none)

/-- `Stop`. -/
def Stop (env : Env) (d : Driver) : M (Option Error) := do
  let r ← ask env.unit (.StopInstance d.InstanceId false)
  match r with
  | .error e => pure (some e)
  | .ok _ =>
    let r ← ask env.unit (.WaitForInstance d.InstanceId .Stopped timeout)
    pure (errOf r)

/-! ## Route entries -/

/-- The retry loop of `removeRouteEntry` for the entry found; `count` is the
local counter. -/
def deleteRouteEntryLoop (env : Env) (d : Driver) (routeEntry : RouteEntrySetType) :
    Nat → Nat → M (Option Error)
  | 0, _ => outOfFuelM
  | fuel + 1, count => do
    let r ← ask env.unit (.DeleteRouteEntry routeEntry.RouteTableId
      routeEntry.DestinationCidrBlock routeEntry.InstanceId)
    match r with
    | .error _ =>
      if count + 1 ≤ maxRetry then deleteRouteEntryLoop env d routeEntry fuel (count + 1)
      else pure (some (.other (d.MachineName ++ " | Failed to delete route entry after 20 times")))
    | .ok _ => pure none

/-- `removeRouteEntry`. -/
def removeRouteEntry (env : Env) (fuel : Nat) (d : Driver)
    (vpcId regionId instanceId : String) : M (Option Error) := do
  let r ← ask env.vpcs (.DescribeVpcs vpcId regionId)
  match r with
  | .error e => pure (some (.wrapped (d.MachineName ++ " | Failed to describe VPC") e))
  | .ok vpcs =>
    match vpcs with
    | [] => panicM
    | vpc :: _ =>
      let r ← ask env.routeTables (.DescribeRouteTables vpc.VRouterId)
      match r with
      | .error e => pure (some (.wrapped (d.MachineName ++ " | Failed to describe route tables") e))
      | .ok routeTables =>
        match routeTables with
        | [] => panicM
        | routeTable :: _ =>
          match routeTable.RouteEntrys.find? (fun e => e.InstanceId = instanceId) with
          | none => pure none
          | some routeEntry => deleteRouteEntryLoop env d routeEntry fuel 0

/-- The condition under which `addRouteEntry` retries a failed create: the
error is a `*common.Error` with status 500, or with status 400 and code
`IncorrectRouteEntryStatus`. -/
def retryableRouteError : Error → Bool
  | .api statusCode code =>
    statusCode = 500 || (statusCode = 400 && code = "IncorrectRouteEntryStatus")
  | _ => false

/-- The retry loop of `addRouteEntry`; `count` is the local counter. -/
def createRouteEntryLoop (env : Env) (d : Driver) (routeTableId : String) :
    Nat → Nat → M (Option Error)
  | 0, _ => outOfFuelM
  | fuel + 1, count => do
    let r ← ask env.unit (.CreateRouteEntry routeTableId d.RouteCIDR d.InstanceId)
    match r with
    | .ok _ => pure none
    | .error e =>
      if retryableRouteError e ∧ count + 1 ≤ maxRetry then
        createRouteEntryLoop env d routeTableId fuel (count + 1)
      else pure (some (.wrapped (d.MachineName ++ " | Failed to create route entry") e))

/-- `addRouteEntry`. -/
def addRouteEntry (env : Env) (fuel : Nat) (d : Driver) (vpcId : String) : M (Option Error) :=
  if d.RouteCIDR ≠ "" then do
    let r ← ask env.vpcs (.DescribeVpcs vpcId d.Region)
    match r with
    | .error e => pure (some (.wrapped (d.MachineName ++ " | Failed to describe VPC") e))
    | .ok vpcs =>
      match vpcs with
      | [] => panicM
      | vpc :: _ =>
        let r ← ask env.vrouters (.DescribeVRouters vpc.VRouterId d.Region)
        match r with
        | .error e => pure (some (.wrapped (d.MachineName ++ " | Failed to describe VRouters") e))
        | .ok vrouters =>
          match vrouters with
          | [] => panicM
          | vrouter :: _ =>
            match vrouter.RouteTableIds with
            | [] => panicM
            | routeTableId :: _ => createRouteEntryLoop env d routeTableId fuel 0
  else pure none

/-! ## Network attach -/

/-- The loop of `configNetwork` that registers the instance with the load
balancer; `count` is the local counter, which the loop never changes. -/
def addBackendServersLoop (env : Env) (d : Driver) (instanceId : String) :
    Nat → Nat → M (Option Error)
  | 0, _ => outOfFuelM
  | fuel + 1, count => do
    let r ← ask env.unit (.AddBackendServers d.SLBID instanceId 100)
    match r with
    | .error _ =>
      if count ≤ maxRetry then addBackendServersLoop env d instanceId fuel count
      else pure (some (.other (d.MachineName ++ " | Failed to delete route entry after 20 times")))
    | .ok _ => pure none

/-- The last block of `configNetwork`: load-balancer registration, then
`return nil`. The local `err` is in scope here but is only overwritten by the
loop, never returned. -/
def registerBackend (env : Env) (fuel : Nat) (d : Driver) (instanceId : String)
    (_err : Option Error) : M (Option Error) :=
  if d.SLBID ≠ "" then addBackendServersLoop env d instanceId fuel 0
  else pure none

/-- The elastic-IP block of `configNetwork` for a private network: `none`
when the block falls through, an error when it returns early. -/
def attachEip (env : Env) (d : Driver) (instanceId : String) : M (Option Error) := do
  let r ← ask env.text (.AllocateEipAddress d.Region d.InternetMaxBandwidthOut)
  match r with
  | .error e => pure (some (.wrapped (d.MachineName ++ " | Failed to allocate EIP address") e))
  | .ok allocationId =>
    let r ← ask env.unit (.WaitForEip d.Region allocationId .Available 60)
    match r with
    | .error e =>
      let _ ← ask env.unit (.ReleaseEipAddress allocationId)
      pure (some (.wrapped (d.MachineName ++ " | Failed to wait EIP") e))
    | .ok _ =>
      let r ← ask env.unit (.AssociateEipAddress allocationId instanceId)
      match r with
      | .error e => pure (some (.wrapped (d.MachineName ++ " | Failed to associate EIP address") e))
      | .ok _ =>
        let r ← ask env.unit (.WaitForEip d.Region allocationId .InUse 60)
        match r with
        | .error e => pure (some (.wrapped (d.MachineName ++ " | Failed to wait EIP") e))
        | .ok _ => pure none

/-- `configNetwork`. -/
def configNetwork (env : Env) (fuel : Nat) (d : Driver) (vpcId instanceId : String) :
    M (Option Error) :=
  if vpcId = "" then do
    let err ← (if !d.PrivateIPOnly then do
        let r ← ask env.text (.AllocatePublicIpAddress instanceId)
        match r with
        | .error e =>
          pure (some (Error.wrapped (d.MachineName ++ " | Error allocate public IP address") e))
        | .ok _ => pure none
      else pure none)
    registerBackend env fuel d instanceId err
  else do
    let err ← addRouteEntry env fuel d vpcId
    match err with
    | some e => pure (some e)
    | none =>
      if !d.PrivateIPOnly then do
        let err ← attachEip env d instanceId
        match err with
        | some e => pure (some e)
        | none => registerBackend env fuel d instanceId none
      else registerBackend env fuel d instanceId none

/-! ## Teardown -/

/-- The best-effort part of `Remove`: stop, elastic-IP release, route-entry
removal. Every error in it is logged and dropped. -/
def removeCleanup (env : Env) (fuel : Nat) (d : Driver) : M Unit := do
  let st ← GetState env d
  let _ ← (if st.2 = none ∧ st.1 = .Running then Stop env d else pure none)
  let r ← getInstance env d
  match r with
  | .error _ => pure ()
  | .ok inst =>
    let _ ← (if inst.EipAddress.AllocationId.length ≠ 0 then do
        let _ ← ask env.unit (.UnassociateEipAddress inst.EipAddress.AllocationId inst.InstanceId)
        let _ ← ask env.unit (.WaitForEip inst.RegionId inst.EipAddress.AllocationId .Available 0)
        let _ ← ask env.unit (.ReleaseEipAddress inst.EipAddress.AllocationId)
        pure ()
      else pure ())
    if inst.VpcAttributes.VpcId ≠ "" then do
      let _ ← removeRouteEntry env fuel d inst.VpcAttributes.VpcId inst.RegionId inst.InstanceId
      pure ()
    else pure ()

/-- `Remove`. -/
def Remove (env : Env) (fuel : Nat) (d : Driver) : M (Option Error) :=
  if d.InstanceId = "" then pure (some (.other (d.MachineName ++ " | Unknown instance id")))
  else do
    removeCleanup env fuel d
    let r ← ask env.unit (.DeleteInstance d.InstanceId)
    match r with
    | .error e => pure (some (.wrapped (d.MachineName ++ " | Unable to delete instance") e))
    | .ok _ => pure none

/-! ## Security group -/

/-- `getSecurityGroup`. -/
def getSecurityGroup (env : Env) (d : Driver) (id : String) :
    M (Except Error DescribeSecurityGroupAttributeResponse) :=
  ask env.group (.DescribeSecurityGroupAttribute id d.Region)

/-- The listing loop of `configureSecurityGroup`: the group found and
described, `none` when the pages end without one. -/
def findSecurityGroup (env : Env) (d : Driver) (vpcId groupName : String) :
    Nat → Pagination → M (Except Error (Option DescribeSecurityGroupAttributeResponse))
  | 0, _ => outOfFuelM
  | fuel + 1, page => do
    let r ← ask env.groups (.DescribeSecurityGroups d.Region vpcId page)
    match r with
    | .error e => pure (.error e)
    | .ok (groups, nextPage) =>
      let securityGroup ←
        (match groups.find? (fun grp => grp.SecurityGroupName = groupName ∧ grp.VpcId = d.VpcId) with
         | some grp => do
           let r ← getSecurityGroup env d grp.SecurityGroupId
           pure r.toOption
         | none => pure none)
      match securityGroup with
      | some sg => pure (.ok (some sg))
      | none =>
        match nextPage with
        | none => pure (.ok none)
        | some next => findSecurityGroup env d vpcId groupName fuel next

/-- Modelled from the spec: `mcnutils.WaitFor` of `libmachine`, which is not
among the sources; the spec has it poll, a bounded number of times, until the
group can be described. -/
def WaitFor (env : Env) (d : Driver) (groupId : String) : Nat → M (Option Error)
  | 0 => pure (some (.other "Maximum number of retries exceeded"))
  | n + 1 => do
    let r ← getSecurityGroup env d groupId
    match r with
    | .ok _ => pure none
    | .error _ => WaitFor env d groupId n

/-- The loop of `configureSecurityGroup` that authorizes the missing rules. -/
def authorizeAll (env : Env) (d : Driver) : List IpPermission → M (Option Error)
  | [] => pure none
  | permission :: rest => do
    let r ← ask env.unit
      (.AuthorizeSecurityGroup (permission.createAuthorizeSecurityGroupArgs d.Region d.SecurityGroupId))
    match r with
    | .error e => pure (some e)
    | .ok _ => authorizeAll env d rest

/-- The end of `configureSecurityGroup`, once a group description is in hand. -/
def applyPermissions (env : Env) (K : EcsConsts) (G : Globals) (d : Driver)
    (securityGroup : DescribeSecurityGroupAttributeResponse) : M (Option Error × Driver) :=
  let d1 := { d with SecurityGroupId := securityGroup.SecurityGroupId }
  match configureSecurityGroupPermissions K G d1 securityGroup with
  | none => panicM
  | some perms => do
    let err ← authorizeAll env d1 perms
    pure (err, d1)

/-- `configureSecurityGroup`. -/
def configureSecurityGroup (env : Env) (K : EcsConsts) (G : Globals) (fuel : Nat) (d : Driver)
    (vpcId groupName : String) : M (Option Error × Driver) := do
  let r ← findSecurityGroup env d vpcId groupName fuel { PageNumber := 0, PageSize := 0 }
  match r with
  | .error e => pure (some e, d)
  | .ok (some securityGroup) => applyPermissions env K G d securityGroup
  | .ok none =>
    let r ← ask env.text (.CreateSecurityGroup d.Region groupName vpcId)
    match r with
    | .error e => pure (some e, d)
    | .ok groupId =>
      let err ← WaitFor env d groupId env.waitForAttempts
      match err with
      | some e => pure (some e, d)
      | none =>
        let r ← getSecurityGroup env d groupId
        match r with
        | .error e => pure (some e, d)
        | .ok securityGroup => applyPermissions env K G d securityGroup

/-! ## Create -/

/-- `checkPrereqs`. -/
def checkPrereqs (env : Env) (d : Driver) : M (Option Error × Driver) :=
  if d.SLBID ≠ "" then do
    let r ← ask env.text (.DescribeLoadBalancerAttribute d.SLBID)
    match r with
    | .error e => pure (some (.wrapped (d.MachineName ++ " | Invalid --aliyunecs-slb-id") e), d)
    | .ok address => pure (none, { d with SLBIPAddress := address })
  else pure (none, d)

/-- `createKeyPair`. -/
def createKeyPair (env : Env) (d : Driver) : M (Option Error × Driver) := do
  let r ← ask env.unit .GenerateSSHKey
  match r with
  | .error e => pure (some e, d)
  | .ok _ =>
    let r ← ask env.text .ReadPublicKey
    match r with
    | .error e => pure (some e, d)
    | .ok publicKey => pure (none, { d with PublicKey := publicKey })

/-- The scan of `GetImageID` over the registered images: the first image id
with the Ubuntu prefix, `none` when the loop breaks without one. -/
def findImage (env : Env) (d : Driver) : Nat → Pagination → M (Option String)
  | 0, _ => outOfFuelM
  | fuel + 1, page => do
    let r ← ask env.images (.DescribeImages d.Region page)
    match r with
    | .error _ => pure none
    | .ok (images, nextPage) =>
      match images.find? (fun id => env.defaultUbuntuImagePrefix.isPrefixOf id) with
      | some id => pure (some id)
      | none =>
        match nextPage with
        | none => pure none
        | some next => findImage env d fuel next

/-- `GetImageID`. -/
def GetImageID (env : Env) (fuel : Nat) (d : Driver) (image : String) : M String :=
  if image.length ≠ 0 then pure image
  else do
    let r ← findImage env d fuel { PageNumber := 0, PageSize := 0 }
    match r with
    | some id => pure id
    | none => pure env.defaultUbuntuImageID

/-- `Restart`. -/
def Restart (env : Env) (d : Driver) : M (Option Error) := do
  let r ← ask env.unit (.RebootInstance d.InstanceId false)
  match r with
  | .error e => pure (some (.wrapped (d.MachineName ++ " | Unable to restart instance") e))
  | .ok _ => pure none

/-- `fixRoutingRules`, `autoFdisk` and `upgradeKernel`, run by
`uploadKeyPair` after the key is in place. -/
def postUpload (env : Env) (d : Driver) : M Unit := do
  let _ ← ask env.text (.SshOutput "route del")
  let _ ← ask env.text (.SshOutput "fix /etc/network/interfaces")
  let _ ← ask env.text (.SshOutput "fix route-eth0")
  let _ ← (if d.DiskSize > 0 then do
      let _ ← ask env.text (.SshOutput "write machine_autofdisk.sh")
      let _ ← ask env.text (.SshOutput "bash machine_autofdisk.sh")
      pure ()
    else pure ())
  if d.UpgradeKernel then do
    let _ ← ask env.text (.SshOutput "apt-get update")
    let _ ← ask env.text (.SshOutput "apt-get install kernel")
    let _ ← Restart env d
    let _ ← ask env.text (.SshOutput "echo back")
    pure ()
  else pure ()

/-- `uploadKeyPair`. -/
def uploadKeyPair (env : Env) (d : Driver) : M (Option Error) := do
  let r ← ask env.unit (.SshNewClient d.IPAddress)
  match r with
  | .error e => pure (some e)
  | .ok _ =>
    let r ← ask env.text (.SshOutput "upload authorized_keys")
    match r with
    | .error e => pure (some e)
    | .ok _ =>
      postUpload env d
      pure none

/-- The arguments `Create` builds for `CreateInstance`. -/
def createInstanceArgs (d : Driver) (imageID VSwitchId : String) : CreateInstanceArgs :=
  { RegionId := d.Region
    InstanceName := d.MachineName
    ImageId := imageID
    InstanceType := d.InstanceType
    SecurityGroupId := d.SecurityGroupId
    Password := d.SSHPassword
    VSwitchId := VSwitchId
    ZoneId := d.Zone
    InternetMaxBandwidthOut := if VSwitchId = "" then d.InternetMaxBandwidthOut else 0
    DataDisk :=
      if d.DiskSize > 0 then
        [{ DiskName := d.MachineName ++ "_data", Size := d.DiskSize, Category := d.DiskCategory,
           Device := "/dev/xvdb", DeleteWithInstance := true }]
      else [] }

/-- The generated password of `Create`, stored when none was configured. -/
def setRandomPassword (env : Env) (d : Driver) : M Driver := fun tr =>
  .done { d with SSHPassword := env.randomPassword tr } tr

/-- First part of `Create`, up to `d.InstanceId = instanceId`: the new
instance id, or the error of an early return. -/
def createInstancePhase (env : Env) (K : EcsConsts) (G : Globals) (fuel : Nat) (d : Driver) :
    M (Except Error String × Driver) := do
  let (err, d) ← checkPrereqs env d
  match err with
  | some e => pure (.error e, d)
  | none =>
    let (err, d) ← createKeyPair env d
    match err with
    | some e => pure (.error (.wrapped (d.MachineName ++ " | Failed to create key pair") e), d)
    | none =>
      let (err, d) ← configureSecurityGroup env K G fuel d d.VpcId d.SecurityGroupName
      match err with
      | some e => pure (.error e, d)
      | none =>
        let d ← (if d.SSHPassword = "" then setRandomPassword env d else pure d)
        let imageID ← GetImageID env fuel d d.ImageID
        let r ← ask env.text (.CreateInstance (createInstanceArgs d imageID d.VSwitchId))
        match r with
        | .error e => pure (.error (.wrapped (d.MachineName ++ " | Failed to create instance") e), d)
        | .ok instanceId => pure (.ok instanceId, { d with InstanceId := instanceId })

/-- Start of the instance and what follows it in `Create`, run when the local
`err` is still nil. -/
def startPhase (env : Env) (d : Driver) (instanceId : String) : M (Option Error × Driver) := do
  let r ← ask env.unit (.StartInstance instanceId)
  match r with
  | .error e => pure (some (.wrapped (d.MachineName ++ " | Failed to start instance") e), d)
  | .ok _ =>
    let r ← ask env.unit (.WaitForInstance instanceId .Running timeout)
    match r with
    | .error e =>
      pure (some (.wrapped (d.MachineName ++ " | Failed to wait instance to running state") e), d)
    | .ok _ =>
      let r ← getInstance env d
      match r with
      | .error _ => pure (none, d)
      | .ok inst =>
        let d1 := { d with Zone := inst.ZoneId, PrivateIPAddress := GetPrivateIP inst }
        let d2 := { d1 with IPAddress := getIP d1 inst }
        let _ ← uploadKeyPair env d2
        pure (none, d2)

/-- Middle part of `Create`: wait for `Stopped`, attach the network, start.
The result is the local `err`. -/
def provisionSteps (env : Env) (fuel : Nat) (d : Driver) (VpcId instanceId : String) :
    M (Option Error × Driver) := do
  let r ← ask env.unit (.WaitForInstance instanceId .Stopped timeout)
  match r with
  | .error e =>
    pure (some (.wrapped (d.MachineName ++ " | Failed to wait instance to 'stopped'") e), d)
  | .ok _ =>
    let err ← configNetwork env fuel d VpcId instanceId
    match err with
    | some e => pure (some e, d)
    | none => startPhase env d instanceId

/-- Last part of `Create`: tags, then rollback when the local `err` is set. -/
def finishCreate (env : Env) (fuel : Nat) (d : Driver) (instanceId : String)
    (err : Option Error) : M (Option Error × Driver) := do
  let _ ← (if d.Tags.length > 0 then do
      let _ ← ask env.unit (.AddTags d.Region instanceId d.Tags)
      pure ()
    else pure ())
  match err with
  | some e =>
    let _ ← Remove env fuel d
    pure (some e, d)
  | none => pure (none, d)

/-- `Create`: the returned error and the driver as `Create` leaves it. -/
def Create (env : Env) (K : EcsConsts) (G : Globals) (fuel : Nat) (d : Driver) :
    M (Option Error × Driver) := do
  let VpcId := d.VpcId
  let (r, d) ← createInstancePhase env K G fuel d
  match r with
  | .error e => pure (some e, d)
  | .ok instanceId =>
    let (err, d) ← provisionSteps env fuel d VpcId instanceId
    finishCreate env fuel d instanceId err

/-! ### The diff in the words of the specification -/

/-- The starting port of an existing entry, as the diff reads it. -/
def fromPortOf (p : PermissionType) : Int :=
  (Atoi ((splitSlash p.PortRange.data).headD [])).1

/-- An existing allow-all entry: both ports -1, every protocol, accepted. -/
def isAllowAll (p : PermissionType) : Bool :=
  fromPortOf p = -1 ∧ (splitSlash p.PortRange.data)[1]? = some "-1".data ∧
    p.IpProtocol = "ALL" ∧ p.Policy = "Accept"

/-- The baseline requirement set, in the order the rules are authorized. -/
def baselineRules (K : EcsConsts) (G : Globals) (d : Driver) : List IpPermission :=
  [{ IpProtocol := K.IpProtocolTCP, FromPort := 22, ToPort := 22, IpRange := ipRange },
   { IpProtocol := K.IpProtocolTCP, FromPort := G.dockerPort, ToPort := G.dockerPort,
     IpRange := ipRange }] ++
  (if d.SwarmMaster then
    [{ IpProtocol := K.IpProtocolTCP, FromPort := G.swarmPort, ToPort := G.swarmPort,
       IpRange := ipRange }]
   else []) ++
  [{ IpProtocol := K.IpProtocolAll, FromPort := -1, ToPort := -1, IpRange := ipRange }]

/-- A baseline rule is present in the group when an existing entry has the
same starting port; the catch-all rule needs an allow-all entry. -/
def rulePresent (group : DescribeSecurityGroupAttributeResponse) (r : IpPermission) : Bool :=
  if r.FromPort = -1 then group.Permissions.any isAllowAll
  else group.Permissions.any (fun p => fromPortOf p = r.FromPort)

/-- No entry of the group makes the loop index a missing second part. -/
def portRangesIndexable (group : DescribeSecurityGroupAttributeResponse) : Prop :=
  ∀ p ∈ group.Permissions, fromPortOf p = -1 → 2 ≤ (splitSlash p.PortRange.data).length

/-- The ports of the baseline rules do not collide: the docker port differs
from -1 and 22, and for a swarm master the swarm port differs from -1, 22 and
the docker port. -/
def portsDistinct (G : Globals) (d : Driver) : Prop :=
  G.dockerPort ≠ -1 ∧ G.dockerPort ≠ 22 ∧
    (d.SwarmMaster = true →
      G.swarmPort ≠ -1 ∧ G.swarmPort ≠ 22 ∧ G.swarmPort ≠ G.dockerPort)

/-- The package ports are values of the Go type `int`. -/
def portsInRange (G : Globals) : Prop :=
  (intMin ≤ G.dockerPort ∧ G.dockerPort ≤ intMax) ∧
    (intMin ≤ G.swarmPort ∧ G.swarmPort ≤ intMax)

/-- The flags after the loop has read the entries `ps`, in closed form: each
`case` of the switch fires only when no earlier `case` does. -/
def scannedFlags (G : Globals) (f : PortFlags) (ps : List PermissionType) : PortFlags :=
  { hasSSHPort := f.hasSSHPort || ps.any (fun p => fromPortOf p = 22)
    hasDockerPort := f.hasDockerPort ||
      ps.any (fun p => fromPortOf p = G.dockerPort ∧ fromPortOf p ≠ -1 ∧ fromPortOf p ≠ 22)
    hasSwarmPort := f.hasSwarmPort ||
      ps.any (fun p => fromPortOf p = G.swarmPort ∧ fromPortOf p ≠ -1 ∧ fromPortOf p ≠ 22 ∧
        fromPortOf p ≠ G.dockerPort)
    hasAllIncomingPort := f.hasAllIncomingPort || ps.any isAllowAll }

/-- The entry a later describe call shows for an authorized rule: accepted,
with the port range the request carried; `report` is how the provider renders
the protocol name of the request. -/
def authorizedEntry (report : String → String) (d : Driver) (r : IpPermission) : PermissionType :=
  { IpProtocol := report (r.createAuthorizeSecurityGroupArgs d.Region d.SecurityGroupId).IpProtocol
    PortRange := (r.createAuthorizeSecurityGroupArgs d.Region d.SecurityGroupId).PortRange
    Policy := "Accept" }

/-- The group after the rules `perms` have been authorized. -/
def extendGroup (report : String → String) (d : Driver)
    (group : DescribeSecurityGroupAttributeResponse) (perms : List IpPermission) :
    DescribeSecurityGroupAttributeResponse :=
  { group with Permissions := group.Permissions ++ perms.map (authorizedEntry report d) }

/-! ## Observations on traces and example collaborators -/

/-- The instance ids passed to `DeleteInstance`, in call order. -/
def deleteCalls : List Event → List String
  | [] => []
  | e :: rest =>
    match e.call with
    | .DeleteInstance id => id :: deleteCalls rest
    | _ => deleteCalls rest

/-- Number of calls in the trace that satisfy `p`. -/
def countCalls (p : Call → Bool) (tr : List Event) : Nat :=
  (tr.filter (fun e => p e.call)).length

def isCreateRouteEntry : Call → Bool
  | .CreateRouteEntry _ _ _ => true
  | _ => false

def isAddBackendServers : Call → Bool
  | .AddBackendServers _ _ _ => true
  | _ => false

def isCreateSecurityGroup : Call → Bool
  | .CreateSecurityGroup _ _ _ => true
  | _ => false

def isDeleteInstance : Call → Bool
  | .DeleteInstance _ => true
  | _ => false

def isReleaseEip : Call → Bool
  | .ReleaseEipAddress _ => true
  | _ => false

/-- Calls that neither delete an instance nor release an elastic IP. -/
def quiet : Call → Bool
  | .DeleteInstance _ => false
  | .ReleaseEipAddress _ => false
  | _ => true

/-- The footprint of the steps that leave instances and elastic IPs alone. -/
def Quiet {α : Type} (m : M α) : Prop := Emits (fun e => quiet e.call = true) m

def exInstance : InstanceAttributesType :=
  { InstanceId := "i-1", RegionId := "cn-hangzhou", ZoneId := "z1", Status := .Stopped,
    InnerIpAddress := ["10.0.0.5"], PublicIpAddress := ["47.0.0.1"],
    VpcAttributes := { VpcId := "", PrivateIpAddress := [] },
    EipAddress := { AllocationId := "", IpAddress := "" } }

/-- A collaborator whose calls fail, with the error `err`, exactly when
`fails` says so, and that answers every successful call with fixed values. -/
def scriptedEnv (fails : List Event → Call → Bool) (err : Error)
    (inst : InstanceAttributesType) (listing : List SecurityGroupItemType) : Env :=
  { unit := fun tr c => if fails tr c then .error err else .ok ()
    text := fun tr c =>
      if fails tr c then .error err
      else
        match c with
        | .CreateInstance _ => .ok inst.InstanceId
        | .CreateSecurityGroup _ _ _ => .ok "sg-new"
        | .AllocateEipAddress _ _ => .ok "eip-1"
        | _ => .ok "text"
    inst := fun tr c => if fails tr c then .error err else .ok inst
    groups := fun tr c => if fails tr c then .error err else .ok (listing, none)
    group := fun tr c =>
      if fails tr c then .error err
      else
        match c with
        | .DescribeSecurityGroupAttribute id _ =>
          .ok { SecurityGroupId := id, SecurityGroupName := "docker-machine", VpcId := "",
                Permissions := [] }
        | _ => .error (.other "unexpected")
    images := fun tr c => if fails tr c then .error err else .ok (["ubuntu1404"], none)
    vpcs := fun tr c =>
      if fails tr c then .error err else .ok [{ VpcId := "vpc-1", VRouterId := "vr-1" }]
    vrouters := fun tr c =>
      if fails tr c then .error err
      else .ok [{ VRouterId := "vr-1", RouteTableIds := ["rt-1"] }]
    routeTables := fun tr c =>
      if fails tr c then .error err
      else .ok [{ RouteTableId := "rt-1", RouteEntrys := [] }]
    randomPassword := fun _ => "generated"
    waitForAttempts := 60
    defaultUbuntuImageID := "ubuntu1404_64_20G"
    defaultUbuntuImagePrefix := "ubuntu1404_64_20G_" }

/-! ## Elastic-IP release ordering -/

def isUnassociateOf (a : String) (e : Event) : Bool :=
  match e.call with
  | .UnassociateEipAddress b _ => a = b
  | _ => false

def isAvailableWaitOf (a : String) (e : Event) : Bool :=
  match e.call with
  | .WaitForEip _ b .Available _ => a = b
  | _ => false

def isAllocateEip (e : Event) : Bool :=
  match e.call with
  | .AllocateEipAddress _ _ => true
  | _ => false

/-- Every `ReleaseEipAddress a` in `rest` happens after a history (the events
before it, `hist` included) that `guard` accepts for `a`. -/
def releasesSatisfy (guard : List Event → String → Bool) : List Event → List Event → Bool
  | _, [] => true
  | hist, e :: rest =>
    (match e.call with
     | .ReleaseEipAddress a => guard hist a
     | _ => true) && releasesSatisfy guard (hist ++ [e]) rest

/-- The ordering as claimed: an earlier unassociate of the allocation and an
earlier wait for `Available` on it that returned success. -/
def claimedGuard (hist : List Event) (a : String) : Bool :=
  hist.any (isUnassociateOf a) && hist.any (fun w => isAvailableWaitOf a w && w.ok)

/-- The ordering of `Remove`: the release directly follows an unassociate of
the allocation and a wait for `Available` on it, whatever the two returned. -/
def teardownGuard (hist : List Event) (a : String) : Bool :=
  match hist.reverse with
  | w :: u :: _ => isAvailableWaitOf a w && isUnassociateOf a u
  | _ => false

/-- The ordering of `configNetwork`: the release directly follows a failed
wait for `Available` on the allocation, itself directly after the successful
`AllocateEipAddress`; the address was never associated. -/
def attachGuard (hist : List Event) (a : String) : Bool :=
  match hist.reverse with
  | w :: al :: _ => isAvailableWaitOf a w && !w.ok && (isAllocateEip al && al.ok)
  | _ => false

/-- Every release the computation makes is accepted by `guard`, whatever came
before the computation. -/
def Guarded {α : Type} (guard : List Event → String → Bool) (m : M α) : Prop :=
  ∀ tr, ∃ evs, (m tr).trace = tr ++ evs ∧ ∀ hist, releasesSatisfy guard hist evs = true

def exGroup (perms : List PermissionType) : DescribeSecurityGroupAttributeResponse :=
  { SecurityGroupId := "sg-1", SecurityGroupName := "docker-machine", VpcId := "",
    Permissions := perms }

def exDriver : Driver :=
  { MachineName := "m1", IPAddress := "", SwarmMaster := false, Region := "cn-hangzhou",
    ImageID := "img-1", SSHPassword := "pw", PublicKey := "", InstanceId := "", InstanceType := "ecs.t1.small",
    PrivateIPAddress := "", SecurityGroupId := "", SecurityGroupName := "docker-machine",
    VpcId := "", VSwitchId := "", Zone := "", PrivateIPOnly := false,
    InternetMaxBandwidthOut := 1, RouteCIDR := "", SLBID := "", SLBIPAddress := "",
    Tags := [], DiskSize := 0, DiskCategory := "", UpgradeKernel := false }

/-- Only the classic public-IP allocation fails. -/
def failAllocatePublicIp : List Event → Call → Bool := fun _ c =>
  match c with
  | .AllocatePublicIpAddress _ => true
  | _ => false

/-- Every load-balancer registration fails. -/
def failAddBackendServers : List Event → Call → Bool := fun _ c =>
  match c with
  | .AddBackendServers _ _ _ => true
  | _ => false

/-- Describing the existing group `sg-old` fails. -/
def failDescribeOldGroup : List Event → Call → Bool := fun _ c =>
  match c with
  | .DescribeSecurityGroupAttribute id _ => id = "sg-old"
  | _ => false

/-- A driver in classic mode with a load balancer configured. -/
def exSlbDriver : Driver := { exDriver with SLBID := "lb-1" }

/-- A driver in classic mode, private address only, with a load balancer. -/
def exPrivateSlbDriver : Driver := { exDriver with SLBID := "lb-1", PrivateIPOnly := true }

/-- Every route-entry creation fails. -/
def failCreateRouteEntry : List Event → Call → Bool := fun _ c =>
  match c with
  | .CreateRouteEntry _ _ _ => true
  | _ => false

/-- A driver in a private network with a route CIDR, private address only. -/
def exVpcDriver : Driver :=
  { exDriver with VpcId := "vpc-1", VSwitchId := "vsw-1", RouteCIDR := "10.2.0.0/16",
                  InstanceId := "i-1", PrivateIPOnly := true }

/-- The failures `addRouteEntry` retries, as the error classes are worded: an
API error with HTTP status 500, or with status 400 and the code
`IncorrectRouteEntryStatus`. -/
def transientRouteError (e : Error) : Prop :=
  (∃ code, e = .api 500 code) ∨ e = .api 400 "IncorrectRouteEntryStatus"

/-- A provider that reports the protocol names of requests in upper case. -/
def upperProtocol (s : String) : String :=
  if s = "all" then "ALL" else if s = "tcp" then "TCP" else s

/-- Waiting for the elastic IP to become available fails. -/
def failWaitForEip : List Event → Call → Bool := fun _ c =>
  match c with
  | .WaitForEip _ _ _ _ => true
  | _ => false

/-- An instance in a private network with an elastic IP attached. -/
def exEipInstance : InstanceAttributesType :=
  { exInstance with
    EipAddress := { AllocationId := "eip-1", IpAddress := "47.0.0.9" }
    PublicIpAddress := [] }

/-- A driver in a private network that wants a public address. -/
def exVpcPublicDriver : Driver :=
  { exDriver with VpcId := "vpc-1", VSwitchId := "vsw-1", InstanceId := "i-1" }

/-- The footprint of the steps that never delete an instance. -/
def NoDelete {α : Type} (m : M α) : Prop := Emits (fun e => isDeleteInstance e.call = false) m

/-- The computation returns from every trace: no panic, fuel never used up. -/
structure Total {α : Type} (m : M α) : Prop where
  out : ∀ tr, ∃ a tr1, m tr = .done a tr1

/-- Whenever the computation returns, the returned value satisfies `Q`. -/
structure Post {α : Type} (Q : α → Prop) (m : M α) : Prop where
  out : ∀ tr a tr1, m tr = .done a tr1 → Q a

/-- The describe calls that `removeRouteEntry` indexes answer, when they
succeed, with at least one element. -/
def DescribesNonEmpty (env : Env) : Prop :=
  (∀ tr c l, env.vpcs tr c = .ok l → l ≠ []) ∧
    (∀ tr c l, env.routeTables tr c = .ok l → l ≠ [])

/-- Waiting for the new instance to be stopped fails. -/
def failWaitStopped : List Event → Call → Bool := fun _ c =>
  match c with
  | .WaitForInstance _ .Stopped _ => true
  | _ => false

/-- The collaborator of the rollback example: only the wait for `Stopped`
fails. -/
def exRollbackEnv : Env := scriptedEnv failWaitStopped (.other "timeout") exInstance []

/-- The driver of the rollback example once the instance `i-1` is created. -/
def exCreatedDriver : Driver :=
  { exDriver with PublicKey := "text", SecurityGroupId := "sg-new", InstanceId := "i-1" }

def exConsts : EcsConsts := { IpProtocolTCP := "tcp", IpProtocolAll := "all" }

/-! ## Example collaborators for the later steps -/

/-- Associating the elastic IP with the instance fails. -/
def failAssociateEip : List Event → Call → Bool := fun _ c =>
  match c with
  | .AssociateEipAddress _ _ => true
  | _ => false

/-- Describing the instance fails. -/
def failDescribeInstance : List Event → Call → Bool := fun _ c =>
  match c with
  | .DescribeInstanceAttribute _ => true
  | _ => false

def isAddTags : Call → Bool
  | .AddTags _ _ _ => true
  | _ => false

def isStartInstance : Call → Bool
  | .StartInstance _ => true
  | _ => false

def isDeleteRouteEntry : Call → Bool
  | .DeleteRouteEntry _ _ _ => true
  | _ => false

/-- An instance in the private network `vpc-1`. -/
def exVpcInstance : InstanceAttributesType :=
  { exInstance with VpcAttributes := { VpcId := "vpc-1", PrivateIpAddress := ["10.1.0.5"] } }

/-- A collaborator in which every call succeeds and `DescribeVpcs` answers
with an empty list. -/
def exEmptyVpcsEnv : Env :=
  { scriptedEnv (fun _ _ => false) (.other "failed") exVpcInstance [] with
    vpcs := fun _ _ => .ok [] }

/-! ## Call alphabets of the network attach and of the teardown -/

/-- The calls `configNetwork` can make. -/
def attachCalls : Call → Bool
  | .AllocatePublicIpAddress _ => true
  | .DescribeVpcs _ _ => true
  | .DescribeVRouters _ _ => true
  | .CreateRouteEntry _ _ _ => true
  | .AllocateEipAddress _ _ => true
  | .WaitForEip _ _ _ _ => true
  | .AssociateEipAddress _ _ => true
  | .ReleaseEipAddress _ => true
  | .AddBackendServers _ _ _ => true
  | _ => false

/-- The calls `Remove` can make. -/
def teardownCalls : Call → Bool
  | .DescribeInstanceAttribute _ => true
  | .StopInstance _ _ => true
  | .WaitForInstance _ .Stopped _ => true
  | .UnassociateEipAddress _ _ => true
  | .WaitForEip _ _ _ _ => true
  | .ReleaseEipAddress _ => true
  | .DescribeVpcs _ _ => true
  | .DescribeRouteTables _ => true
  | .DeleteRouteEntry _ _ _ => true
  | .DeleteInstance _ => true
  | _ => false

/-- A driver in classic mode with one tag. -/
def exTaggedDriver : Driver := { exDriver with Tags := [("env", "test")] }

/-! ## Configuration from flags -/

/-- The flag values `SetConfigFromFlags` reads from `drivers.DriverOptions`. -/
structure DriverOptions where
  region : String
  accessKeyId : String
  accessKeySecret : String
  imageId : String
  instanceType : String
  vpcId : String
  vswitchId : String
  securityGroup : String
  zone : String
  swarmMaster : Bool
  swarmHost : String
  swarmDiscovery : String
  sshPassword : String
  privateAddressOnly : Bool
  internetMaxBandwidth : Int
  routeCidr : String
  slbId : String
  diskSize : Int
  diskCategory : String
  tags : List String
  upgradeKernel : Bool
deriving DecidableEq, Repr

/-- Functions `SetConfigFromFlags` calls that are not among the sources:
`validateECSRegion` of the package, `net.ParseCIDR` (its error only),
`url.Parse` followed by `.Host`, and `strings.TrimSpace`. -/
structure Lib where
  validateECSRegion : String → Except Error String
  ParseCIDR : String → Option Error
  urlParseHost : String → Except Error String
  TrimSpace : String → String

/-- `strings.Split(s, sep)` for a one-character separator. -/
def splitChar (sep : Char) : List Char → List (List Char)
  | [] => [[]]
  | c :: cs =>
    if c = sep then [] :: splitChar sep cs
    else
      match splitChar sep cs with
      | [] => [[c]]
      | h :: t => (c :: h) :: t

/-- `tagMap[k] = v` on a map kept as a list of pairs. -/
def insertTag (k v : String) (tagMap : List (String × String)) : List (String × String) :=
  tagMap.filter (fun p => p.1 ≠ k) ++ [(k, v)]

/-- The loop of `SetConfigFromFlags` over the `--aliyunecs-tag` values. -/
def parseTags (L : Lib) : List String → List (String × String) →
    Except Error (List (String × String))
  | [], tagMap => .ok tagMap
  | tag :: rest, tagMap =>
    match splitChar '=' tag.data with
    | [k, v] =>
      parseTags L rest (insertTag (L.TrimSpace (String.mk k)) (L.TrimSpace (String.mk v)) tagMap)
    | _ => .error (.other (tag ++ " | Invalid tag for --aliyunecs-tag"))

/-- The plain assignments at the start of `SetConfigFromFlags`. -/
def assignFlags (flags : DriverOptions) (region : String) (d : Driver) : Driver :=
  { d with
    AccessKey := flags.accessKeyId
    SecretKey := flags.accessKeySecret
    Region := region
    ImageID := flags.imageId
    InstanceType := flags.instanceType
    VpcId := flags.vpcId
    VSwitchId := flags.vswitchId
    SecurityGroupName := flags.securityGroup
    Zone := flags.zone
    SwarmMaster := flags.swarmMaster
    SwarmHost := flags.swarmHost
    SwarmDiscovery := flags.swarmDiscovery
    SSHUser := "root"
    SSHPassword := flags.sshPassword
    SSHPort := 22
    PrivateIPOnly := flags.privateAddressOnly
    InternetMaxBandwidthOut := flags.internetMaxBandwidth
    RouteCIDR := flags.routeCidr
    SLBID := flags.slbId
    DiskSize := flags.diskSize
    DiskCategory := flags.diskCategory
    UpgradeKernel := flags.upgradeKernel }

/-- The end of `SetConfigFromFlags`: for a swarm master the port of the swarm
host is stored in the package variable `swarmPort`. -/
def setSwarmPort (L : Lib) (d : Driver) (G : Globals) : M (Option Error × Driver × Globals) :=
  if d.SwarmMaster then
    match L.urlParseHost d.SwarmHost with
    | .error e => pure (some (.wrapped "error parsing swarm host" e), d, G)
    | .ok host =>
      match (splitChar ':' host.data)[1]? with
      | none => panicM
      | some part =>
        if (Atoi part).2 then pure (none, d, { G with swarmPort := (Atoi part).1 })
        else pure (some (.other "strconv.Atoi: invalid syntax or out of range"), d, G)
  else pure (none, d, G)

/-- `if len(tagMap) > 0 { d.Tags = tagMap }`. -/
def withTags (d : Driver) (tagMap : List (String × String)) : Driver :=
  if tagMap.length > 0 then { d with Tags := tagMap } else d

/-- `if d.InternetMaxBandwidthOut == 0 { d.InternetMaxBandwidthOut = 1 }`. -/
def withDefaultBandwidth (d : Driver) : Driver :=
  if d.InternetMaxBandwidthOut = 0 then { d with InternetMaxBandwidthOut := 1 } else d

/-- The checks of `SetConfigFromFlags` after the bandwidth default: access
key, secret, the VPC and VSwitch pair, then the swarm port. -/
def checkCredentials (L : Lib) (d : Driver) (G : Globals) : M (Option Error × Driver × Globals) :=
  if d.AccessKey = "" then
    pure (some (.other (d.MachineName ++
      " | aliyunecs driver requires the --aliyunecs-access-key-id option")), d, G)
  else if d.SecretKey = "" then
    pure (some (.other (d.MachineName ++
      " | aliyunecs driver requires the --aliyunecs-access-key-secret option")), d, G)
  else if (d.VpcId = "" ∧ d.VSwitchId ≠ "") ∨ (d.VpcId ≠ "" ∧ d.VSwitchId = "") then
    pure (some (.other (d.MachineName ++
      " | aliyunecs driver requires both the --aliyunecs-vpc-id and --aliyunecs-vswitch-id")),
      d, G)
  else setSwarmPort L d G

/-- The checks of `SetConfigFromFlags` on the route CIDR and the bandwidth,
and what follows them. -/
def validateConfig (L : Lib) (d : Driver) (G : Globals) : M (Option Error × Driver × Globals) :=
  if d.RouteCIDR ≠ "" ∧ (L.ParseCIDR d.RouteCIDR).isSome then
    pure (some (.other (d.MachineName ++ " | Invalid CIDR value for --aliyunecs-route-cidr")),
      d, G)
  else if d.InternetMaxBandwidthOut < 0 ∨ d.InternetMaxBandwidthOut > 100 then
    pure (some (.other (d.MachineName ++
      " | aliyunecs driver --aliyunecs-internet-max-bandwidth: The value should be in 1 ~ 100")),
      d, G)
  else checkCredentials L (withDefaultBandwidth d) G

/-- `SetConfigFromFlags`: the returned error, the driver and the package
variables as the call leaves them. -/
def SetConfigFromFlags (L : Lib) (flags : DriverOptions) (d : Driver) (G : Globals) :
    M (Option Error × Driver × Globals) :=
  match L.validateECSRegion flags.region with
  | .error e => pure (some e, d, G)
  | .ok region =>
    match parseTags L flags.tags [] with
    | .error e => pure (some e, assignFlags flags region d, G)
    | .ok tagMap => validateConfig L (withTags (assignFlags flags region d) tagMap) G

/-- Example library functions: every region and CIDR is valid, the host of a
URL is what follows its first six characters (`tcp://`). -/
def exLib : Lib :=
  { validateECSRegion := fun r => .ok r
    ParseCIDR := fun _ => none
    urlParseHost := fun u => .ok (String.mk (u.data.drop 6))
    TrimSpace := fun s => s }

/-- Example flags: classic network, default bandwidth, no swarm. -/
def exFlags : DriverOptions :=
  { region := "cn-hangzhou", accessKeyId := "key", accessKeySecret := "secret", imageId := "",
    instanceType := "ecs.t1.small", vpcId := "", vswitchId := "",
    securityGroup := "docker-machine", zone := "", swarmMaster := false, swarmHost := "",
    swarmDiscovery := "", sshPassword := "", privateAddressOnly := false,
    internetMaxBandwidth := 1, routeCidr := "", slbId := "", diskSize := 0, diskCategory := "",
    tags := [], upgradeKernel := false }

/-- Flags of a swarm master whose swarm host carries the port 4000. -/
def exSwarmFlags : DriverOptions :=
  { exFlags with swarmMaster := true, swarmHost := "tcp://0.0.0.0:4000" }

/-- The events of `n` failed attempts of the call `c`, as they stand in a
trace. -/
def failedAttempts (c : Call) (n : Nat) : List Event :=
  List.replicate n { call := c, ok := false }

/-- Only the first route-entry creation of a run fails. -/
def failFirstCreateRouteEntry : List Event → Call → Bool := fun tr c =>
  match c with
  | .CreateRouteEntry _ _ _ => countCalls isCreateRouteEntry tr == 0
  | _ => false

/-! # Theorems -/

/-! ## Running computations -/

@[simp] theorem pure_run {α : Type} (a : α) (tr : List Event) :
    (pure a : M α) tr = .done a tr := rfl

@[simp] theorem bind_run {α β : Type} (m : M α) (f : α → M β) (tr : List Event) :
    (m >>= f) tr =
      match m tr with
      | .done a tr1 => f a tr1
      | .panic tr1 => .panic tr1
      | .outOfFuel tr1 => .outOfFuel tr1 := rfl

@[simp] theorem ask_run {ρ : Type} (oracle : List Event → Call → Except Error ρ) (c : Call)
    (tr : List Event) :
    ask oracle c tr = .done (oracle tr c) (tr ++ [{ call := c, ok := isOk (oracle tr c) }]) := rfl

@[simp] theorem panicM_run {α : Type} (tr : List Event) : (panicM : M α) tr = .panic tr := rfl

@[simp] theorem outOfFuelM_run {α : Type} (tr : List Event) :
    (outOfFuelM : M α) tr = .outOfFuel tr := rfl

@[simp] theorem trace_done {α : Type} (a : α) (tr : List Event) :
    (Run.done a tr).trace = tr := rfl

@[simp] theorem trace_panic {α : Type} (tr : List Event) :
    (Run.panic tr : Run α).trace = tr := rfl

@[simp] theorem trace_outOfFuel {α : Type} (tr : List Event) :
    (Run.outOfFuel tr : Run α).trace = tr := rfl

/-! ## Footprint rules -/

theorem Emits_pure {α : Type} {P : Event → Prop} (a : α) : Emits P (pure a : M α) := by
  refine ⟨fun tr => ?_⟩
  exact ⟨[], by simp, by simp⟩

theorem Emits_panicM {α : Type} {P : Event → Prop} : Emits P (panicM : M α) := by
  refine ⟨fun tr => ?_⟩
  exact ⟨[], by simp, by simp⟩

theorem Emits_outOfFuelM {α : Type} {P : Event → Prop} : Emits P (outOfFuelM : M α) := by
  refine ⟨fun tr => ?_⟩
  exact ⟨[], by simp, by simp⟩

theorem Emits_ask {ρ : Type} {P : Event → Prop} (oracle : List Event → Call → Except Error ρ)
    (c : Call) (h : ∀ ok, P { call := c, ok := ok }) : Emits P (ask oracle c) := by
  refine ⟨fun tr => ?_⟩
  exact ⟨[{ call := c, ok := isOk (oracle tr c) }], by simp, by simpa using h _⟩

theorem Emits_bind {α β : Type} {P : Event → Prop} {m : M α} {f : α → M β}
    (hm : Emits P m) (hf : ∀ a, Emits P (f a)) : Emits P (m >>= f) := by
  refine ⟨fun tr => ?_⟩
  obtain ⟨evs, h1, h2⟩ := hm.out tr
  rw [bind_run]
  cases hr : m tr with
  | done a tr1 =>
    rw [hr] at h1
    simp only [trace_done] at h1
    obtain ⟨evs2, h3, h4⟩ := (hf a).out tr1
    refine ⟨evs ++ evs2, ?_, ?_⟩
    · simp only
      rw [h3, h1, List.append_assoc]
    · intro e he
      rcases List.mem_append.mp he with he | he
      · exact h2 e he
      · exact h4 e he
  | panic tr1 =>
    rw [hr] at h1
    exact ⟨evs, by simpa using h1, h2⟩
  | outOfFuel tr1 =>
    rw [hr] at h1
    exact ⟨evs, by simpa using h1, h2⟩

theorem Emits_mono {α : Type} {P Q : Event → Prop} {m : M α} (h : Emits P m)
    (hPQ : ∀ e, P e → Q e) : Emits Q m := by
  refine ⟨fun tr => ?_⟩
  obtain ⟨evs, h1, h2⟩ := h.out tr
  exact ⟨evs, h1, fun e he => hPQ e (h2 e he)⟩

theorem getInstance_quiet (env : Env) (d : Driver) : Quiet (getInstance env d) :=
  Emits_ask _ _ (fun _ => rfl)

theorem GetState_quiet (env : Env) (d : Driver) : Quiet (GetState env d) := by
  unfold GetState
  refine Emits_bind (getInstance_quiet env d) ?_
  intro r
  split
  · exact Emits_pure _
  · split <;> exact Emits_pure _

theorem Stop_quiet (env : Env) (d : Driver) : Quiet (Stop env d) := by
  unfold Stop
  refine Emits_bind (Emits_ask _ _ (fun _ => rfl)) ?_
  intro r
  split
  · exact Emits_pure _
  · exact Emits_bind (Emits_ask _ _ (fun _ => rfl)) (fun _ => Emits_pure _)

theorem deleteRouteEntryLoop_quiet (env : Env) (d : Driver) (routeEntry : RouteEntrySetType)
    (fuel count : Nat) : Quiet (deleteRouteEntryLoop env d routeEntry fuel count) := by
  induction fuel generalizing count with
  | zero => exact Emits_outOfFuelM
  | succ n ih =>
    unfold deleteRouteEntryLoop
    refine Emits_bind (Emits_ask _ _ (fun _ => rfl)) ?_
    intro r
    split
    · split
      · exact ih _
      · exact Emits_pure _
    · exact Emits_pure _

theorem removeRouteEntry_quiet (env : Env) (fuel : Nat) (d : Driver)
    (vpcId regionId instanceId : String) :
    Quiet (removeRouteEntry env fuel d vpcId regionId instanceId) := by
  unfold removeRouteEntry
  refine Emits_bind (Emits_ask _ _ (fun _ => rfl)) ?_
  intro r
  split
  · exact Emits_pure _
  · split
    · exact Emits_panicM
    · refine Emits_bind (Emits_ask _ _ (fun _ => rfl)) ?_
      intro r2
      split
      · exact Emits_pure _
      · split
        · exact Emits_panicM
        · split
          · exact Emits_pure _
          · exact deleteRouteEntryLoop_quiet _ _ _ _ _

theorem createRouteEntryLoop_quiet (env : Env) (d : Driver) (routeTableId : String)
    (fuel count : Nat) : Quiet (createRouteEntryLoop env d routeTableId fuel count) := by
  induction fuel generalizing count with
  | zero => exact Emits_outOfFuelM
  | succ n ih =>
    unfold createRouteEntryLoop
    refine Emits_bind (Emits_ask _ _ (fun _ => rfl)) ?_
    intro r
    split
    · exact Emits_pure _
    · split
      · exact ih _
      · exact Emits_pure _

theorem addRouteEntry_quiet (env : Env) (fuel : Nat) (d : Driver) (vpcId : String) :
    Quiet (addRouteEntry env fuel d vpcId) := by
  unfold addRouteEntry
  split
  · refine Emits_bind (Emits_ask _ _ (fun _ => rfl)) ?_
    intro r
    split
    · exact Emits_pure _
    · split
      · exact Emits_panicM
      · refine Emits_bind (Emits_ask _ _ (fun _ => rfl)) ?_
        intro r2
        split
        · exact Emits_pure _
        · split
          · exact Emits_panicM
          · split
            · exact Emits_panicM
            · exact createRouteEntryLoop_quiet _ _ _ _ _
  · exact Emits_pure _

theorem addBackendServersLoop_quiet (env : Env) (d : Driver) (instanceId : String)
    (fuel count : Nat) : Quiet (addBackendServersLoop env d instanceId fuel count) := by
  induction fuel generalizing count with
  | zero => exact Emits_outOfFuelM
  | succ n ih =>
    unfold addBackendServersLoop
    refine Emits_bind (Emits_ask _ _ (fun _ => rfl)) ?_
    intro r
    split
    · split
      · exact ih _
      · exact Emits_pure _
    · exact Emits_pure _

theorem registerBackend_quiet (env : Env) (fuel : Nat) (d : Driver) (instanceId : String)
    (err : Option Error) : Quiet (registerBackend env fuel d instanceId err) := by
  unfold registerBackend
  split
  · exact addBackendServersLoop_quiet _ _ _ _ _
  · exact Emits_pure _

/-! ## Effective IP selection -/

/-- C1: with `PrivateIPOnly` set, `getIP` is `GetPrivateIP` (first classic inner
address, else first VPC private address, else empty), whatever public or
elastic address the instance has; without it, `getIP` is the first public
address if there is one, else the elastic address if it is non-empty, else
the empty string. -/
theorem getIP_selection (d : Driver) (inst : InstanceAttributesType) :
    getIP { d with PrivateIPOnly := true } inst = GetPrivateIP inst ∧
    GetPrivateIP inst =
      inst.InnerIpAddress.head?.getD (inst.VpcAttributes.PrivateIpAddress.head?.getD "") ∧
    getIP { d with PrivateIPOnly := false } inst =
      (match inst.PublicIpAddress with
       | ip :: _ => ip
       | [] => if inst.EipAddress.IpAddress ≠ "" then inst.EipAddress.IpAddress else "") := by
  refine ⟨by simp [getIP], ?_, ?_⟩
  · unfold GetPrivateIP
    cases inst.InnerIpAddress <;> cases inst.VpcAttributes.PrivateIpAddress <;> rfl
  · simp only [getIP, Bool.false_eq_true, if_false]
    cases inst.PublicIpAddress with
    | cons ip rest => rfl
    | nil =>
      by_cases he : inst.EipAddress.IpAddress = ""
      · simp [he]
      · have : inst.EipAddress.IpAddress.length > 0 := by
          rcases hs : inst.EipAddress.IpAddress with ⟨l⟩
          cases l with
          | nil => exact absurd hs he
          | cons c cs => simp [String.length]
        simp [he, this]

/-! ## Network attach: dropped error and unbounded loop -/

/-- C3 (the code at the failing input): in classic mode with public addresses
wanted, `AllocatePublicIpAddress` fails and `configNetwork` still returns nil,
both without a load balancer and with one whose registration succeeds. -/
theorem configNetwork_drops_allocate_error :
    configNetwork (scriptedEnv failAllocatePublicIp (.other "failed") exInstance []) 30 exDriver "" "i-1" [] =
      .done none [{ call := .AllocatePublicIpAddress "i-1", ok := false }] ∧
    configNetwork (scriptedEnv failAllocatePublicIp (.other "failed") exInstance []) 30 exSlbDriver "" "i-1" [] =
      .done none [{ call := .AllocatePublicIpAddress "i-1", ok := false },
                  { call := .AddBackendServers "lb-1" "i-1" 100, ok := true }] := by
  constructor <;> decide

theorem addBackendServersLoop_stuck (env : Env) (d : Driver) (instanceId : String)
    (hfail : ∀ tr, isOk (env.unit tr (.AddBackendServers d.SLBID instanceId 100)) = false)
    (fuel : Nat) (tr : List Event) :
    addBackendServersLoop env d instanceId fuel 0 tr =
      .outOfFuel (tr ++ List.replicate fuel
        { call := .AddBackendServers d.SLBID instanceId 100, ok := false }) := by
  induction fuel generalizing tr with
  | zero => simp [addBackendServersLoop]
  | succ n ih =>
    have h := hfail tr
    unfold addBackendServersLoop
    simp only [bind_run, ask_run]
    cases hr : env.unit tr (.AddBackendServers d.SLBID instanceId 100) with
    | ok u => rw [hr] at h; simp [isOk] at h
    | error e =>
      simp only [isOk, Nat.zero_le, if_true]
      rw [ih]
      simp [List.replicate_succ]

/-- C4 (the code at the failing input): when every `AddBackendServers` call
fails, `configNetwork` has not returned after any number `fuel` of calls: the
counter the loop tests is never incremented. -/
theorem configNetwork_backend_loop_unbounded (fuel : Nat) :
    configNetwork (scriptedEnv failAddBackendServers (.other "failed") exInstance []) fuel exPrivateSlbDriver
        "" "i-1" [] =
      .outOfFuel (List.replicate fuel { call := .AddBackendServers "lb-1" "i-1" 100, ok := false }) ∧
    countCalls isAddBackendServers
      (configNetwork (scriptedEnv failAddBackendServers (.other "failed") exInstance []) fuel exPrivateSlbDriver
        "" "i-1" []).trace = fuel := by
  have h : configNetwork (scriptedEnv failAddBackendServers (.other "failed") exInstance []) fuel exPrivateSlbDriver
        "" "i-1" [] =
      .outOfFuel (List.replicate fuel { call := .AddBackendServers "lb-1" "i-1" 100, ok := false }) := by
    have := addBackendServersLoop_stuck (scriptedEnv failAddBackendServers (.other "failed") exInstance [])
      exPrivateSlbDriver "i-1" (fun tr => rfl) fuel []
    simpa [configNetwork, registerBackend, exPrivateSlbDriver, exDriver] using this
  refine ⟨h, ?_⟩
  rw [h]
  simp [countCalls, isAddBackendServers]

/-! ## Route-entry retry -/

theorem countCalls_append (p : Call → Bool) (xs ys : List Event) :
    countCalls p (xs ++ ys) = countCalls p xs + countCalls p ys := by
  simp [countCalls]

theorem countCalls_single (p : Call → Bool) (e : Event) :
    countCalls p [e] = if p e.call then 1 else 0 := by
  by_cases h : p e.call = true <;> simp [countCalls, h]

theorem retryable_of_transient {e : Error} (h : transientRouteError e) :
    retryableRouteError e = true := by
  rcases h with ⟨code, rfl⟩ | rfl <;> simp [retryableRouteError]

theorem transient_of_retryable {e : Error} (h : retryableRouteError e = true) :
    transientRouteError e := by
  cases e with
  | api st code =>
    simp only [retryableRouteError, Bool.or_eq_true, Bool.and_eq_true, decide_eq_true_eq] at h
    rcases h with h | ⟨h1, h2⟩
    · exact Or.inl ⟨code, by rw [h]⟩
    · exact Or.inr (by rw [h1, h2])
  | other msg => simp [retryableRouteError] at h
  | wrapped msg cause => simp [retryableRouteError] at h

/-- With every create failing on a retried error, the loop entered with
counter `count` makes `maxRetry + 1 - count` calls and returns an error. -/
theorem createRouteEntryLoop_exhausts (env : Env) (d : Driver) (routeTableId : String)
    (hfail : ∀ t c, isCreateRouteEntry c = true →
      ∃ e, env.unit t c = .error e ∧ transientRouteError e)
    (n : Nat) : ∀ (count fuel : Nat) (tr : List Event),
      count + (n + 1) = maxRetry + 1 → n + 1 ≤ fuel →
      ∃ e tr1, createRouteEntryLoop env d routeTableId fuel count tr = .done (some e) tr1 ∧
        countCalls isCreateRouteEntry tr1 = countCalls isCreateRouteEntry tr + (n + 1) := by
  induction n with
  | zero =>
    intro count fuel tr hc hf
    obtain ⟨f, rfl⟩ : ∃ f, fuel = f + 1 := ⟨fuel - 1, by omega⟩
    obtain ⟨e, he, ht⟩ := hfail tr (.CreateRouteEntry routeTableId d.RouteCIDR d.InstanceId) rfl
    have hcount : ¬ (count + 1 ≤ maxRetry) := by omega
    unfold createRouteEntryLoop
    simp only [bind_run, ask_run, he, hcount, and_false, if_false, pure_run]
    exact ⟨_, _, rfl, by simp [countCalls_append, countCalls_single, isCreateRouteEntry]⟩
  | succ n ih =>
    intro count fuel tr hc hf
    obtain ⟨f, rfl⟩ : ∃ f, fuel = f + 1 := ⟨fuel - 1, by omega⟩
    obtain ⟨e, he, ht⟩ := hfail tr (.CreateRouteEntry routeTableId d.RouteCIDR d.InstanceId) rfl
    have hcount : count + 1 ≤ maxRetry := by omega
    obtain ⟨e1, tr1, h1, h2⟩ := ih (count + 1) f
      (tr ++ [{ call := .CreateRouteEntry routeTableId d.RouteCIDR d.InstanceId, ok := false }])
      (by omega) (by omega)
    unfold createRouteEntryLoop
    simp only [bind_run, ask_run, he, hcount, retryable_of_transient ht, and_self, if_true, isOk]
    refine ⟨e1, tr1, h1, ?_⟩
    rw [h2]
    simp [countCalls_append, countCalls_single, isCreateRouteEntry]
    omega

/-- C5: when the route CIDR is set, the two describe calls answer with a
router and a route table, and every `CreateRouteEntry` call fails with a
retried error (status 500, or status 400 with code
`IncorrectRouteEntryStatus`), `addRouteEntry` calls `CreateRouteEntry` exactly
21 times and then returns an error. -/
theorem addRouteEntry_retry_bound (env : Env) (d : Driver) (vpcId : String) (fuel : Nat)
    (tr : List Event) (hcidr : d.RouteCIDR ≠ "") (hfuel : maxRetry + 1 ≤ fuel)
    (hvpcs : ∀ t, ∃ vpc rest, env.vpcs t (.DescribeVpcs vpcId d.Region) = .ok (vpc :: rest))
    (hvr : ∀ t vr, ∃ vrouter rest id ids,
      env.vrouters t (.DescribeVRouters vr d.Region) = .ok (vrouter :: rest) ∧
        vrouter.RouteTableIds = id :: ids)
    (hfail : ∀ t c, isCreateRouteEntry c = true →
      ∃ e, env.unit t c = .error e ∧ transientRouteError e) :
    ∃ e tr1, addRouteEntry env fuel d vpcId tr = .done (some e) tr1 ∧
      countCalls isCreateRouteEntry tr1 = countCalls isCreateRouteEntry tr + 21 := by
  obtain ⟨vpc, rest, hv⟩ := hvpcs tr
  obtain ⟨vrouter, rest2, id, ids, hr, hids⟩ :=
    hvr (tr ++ [{ call := .DescribeVpcs vpcId d.Region, ok := true }]) vpc.VRouterId
  obtain ⟨e, tr1, h1, h2⟩ := createRouteEntryLoop_exhausts env d id hfail 20 0 fuel
    (tr ++ [{ call := .DescribeVpcs vpcId d.Region, ok := true }] ++
      [{ call := .DescribeVRouters vpc.VRouterId d.Region, ok := true }])
    (by simp [maxRetry]) (by simpa [maxRetry] using hfuel)
  refine ⟨e, tr1, ?_, ?_⟩
  · unfold addRouteEntry
    simp only [hcidr, ne_eq, not_false_eq_true, if_true, bind_run, ask_run, hv, isOk, hr, hids]
    exact h1
  · rw [h2]
    simp [countCalls, isCreateRouteEntry]

/-- Witness of C5: a private-network driver whose every create fails with
status 500. -/
theorem addRouteEntry_retry_bound_witness :
    ∃ e tr1,
      addRouteEntry (scriptedEnv failCreateRouteEntry (.api 500 "InternalError") exInstance [])
        21 exVpcDriver "vpc-1" [] = .done (some e) tr1 ∧
      countCalls isCreateRouteEntry tr1 = countCalls isCreateRouteEntry [] + 21 :=
  addRouteEntry_retry_bound
    (scriptedEnv failCreateRouteEntry (.api 500 "InternalError") exInstance [])
    exVpcDriver "vpc-1" 21 [] (by decide) (by decide)
    (fun _ => ⟨_, _, rfl⟩)
    (fun _ _ => ⟨_, _, _, _, rfl, rfl⟩)
    (fun _ c hc => by
      cases c <;> simp [isCreateRouteEntry] at hc
      exact ⟨_, rfl, Or.inl ⟨_, rfl⟩⟩)

/-- A loop entered with fuel makes at least one create call. -/
theorem createRouteEntryLoop_calls (env : Env) (d : Driver) (routeTableId : String)
    (fuel count : Nat) (tr : List Event) :
    countCalls isCreateRouteEntry tr + 1 ≤
      countCalls isCreateRouteEntry
        (createRouteEntryLoop env d routeTableId (fuel + 1) count tr).trace := by
  unfold createRouteEntryLoop
  simp only [bind_run, ask_run]
  cases hr : env.unit tr (.CreateRouteEntry routeTableId d.RouteCIDR d.InstanceId) with
  | ok u => simp [countCalls_append, countCalls_single, isCreateRouteEntry]
  | error e =>
    simp only
    split
    · obtain ⟨evs, h1, _⟩ := (createRouteEntryLoop_quiet env d routeTableId fuel (count + 1)).out
        (tr ++ [{ call := .CreateRouteEntry routeTableId d.RouteCIDR d.InstanceId,
                  ok := isOk (Except.error e : Except Error Unit) }])
      rw [h1]
      simp only [countCalls_append, countCalls_single, isCreateRouteEntry, if_true]
      omega
    · simp [countCalls_append, countCalls_single, isCreateRouteEntry]

/-- C6 (counterexample): a create that fails with HTTP status 503, a status in
500..599, is not retried: one call, then the error. -/
theorem addRouteEntry_503_not_retried :
    ((500 : Int) ≤ 503 ∧ (503 : Int) ≤ 599) ∧
    addRouteEntry (scriptedEnv failCreateRouteEntry (.api 503 "ServiceUnavailable") exInstance [])
        30 exVpcDriver "vpc-1" [] =
      .done (some (.wrapped "m1 | Failed to create route entry" (.api 503 "ServiceUnavailable")))
        [{ call := .DescribeVpcs "vpc-1" "cn-hangzhou", ok := true },
         { call := .DescribeVRouters "vr-1" "cn-hangzhou", ok := true },
         { call := .CreateRouteEntry "rt-1" "10.2.0.0/16" "i-1", ok := false }] := by
  constructor <;> decide

theorem failedAttempts_succ (c : Call) (n : Nat) (tr : List Event) :
    tr ++ [{ call := c, ok := false }] ++ failedAttempts c n = tr ++ failedAttempts c (n + 1) := by
  simp [failedAttempts, List.replicate_succ]

/-- The loop of `addRouteEntry`, entered with counter `count`: the failed
attempts that were retried, the last attempt and the result. -/
theorem createRouteEntryLoop_classified (env : Env) (d : Driver) (id : String) :
    ∀ (fuel count : Nat) (tr0 : List Event), maxRetry + 1 ≤ fuel + count → count ≤ maxRetry →
    ∃ n r, count + n ≤ maxRetry ∧
      createRouteEntryLoop env d id fuel count tr0 =
        .done r (tr0 ++ failedAttempts (.CreateRouteEntry id d.RouteCIDR d.InstanceId) n ++
          [{ call := .CreateRouteEntry id d.RouteCIDR d.InstanceId,
             ok := isOk (env.unit
               (tr0 ++ failedAttempts (.CreateRouteEntry id d.RouteCIDR d.InstanceId) n)
               (.CreateRouteEntry id d.RouteCIDR d.InstanceId)) }]) ∧
      (∀ k, k ≤ n → (k < n ↔ ∃ e,
        env.unit (tr0 ++ failedAttempts (.CreateRouteEntry id d.RouteCIDR d.InstanceId) k)
          (.CreateRouteEntry id d.RouteCIDR d.InstanceId) = .error e ∧
        retryableRouteError e = true ∧ count + k < maxRetry)) ∧
      (∀ u, env.unit (tr0 ++ failedAttempts (.CreateRouteEntry id d.RouteCIDR d.InstanceId) n)
          (.CreateRouteEntry id d.RouteCIDR d.InstanceId) = .ok u → r = none) ∧
      (∀ e, env.unit (tr0 ++ failedAttempts (.CreateRouteEntry id d.RouteCIDR d.InstanceId) n)
          (.CreateRouteEntry id d.RouteCIDR d.InstanceId) = .error e →
        r = some (.wrapped (d.MachineName ++ " | Failed to create route entry") e)) := by
  intro fuel
  induction fuel with
  | zero => intro count tr0 h1 h2; omega
  | succ f ih =>
    intro count tr0 h1 h2
    unfold createRouteEntryLoop
    simp only [bind_run, ask_run]
    cases hans : env.unit tr0 (.CreateRouteEntry id d.RouteCIDR d.InstanceId) with
    | ok u =>
      refine ⟨0, none, by omega, ?_, ?_, ?_, ?_⟩
      · simp [failedAttempts, hans, isOk]
      · intro k hk
        have hk0 : k = 0 := by omega
        subst hk0
        simp [failedAttempts, hans]
      · intro _ _; rfl
      · intro e he
        simp [failedAttempts, hans] at he
    | error e =>
      simp only
      by_cases hc : retryableRouteError e = true ∧ count + 1 ≤ maxRetry
      · rw [if_pos hc]
        obtain ⟨n, r, hn, hrun, hiff, hok, herr⟩ := ih (count + 1)
          (tr0 ++ [{ call := .CreateRouteEntry id d.RouteCIDR d.InstanceId, ok := false }])
          (by omega) hc.2
        simp only [failedAttempts_succ] at hrun hiff hok herr
        refine ⟨n + 1, r, by omega, ?_, ?_, hok, herr⟩
        · simp only [isOk]
          exact hrun
        · intro k hk
          cases k with
          | zero =>
            simp only [failedAttempts, List.replicate_zero, List.append_nil, hans]
            constructor
            · intro _
              exact ⟨e, rfl, hc.1, by omega⟩
            · intro _
              omega
          | succ k1 =>
            have := hiff k1 (by omega)
            constructor
            · intro hlt
              obtain ⟨e1, h3, h4, h5⟩ := this.1 (by omega)
              exact ⟨e1, h3, h4, by omega⟩
            · intro ⟨e1, h3, h4, h5⟩
              have := this.2 ⟨e1, h3, h4, by omega⟩
              omega
      · rw [if_neg hc]
        refine ⟨0, some (.wrapped (d.MachineName ++ " | Failed to create route entry") e),
          by omega, ?_, ?_, ?_, ?_⟩
        · simp [failedAttempts, hans, isOk]
        · intro k hk
          have hk0 : k = 0 := by omega
          subst hk0
          simp only [failedAttempts, List.replicate_zero, List.append_nil, hans]
          constructor
          · intro h; omega
          · intro ⟨e1, h3, h4, h5⟩
            injection h3 with h3
            subst h3
            exact absurd ⟨h4, by omega⟩ hc
        · intro u hu
          simp [failedAttempts, hans] at hu
        · intro e1 he1
          simp only [failedAttempts, List.replicate_zero, List.append_nil, hans] at he1
          injection he1 with he1
          subst he1
          rfl

/-- C6 (amended): when the run reaches the loop, its trace after the two
describe calls is `n` failed `CreateRouteEntry` calls followed by one last
call, with `n` at most `maxRetry`. A call is followed by another one exactly
when it failed with an API error of status 500, or of status 400 with code
`IncorrectRouteEntryStatus`, and fewer than `maxRetry` retries were made
before it. The last call either succeeded, and `addRouteEntry` returns nil,
or failed, and `addRouteEntry` returns that error wrapped, at once. -/
theorem addRouteEntry_error_classification (env : Env) (d : Driver) (vpcId : String)
    (fuel : Nat) (tr : List Event)
    (vpc : VpcSetType) (rest : List VpcSetType)
    (vrouter : VRouterSetType) (rest2 : List VRouterSetType) (id : String) (ids : List String)
    (hcidr : d.RouteCIDR ≠ "") (hfuel : maxRetry + 1 ≤ fuel)
    (hv : env.vpcs tr (.DescribeVpcs vpcId d.Region) = .ok (vpc :: rest))
    (hr : env.vrouters (tr ++ [{ call := .DescribeVpcs vpcId d.Region, ok := true }])
      (.DescribeVRouters vpc.VRouterId d.Region) = .ok (vrouter :: rest2))
    (hids : vrouter.RouteTableIds = id :: ids) :
    ∃ n r, n ≤ maxRetry ∧
      addRouteEntry env fuel d vpcId tr =
        .done r (tr ++ [{ call := .DescribeVpcs vpcId d.Region, ok := true }] ++
          [{ call := .DescribeVRouters vpc.VRouterId d.Region, ok := true }] ++
          failedAttempts (.CreateRouteEntry id d.RouteCIDR d.InstanceId) n ++
          [{ call := .CreateRouteEntry id d.RouteCIDR d.InstanceId,
             ok := isOk (env.unit
               (tr ++ [{ call := .DescribeVpcs vpcId d.Region, ok := true }] ++
                 [{ call := .DescribeVRouters vpc.VRouterId d.Region, ok := true }] ++
                 failedAttempts (.CreateRouteEntry id d.RouteCIDR d.InstanceId) n)
               (.CreateRouteEntry id d.RouteCIDR d.InstanceId)) }]) ∧
      (∀ k, k ≤ n → (k < n ↔ ∃ e,
        env.unit (tr ++ [{ call := .DescribeVpcs vpcId d.Region, ok := true }] ++
            [{ call := .DescribeVRouters vpc.VRouterId d.Region, ok := true }] ++
            failedAttempts (.CreateRouteEntry id d.RouteCIDR d.InstanceId) k)
          (.CreateRouteEntry id d.RouteCIDR d.InstanceId) = .error e ∧
        transientRouteError e ∧ k < maxRetry)) ∧
      (∀ u, env.unit (tr ++ [{ call := .DescribeVpcs vpcId d.Region, ok := true }] ++
            [{ call := .DescribeVRouters vpc.VRouterId d.Region, ok := true }] ++
            failedAttempts (.CreateRouteEntry id d.RouteCIDR d.InstanceId) n)
          (.CreateRouteEntry id d.RouteCIDR d.InstanceId) = .ok u → r = none) ∧
      (∀ e, env.unit (tr ++ [{ call := .DescribeVpcs vpcId d.Region, ok := true }] ++
            [{ call := .DescribeVRouters vpc.VRouterId d.Region, ok := true }] ++
            failedAttempts (.CreateRouteEntry id d.RouteCIDR d.InstanceId) n)
          (.CreateRouteEntry id d.RouteCIDR d.InstanceId) = .error e →
        r = some (.wrapped (d.MachineName ++ " | Failed to create route entry") e)) := by
  have hrun : addRouteEntry env fuel d vpcId tr =
      createRouteEntryLoop env d id fuel 0
        (tr ++ [{ call := .DescribeVpcs vpcId d.Region, ok := true }] ++
          [{ call := .DescribeVRouters vpc.VRouterId d.Region, ok := true }]) := by
    unfold addRouteEntry
    simp only [hcidr, ne_eq, not_false_eq_true, if_true, bind_run, ask_run, hv, isOk, hr, hids]
  obtain ⟨n, r, hn, h1, hiff, hok, herr⟩ := createRouteEntryLoop_classified env d id fuel 0
    (tr ++ [{ call := .DescribeVpcs vpcId d.Region, ok := true }] ++
      [{ call := .DescribeVRouters vpc.VRouterId d.Region, ok := true }])
    (by omega) (by omega)
  refine ⟨n, r, by omega, by rw [hrun]; exact h1, ?_, hok, herr⟩
  intro k hk
  rw [hiff k hk]
  constructor
  · intro ⟨e, h3, h4, h5⟩
    exact ⟨e, h3, transient_of_retryable h4, by omega⟩
  · intro ⟨e, h3, h4, h5⟩
    exact ⟨e, h3, retryable_of_transient h4, by omega⟩

/-- Witness of C6: the first create fails with status 500 and is retried, the
second succeeds: two calls, then nil. -/
theorem addRouteEntry_error_classification_witness :
    (∃ n r, n ≤ maxRetry ∧
      addRouteEntry (scriptedEnv failFirstCreateRouteEntry (.api 500 "InternalError") exInstance [])
          21 exVpcDriver "vpc-1" [] =
        .done r ([] ++ [{ call := .DescribeVpcs "vpc-1" exVpcDriver.Region, ok := true }] ++
          [{ call := .DescribeVRouters "vr-1" exVpcDriver.Region, ok := true }] ++
          failedAttempts (.CreateRouteEntry "rt-1" exVpcDriver.RouteCIDR exVpcDriver.InstanceId) n ++
          [{ call := .CreateRouteEntry "rt-1" exVpcDriver.RouteCIDR exVpcDriver.InstanceId,
             ok := isOk ((scriptedEnv failFirstCreateRouteEntry (.api 500 "InternalError")
               exInstance []).unit
               ([] ++ [{ call := .DescribeVpcs "vpc-1" exVpcDriver.Region, ok := true }] ++
                 [{ call := .DescribeVRouters "vr-1" exVpcDriver.Region, ok := true }] ++
                 failedAttempts
                   (.CreateRouteEntry "rt-1" exVpcDriver.RouteCIDR exVpcDriver.InstanceId) n)
               (.CreateRouteEntry "rt-1" exVpcDriver.RouteCIDR exVpcDriver.InstanceId)) }])) ∧
    addRouteEntry (scriptedEnv failFirstCreateRouteEntry (.api 500 "InternalError") exInstance [])
        21 exVpcDriver "vpc-1" [] =
      .done none
        [{ call := .DescribeVpcs "vpc-1" "cn-hangzhou", ok := true },
         { call := .DescribeVRouters "vr-1" "cn-hangzhou", ok := true },
         { call := .CreateRouteEntry "rt-1" "10.2.0.0/16" "i-1", ok := false },
         { call := .CreateRouteEntry "rt-1" "10.2.0.0/16" "i-1", ok := true }] := by
  constructor
  · obtain ⟨n, r, h1, h2, _⟩ := addRouteEntry_error_classification
      (scriptedEnv failFirstCreateRouteEntry (.api 500 "InternalError") exInstance [])
      exVpcDriver "vpc-1" 21 [] { VpcId := "vpc-1", VRouterId := "vr-1" } []
      { VRouterId := "vr-1", RouteTableIds := ["rt-1"] } [] "rt-1" []
      (by decide) (by decide) rfl rfl rfl
    exact ⟨n, r, h1, h2⟩
  · decide

/-! ## Formatting and parsing port numbers -/

theorem digitVal_digitChar (k : Nat) (hk : k < 10) : digitVal (digitChar k) = some k := by
  interval_cases k <;> rfl

theorem digitChar_ne (k : Nat) (hk : k < 10) :
    digitChar k ≠ '/' ∧ digitChar k ≠ '-' ∧ digitChar k ≠ '+' := by
  interval_cases k <;> decide

theorem parse_natDigitsAux (fuel : Nat) : ∀ (n : Nat) (acc : List Char), n < fuel →
    parseDigitsFrom 0 (natDigitsAux fuel n acc) = parseDigitsFrom n acc := by
  induction fuel with
  | zero => intro n acc h; omega
  | succ f ih =>
    intro n acc h
    unfold natDigitsAux
    have hd : digitVal (digitChar (n % 10)) = some (n % 10) :=
      digitVal_digitChar _ (Nat.mod_lt _ (by omega))
    split
    · rename_i h0
      have : n % 10 = n := by omega
      rw [this] at hd
      simp only [parseDigitsFrom, hd, this, Nat.zero_mul, Nat.zero_add]
    · rename_i h0
      rw [ih (n / 10) _ (by omega)]
      simp only [parseDigitsFrom, hd]
      congr 1
      omega

theorem natDigitsAux_chars (fuel : Nat) : ∀ (n : Nat) (acc : List Char),
    ∀ c ∈ natDigitsAux fuel n acc, c ∈ acc ∨ ∃ k, k < 10 ∧ c = digitChar k := by
  induction fuel with
  | zero => intro n acc c hc; exact Or.inl hc
  | succ f ih =>
    intro n acc c hc
    unfold natDigitsAux at hc
    split at hc
    · rcases List.mem_cons.mp hc with h | h
      · exact Or.inr ⟨n % 10, Nat.mod_lt _ (by omega), h⟩
      · exact Or.inl h
    · rcases ih _ _ c hc with h | h
      · rcases List.mem_cons.mp h with h | h
        · exact Or.inr ⟨n % 10, Nat.mod_lt _ (by omega), h⟩
        · exact Or.inl h
      · exact Or.inr h

theorem natDigitsAux_ne_nil (fuel n : Nat) (acc : List Char) :
    natDigitsAux (fuel + 1) n acc ≠ [] ∨ False := by
  left
  induction fuel generalizing n acc with
  | zero => unfold natDigitsAux; split <;> simp [natDigitsAux]
  | succ f ih =>
    unfold natDigitsAux
    split
    · simp
    · exact ih _ _

theorem formatNat_chars (n : Nat) : ∀ c ∈ formatNat n, ∃ k, k < 10 ∧ c = digitChar k := by
  intro c hc
  rcases natDigitsAux_chars _ _ _ c hc with h | h
  · simp at h
  · exact h

theorem formatNat_ne_nil (n : Nat) : formatNat n ≠ [] := by
  rcases natDigitsAux_ne_nil n n [] with h | h
  · exact h
  · exact h.elim

theorem parse_formatNat (n : Nat) : parseUnsigned (formatNat n) = some n := by
  have h := parse_natDigitsAux (n + 1) n [] (by omega)
  have hne := formatNat_ne_nil n
  unfold formatNat at hne ⊢
  unfold parseUnsigned
  split
  · rename_i heq; exact absurd heq hne
  · rw [h]; rfl

theorem formatInt_no_slash (k : Int) : '/' ∉ formatInt k := by
  intro h
  unfold formatInt at h
  split at h
  · rcases List.mem_cons.mp h with h | h
    · exact absurd h (by decide)
    · obtain ⟨j, hj, hc⟩ := formatNat_chars _ _ h
      exact (digitChar_ne j hj).1 hc.symm
  · obtain ⟨j, hj, hc⟩ := formatNat_chars _ _ h
    exact (digitChar_ne j hj).1 hc.symm

/-- Reading back a formatted `int` gives the same number. -/
theorem Atoi_formatInt (k : Int) (hlo : intMin ≤ k) (hhi : k ≤ intMax) :
    Atoi (formatInt k) = (k, true) := by
  unfold formatInt
  split
  · rename_i hneg
    have hp := parse_formatNat k.natAbs
    have hnot : ¬ ((k.natAbs : Int) > -intMin) := by
      simp only [intMin] at hlo ⊢
      omega
    simp only [Atoi, if_true, hp, hnot, if_false]
    congr 1
    omega
  · rename_i hneg
    have hp := parse_formatNat k.natAbs
    have hne := formatNat_ne_nil k.natAbs
    cases hf : formatNat k.natAbs with
    | nil => exact absurd hf hne
    | cons c cs =>
      obtain ⟨j, hj, hc⟩ := formatNat_chars k.natAbs c (by rw [hf]; exact List.mem_cons_self _ _)
      have hc1 : c ≠ '-' := by rw [hc]; exact (digitChar_ne j hj).2.1
      have hc2 : c ≠ '+' := by rw [hc]; exact (digitChar_ne j hj).2.2
      rw [hf] at hp
      have hnot : ¬ ((k.natAbs : Int) > intMax) := by
        simp only [intMax] at hhi ⊢
        omega
      simp only [Atoi, hc1, hc2, if_false, hp, hnot]
      congr 1
      omega

theorem splitSlash_no_slash (l : List Char) (h : '/' ∉ l) : splitSlash l = [l] := by
  induction l with
  | nil => rfl
  | cons c cs ih =>
    have hc : c ≠ '/' := fun e => h (by rw [e]; exact List.mem_cons_self _ _)
    have hcs : '/' ∉ cs := fun e => h (List.mem_cons_of_mem _ e)
    simp [splitSlash, hc, ih hcs]

theorem splitSlash_append (l1 l2 : List Char) (h : '/' ∉ l1) :
    splitSlash (l1 ++ '/' :: l2) = l1 :: splitSlash l2 := by
  induction l1 with
  | nil => simp [splitSlash]
  | cons c cs ih =>
    have hc : c ≠ '/' := fun e => h (by rw [e]; exact List.mem_cons_self _ _)
    have hcs : '/' ∉ cs := fun e => h (List.mem_cons_of_mem _ e)
    simp [splitSlash, hc, ih hcs]

/-- The port range `from/to` of a request splits back into its two numbers. -/
theorem splitSlash_portRange (a b : Int) :
    splitSlash (formatInt a ++ '/' :: formatInt b) = [formatInt a, formatInt b] := by
  rw [splitSlash_append _ _ (formatInt_no_slash a), splitSlash_no_slash _ (formatInt_no_slash b)]

/-! ## The firewall-rule diff -/

theorem scanPermission_unfold (G : Globals) (f : PortFlags) (p : PermissionType) :
    scanPermission G f p =
      (if fromPortOf p = -1 then
        match (splitSlash p.PortRange.data)[1]? with
        | none => none
        | some hi =>
          if hi = "-1".data ∧ p.IpProtocol = "ALL" ∧ p.Policy = "Accept" then
            some { f with hasAllIncomingPort := true }
          else some f
      else if fromPortOf p = 22 then some { f with hasSSHPort := true }
      else if fromPortOf p = G.dockerPort then some { f with hasDockerPort := true }
      else if fromPortOf p = G.swarmPort then some { f with hasSwarmPort := true }
      else some f) := rfl

theorem scanPermission_eq (G : Globals) (f : PortFlags) (p : PermissionType)
    (hidx : fromPortOf p = -1 → 2 ≤ (splitSlash p.PortRange.data).length) :
    scanPermission G f p = some (scannedFlags G f [p]) := by
  rw [scanPermission_unfold]
  unfold scannedFlags isAllowAll
  cases f with
  | mk a b c e =>
  by_cases h1 : fromPortOf p = -1
  · have hlen := hidx h1
    obtain ⟨hi, hhi⟩ : ∃ hi, (splitSlash p.PortRange.data)[1]? = some hi := by
      cases hs : splitSlash p.PortRange.data with
      | nil => rw [hs] at hlen; simp at hlen
      | cons x t =>
        cases t with
        | nil => rw [hs] at hlen; simp at hlen
        | cons y t2 => exact ⟨y, by simp⟩
    have hd : G.dockerPort = -1 → True := fun _ => trivial
    by_cases h2 : hi = "-1".data ∧ p.IpProtocol = "ALL" ∧ p.Policy = "Accept"
    · obtain ⟨h2a, h2b, h2c⟩ := h2
      subst h2a
      simp [h1, hhi, h2b, h2c]
    · have h2n : ¬ (some hi = some "-1".data ∧ p.IpProtocol = "ALL" ∧ p.Policy = "Accept") := by
        intro hh
        exact h2 ⟨Option.some.inj hh.1, hh.2⟩
      simp only [h1, if_true, hhi, h2, if_false, List.any_cons, List.any_nil, Bool.or_false,
        h2n, and_false, decide_False, ne_eq, not_true_eq_false, false_and]
      simp
  · by_cases h2 : fromPortOf p = 22
    · simp [h1, h2]
    · by_cases h3 : fromPortOf p = G.dockerPort
      · have h1b : ¬ G.dockerPort = -1 := by rw [← h3]; exact h1
        have h2b : ¬ G.dockerPort = 22 := by rw [← h3]; exact h2
        simp [h3, h1b, h2b]
      · by_cases h4 : fromPortOf p = G.swarmPort
        · have h1b : ¬ G.swarmPort = -1 := by rw [← h4]; exact h1
          have h2b : ¬ G.swarmPort = 22 := by rw [← h4]; exact h2
          have h3b : ¬ G.swarmPort = G.dockerPort := by rw [← h4]; exact h3
          simp [h4, h1b, h2b, h3b]
        · simp [h1, h2, h3, h4]

theorem scannedFlags_cons (G : Globals) (f : PortFlags) (p : PermissionType)
    (ps : List PermissionType) :
    scannedFlags G (scannedFlags G f [p]) ps = scannedFlags G f (p :: ps) := by
  simp [scannedFlags, Bool.or_assoc]

theorem scanPermissions_eq (G : Globals) (ps : List PermissionType) : ∀ (f : PortFlags),
    (∀ p ∈ ps, fromPortOf p = -1 → 2 ≤ (splitSlash p.PortRange.data).length) →
    scanPermissions G f ps = some (scannedFlags G f ps) := by
  induction ps with
  | nil => intro f _; cases f; simp [scanPermissions, scannedFlags]
  | cons p ps ih =>
    intro f h
    unfold scanPermissions
    rw [scanPermission_eq G f p (h p (List.mem_cons_self _ _))]
    simp only
    rw [ih _ (fun q hq => h q (List.mem_cons_of_mem _ hq)), scannedFlags_cons]

theorem missingRules_eq_filter (K : EcsConsts) (G : Globals) (d : Driver)
    (g : DescribeSecurityGroupAttributeResponse) (hports : portsDistinct G d) :
    missingRules K G d (scannedFlags G ⟨false, false, false, false⟩ g.Permissions) =
      (baselineRules K G d).filter (fun r => !rulePresent g r) := by
  obtain ⟨hd1, hd2, hsw⟩ := hports
  have hb : (g.Permissions.any fun p =>
        decide (fromPortOf p = G.dockerPort ∧ fromPortOf p ≠ -1 ∧ fromPortOf p ≠ 22)) =
      g.Permissions.any (fun p => decide (fromPortOf p = G.dockerPort)) := by
    congr 1
    funext p
    by_cases h : fromPortOf p = G.dockerPort
    · simp [h, hd1, hd2]
    · simp [h]
  unfold missingRules scannedFlags baselineRules rulePresent
  simp only [Bool.false_or, hb]
  cases hm : d.SwarmMaster with
  | false =>
    obtain ⟨a, ha⟩ : ∃ a, (g.Permissions.any fun p => decide (fromPortOf p = 22)) = a := ⟨_, rfl⟩
    obtain ⟨b, hb2⟩ : ∃ b, (g.Permissions.any fun p => decide (fromPortOf p = G.dockerPort)) = b :=
      ⟨_, rfl⟩
    obtain ⟨e, he⟩ : ∃ e, (g.Permissions.any isAllowAll) = e := ⟨_, rfl⟩
    cases a <;> cases b <;> cases e <;> simp [List.filter, hd1, hd2, ha, hb2, he]
  | true =>
    obtain ⟨hs1, hs2, hs3⟩ := hsw hm
    have hc : (g.Permissions.any fun p =>
          decide (fromPortOf p = G.swarmPort ∧ fromPortOf p ≠ -1 ∧ fromPortOf p ≠ 22 ∧
            fromPortOf p ≠ G.dockerPort)) =
        g.Permissions.any (fun p => decide (fromPortOf p = G.swarmPort)) := by
      congr 1
      funext p
      by_cases h : fromPortOf p = G.swarmPort
      · simp [h, hs1, hs2, hs3]
      · simp [h]
    rw [hc]
    obtain ⟨a, ha⟩ : ∃ a, (g.Permissions.any fun p => decide (fromPortOf p = 22)) = a := ⟨_, rfl⟩
    obtain ⟨b, hb2⟩ : ∃ b, (g.Permissions.any fun p => decide (fromPortOf p = G.dockerPort)) = b :=
      ⟨_, rfl⟩
    obtain ⟨c, hc2⟩ : ∃ c, (g.Permissions.any fun p => decide (fromPortOf p = G.swarmPort)) = c :=
      ⟨_, rfl⟩
    obtain ⟨e, he⟩ : ∃ e, (g.Permissions.any isAllowAll) = e := ⟨_, rfl⟩
    cases a <;> cases b <;> cases c <;> cases e <;>
      simp [List.filter, hd1, hd2, hs1, hs2, ha, hb2, hc2, he]

theorem baselineRules_nodup (K : EcsConsts) (G : Globals) (d : Driver)
    (hports : portsDistinct G d) : (baselineRules K G d).Nodup := by
  obtain ⟨hd1, hd2, hsw⟩ := hports
  unfold baselineRules
  cases hm : d.SwarmMaster with
  | false =>
    simp [IpPermission.mk.injEq, hd1, hd2, Ne.symm hd2]
  | true =>
    obtain ⟨hs1, hs2, hs3⟩ := hsw hm
    simp [IpPermission.mk.injEq, hd1, hd2, hs1, hs2, hs3, Ne.symm hd2, Ne.symm hs2, Ne.symm hs3]

/-- C7 (counterexample): for a swarm master whose swarm port is 22 (a value
`SetConfigFromFlags` stores when the swarm host is given with port 22), the
rules computed for a group without permissions hold the rule for port 22
twice. -/
theorem configureSecurityGroupPermissions_duplicate_rule :
    configureSecurityGroupPermissions exConsts { dockerPort := 2376, swarmPort := 22 }
        { exDriver with SwarmMaster := true } (exGroup []) =
      some [{ IpProtocol := "tcp", FromPort := 22, ToPort := 22, IpRange := "0.0.0.0/0" },
            { IpProtocol := "tcp", FromPort := 2376, ToPort := 2376, IpRange := "0.0.0.0/0" },
            { IpProtocol := "tcp", FromPort := 22, ToPort := 22, IpRange := "0.0.0.0/0" },
            { IpProtocol := "all", FromPort := -1, ToPort := -1, IpRange := "0.0.0.0/0" }] ∧
    ¬ ([{ IpProtocol := "tcp", FromPort := 22, ToPort := 22, IpRange := "0.0.0.0/0" },
        { IpProtocol := "tcp", FromPort := 2376, ToPort := 2376, IpRange := "0.0.0.0/0" },
        { IpProtocol := "tcp", FromPort := 22, ToPort := 22, IpRange := "0.0.0.0/0" },
        { IpProtocol := "all", FromPort := -1, ToPort := -1, IpRange := "0.0.0.0/0" }] :
        List IpPermission).Nodup := by
  constructor <;> decide

/-- C7 (amended): when the baseline ports do not collide and no entry makes the
loop index a missing second part, `configureSecurityGroupPermissions` returns
the baseline rules [tcp 22, tcp dockerPort, tcp swarmPort (swarm master only),
all -1] that are not present in the group, in that order; the result has no
rule outside the baseline and no rule twice, and for a group without
permissions it is the whole baseline (3 rules, 4 for a swarm master). -/
theorem configureSecurityGroupPermissions_diff (K : EcsConsts) (G : Globals) (d : Driver)
    (g : DescribeSecurityGroupAttributeResponse)
    (hports : portsDistinct G d) (hidx : portRangesIndexable g) :
    configureSecurityGroupPermissions K G d g =
      some ((baselineRules K G d).filter (fun r => !rulePresent g r)) ∧
    ((baselineRules K G d).filter (fun r => !rulePresent g r)).Sublist (baselineRules K G d) ∧
    ((baselineRules K G d).filter (fun r => !rulePresent g r)).Nodup ∧
    (g.Permissions = [] →
      (baselineRules K G d).filter (fun r => !rulePresent g r) = baselineRules K G d) ∧
    (baselineRules K G d).length = (if d.SwarmMaster then 4 else 3) := by
  refine ⟨?_, List.filter_sublist _, (baselineRules_nodup K G d hports).filter _, ?_, ?_⟩
  · unfold configureSecurityGroupPermissions
    rw [scanPermissions_eq G g.Permissions _ hidx]
    simp only
    rw [missingRules_eq_filter K G d g hports]
  · intro hempty
    apply List.filter_eq_self.mpr
    intro r _
    simp [rulePresent, hempty]
  · unfold baselineRules
    cases d.SwarmMaster <;> rfl

/-- Witness of C7: the default ports and a group that already allows port 22. -/
theorem configureSecurityGroupPermissions_diff_witness :
    configureSecurityGroupPermissions exConsts initGlobals exDriver
        (exGroup [{ IpProtocol := "TCP", PortRange := "22/22", Policy := "Accept" }]) =
      some ((baselineRules exConsts initGlobals exDriver).filter (fun r =>
        !rulePresent (exGroup [{ IpProtocol := "TCP", PortRange := "22/22", Policy := "Accept" }]) r)) ∧
    ((baselineRules exConsts initGlobals exDriver).filter (fun r =>
        !rulePresent (exGroup [{ IpProtocol := "TCP", PortRange := "22/22", Policy := "Accept" }]) r)).Sublist
      (baselineRules exConsts initGlobals exDriver) ∧
    ((baselineRules exConsts initGlobals exDriver).filter (fun r =>
        !rulePresent (exGroup [{ IpProtocol := "TCP", PortRange := "22/22", Policy := "Accept" }]) r)).Nodup ∧
    ((exGroup [{ IpProtocol := "TCP", PortRange := "22/22", Policy := "Accept" }]).Permissions = [] →
      (baselineRules exConsts initGlobals exDriver).filter (fun r =>
        !rulePresent (exGroup [{ IpProtocol := "TCP", PortRange := "22/22", Policy := "Accept" }]) r) =
        baselineRules exConsts initGlobals exDriver) ∧
    (baselineRules exConsts initGlobals exDriver).length =
      (if exDriver.SwarmMaster then 4 else 3) :=
  configureSecurityGroupPermissions_diff exConsts initGlobals exDriver
    (exGroup [{ IpProtocol := "TCP", PortRange := "22/22", Policy := "Accept" }])
    ⟨by decide, by decide, fun h => absurd h (by decide)⟩
    (by
      intro p hp
      simp only [exGroup, List.mem_singleton] at hp
      subst hp
      intro _
      decide)

/-! ## Reconciling twice -/

theorem scanPermissions_append (G : Globals) (xs ys : List PermissionType) : ∀ (f : PortFlags),
    scanPermissions G f (xs ++ ys) =
      (match scanPermissions G f xs with
       | none => none
       | some f1 => scanPermissions G f1 ys) := by
  induction xs with
  | nil => intro f; simp [scanPermissions]
  | cons p ps ih =>
    intro f
    simp only [List.cons_append, scanPermissions]
    cases scanPermission G f p with
    | none => rfl
    | some f1 => exact ih f1

theorem split_authorizedEntry (report : String → String) (d : Driver) (r : IpPermission) :
    splitSlash (authorizedEntry report d r).PortRange.data =
      [formatInt r.FromPort, formatInt r.ToPort] :=
  splitSlash_portRange r.FromPort r.ToPort

theorem fromPortOf_authorizedEntry (report : String → String) (d : Driver) (r : IpPermission)
    (hlo : intMin ≤ r.FromPort) (hhi : r.FromPort ≤ intMax) :
    fromPortOf (authorizedEntry report d r) = r.FromPort := by
  unfold fromPortOf
  rw [split_authorizedEntry]
  simp [Atoi_formatInt r.FromPort hlo hhi]

theorem authorizedEntries_indexable (report : String → String) (d : Driver)
    (perms : List IpPermission) :
    ∀ p ∈ perms.map (authorizedEntry report d),
      fromPortOf p = -1 → 2 ≤ (splitSlash p.PortRange.data).length := by
  intro p hp _
  obtain ⟨r, _, rfl⟩ := List.mem_map.mp hp
  rw [split_authorizedEntry]
  simp

theorem isAllowAll_authorizedEntry (report : String → String) (d : Driver) (K : EcsConsts)
    (hrep : report K.IpProtocolAll = "ALL") :
    isAllowAll (authorizedEntry report d
      { IpProtocol := K.IpProtocolAll, FromPort := -1, ToPort := -1, IpRange := ipRange }) = true := by
  have hfp := fromPortOf_authorizedEntry report d
    { IpProtocol := K.IpProtocolAll, FromPort := -1, ToPort := -1, IpRange := ipRange }
    (show intMin ≤ (-1 : Int) by decide) (show (-1 : Int) ≤ intMax by decide)
  have hsp := split_authorizedEntry report d
    { IpProtocol := K.IpProtocolAll, FromPort := -1, ToPort := -1, IpRange := ipRange }
  have hfmt : formatInt (-1) = "-1".data := by decide
  unfold isAllowAll
  rw [hfp, hsp]
  simp only [hfmt]
  simp [authorizedEntry, IpPermission.createAuthorizeSecurityGroupArgs, hrep]

/-- Scanning the entries of the rules that were missing sets every flag that
still matters. -/
theorem missingRules_after_authorize (K : EcsConsts) (G : Globals) (d : Driver)
    (report : String → String) (f : PortFlags)
    (hports : portsDistinct G d) (hrange : portsInRange G)
    (hrep : report K.IpProtocolAll = "ALL") :
    missingRules K G d
      (scannedFlags G f ((missingRules K G d f).map (authorizedEntry report d))) = [] := by
  obtain ⟨hd1, hd2, hsw⟩ := hports
  obtain ⟨⟨hdlo, hdhi⟩, ⟨hslo, hshi⟩⟩ := hrange
  have h22 := fromPortOf_authorizedEntry report d
    { IpProtocol := K.IpProtocolTCP, FromPort := 22, ToPort := 22, IpRange := ipRange }
    (show intMin ≤ (22 : Int) by decide) (show (22 : Int) ≤ intMax by decide)
  have hdk := fromPortOf_authorizedEntry report d
    { IpProtocol := K.IpProtocolTCP, FromPort := G.dockerPort, ToPort := G.dockerPort,
      IpRange := ipRange } hdlo hdhi
  have hsp := fromPortOf_authorizedEntry report d
    { IpProtocol := K.IpProtocolTCP, FromPort := G.swarmPort, ToPort := G.swarmPort,
      IpRange := ipRange } hslo hshi
  have hall := isAllowAll_authorizedEntry report d K hrep
  cases f with
  | mk a b c e =>
  cases hm : d.SwarmMaster with
  | false =>
    cases a <;> cases b <;> cases c <;> cases e <;>
      simp [missingRules, scannedFlags, hm, h22, hdk, hall, hd1, hd2]
  | true =>
    obtain ⟨hs1, hs2, hs3⟩ := hsw hm
    cases a <;> cases b <;> cases c <;> cases e <;>
      simp [missingRules, scannedFlags, hm, h22, hdk, hsp, hall, hd1, hd2, hs1, hs2, hs3]

/-- C8 (counterexample): with the entries carrying the protocol exactly as
`createAuthorizeSecurityGroupArgs` sends it, a second run is not empty: the
catch-all rule is sent with the protocol constant of the client (here `all`)
while the diff looks for `ALL`; and for a swarm master with swarm port 22 the
swarm rule is computed again whatever the constant is. -/
theorem second_reconciliation_not_empty :
    (configureSecurityGroupPermissions exConsts initGlobals exDriver
        (extendGroup id exDriver (exGroup [])
          [{ IpProtocol := "tcp", FromPort := 22, ToPort := 22, IpRange := "0.0.0.0/0" },
           { IpProtocol := "tcp", FromPort := 2376, ToPort := 2376, IpRange := "0.0.0.0/0" },
           { IpProtocol := "all", FromPort := -1, ToPort := -1, IpRange := "0.0.0.0/0" }]) =
      some [{ IpProtocol := "all", FromPort := -1, ToPort := -1, IpRange := "0.0.0.0/0" }] ∧
     configureSecurityGroupPermissions exConsts initGlobals exDriver (exGroup []) =
      some [{ IpProtocol := "tcp", FromPort := 22, ToPort := 22, IpRange := "0.0.0.0/0" },
            { IpProtocol := "tcp", FromPort := 2376, ToPort := 2376, IpRange := "0.0.0.0/0" },
            { IpProtocol := "all", FromPort := -1, ToPort := -1, IpRange := "0.0.0.0/0" }]) ∧
    (configureSecurityGroupPermissions { IpProtocolTCP := "TCP", IpProtocolAll := "ALL" }
        { dockerPort := 2376, swarmPort := 22 } { exDriver with SwarmMaster := true }
        (extendGroup id { exDriver with SwarmMaster := true } (exGroup [])
          [{ IpProtocol := "TCP", FromPort := 22, ToPort := 22, IpRange := "0.0.0.0/0" },
           { IpProtocol := "TCP", FromPort := 2376, ToPort := 2376, IpRange := "0.0.0.0/0" },
           { IpProtocol := "TCP", FromPort := 22, ToPort := 22, IpRange := "0.0.0.0/0" },
           { IpProtocol := "ALL", FromPort := -1, ToPort := -1, IpRange := "0.0.0.0/0" }]) =
      some [{ IpProtocol := "TCP", FromPort := 22, ToPort := 22, IpRange := "0.0.0.0/0" }] ∧
     configureSecurityGroupPermissions { IpProtocolTCP := "TCP", IpProtocolAll := "ALL" }
        { dockerPort := 2376, swarmPort := 22 } { exDriver with SwarmMaster := true }
        (exGroup []) =
      some [{ IpProtocol := "TCP", FromPort := 22, ToPort := 22, IpRange := "0.0.0.0/0" },
            { IpProtocol := "TCP", FromPort := 2376, ToPort := 2376, IpRange := "0.0.0.0/0" },
            { IpProtocol := "TCP", FromPort := 22, ToPort := 22, IpRange := "0.0.0.0/0" },
            { IpProtocol := "ALL", FromPort := -1, ToPort := -1, IpRange := "0.0.0.0/0" }]) := by
  refine ⟨⟨?_, ?_⟩, ⟨?_, ?_⟩⟩ <;> decide

/-- C8 (amended): when the baseline ports do not collide and are Go `int`
values, and the first run returns the rules `perms`, then for the group
extended with one accepted entry per rule of `perms`, each with the port range
`from/to` of the request and the protocol as the provider reports it (the
all-protocols constant as `ALL`), a second run returns no rule. -/
theorem second_reconciliation_empty (K : EcsConsts) (G : Globals) (d : Driver)
    (g : DescribeSecurityGroupAttributeResponse) (report : String → String)
    (perms : List IpPermission)
    (hports : portsDistinct G d) (hrange : portsInRange G)
    (hrep : report K.IpProtocolAll = "ALL")
    (hfirst : configureSecurityGroupPermissions K G d g = some perms) :
    configureSecurityGroupPermissions K G d (extendGroup report d g perms) = some [] := by
  unfold configureSecurityGroupPermissions at hfirst ⊢
  cases hscan : scanPermissions G ⟨false, false, false, false⟩ g.Permissions with
  | none => rw [hscan] at hfirst; simp at hfirst
  | some f =>
    rw [hscan] at hfirst
    simp only [Option.some.injEq] at hfirst
    subst hfirst
    simp only [extendGroup, scanPermissions_append, hscan]
    rw [scanPermissions_eq G _ f (authorizedEntries_indexable report d _)]
    simp only
    rw [missingRules_after_authorize K G d report f hports hrange hrep]

/-- Witness of C8: the default ports, an empty group, and a provider that
reports protocol names in upper case. -/
theorem second_reconciliation_empty_witness :
    configureSecurityGroupPermissions exConsts initGlobals exDriver
      (extendGroup upperProtocol exDriver (exGroup [])
        [{ IpProtocol := "tcp", FromPort := 22, ToPort := 22, IpRange := "0.0.0.0/0" },
         { IpProtocol := "tcp", FromPort := 2376, ToPort := 2376, IpRange := "0.0.0.0/0" },
         { IpProtocol := "all", FromPort := -1, ToPort := -1, IpRange := "0.0.0.0/0" }]) =
      some [] :=
  second_reconciliation_empty exConsts initGlobals exDriver (exGroup []) upperProtocol
    [{ IpProtocol := "tcp", FromPort := 22, ToPort := 22, IpRange := "0.0.0.0/0" },
     { IpProtocol := "tcp", FromPort := 2376, ToPort := 2376, IpRange := "0.0.0.0/0" },
     { IpProtocol := "all", FromPort := -1, ToPort := -1, IpRange := "0.0.0.0/0" }]
    ⟨by decide, by decide, fun h => absurd h (by decide)⟩
    ⟨⟨by decide, by decide⟩, ⟨by decide, by decide⟩⟩
    (by decide) (by decide)

/-! ## Elastic-IP release ordering -/

theorem releasesSatisfy_append (guard : List Event → String → Bool) (xs ys : List Event) :
    ∀ hist, releasesSatisfy guard hist (xs ++ ys) =
      (releasesSatisfy guard hist xs && releasesSatisfy guard (hist ++ xs) ys) := by
  induction xs with
  | nil => intro hist; simp [releasesSatisfy]
  | cons x xs ih =>
    intro hist
    simp [releasesSatisfy, ih, Bool.and_assoc]

theorem releasesSatisfy_of_no_release (guard : List Event → String → Bool) (xs : List Event)
    (h : ∀ e ∈ xs, isReleaseEip e.call = false) :
    ∀ hist, releasesSatisfy guard hist xs = true := by
  induction xs with
  | nil => intro hist; rfl
  | cons x xs ih =>
    intro hist
    have hx := h x (List.mem_cons_self _ _)
    have := ih (fun e he => h e (List.mem_cons_of_mem _ he)) (hist ++ [x])
    simp only [releasesSatisfy, this, Bool.and_true]
    cases hc : x.call <;> simp_all [isReleaseEip]

theorem quiet_no_release (c : Call) (h : quiet c = true) : isReleaseEip c = false := by
  cases c <;> simp_all [quiet, isReleaseEip]

theorem Guarded_of_quiet {α : Type} {guard : List Event → String → Bool} {m : M α}
    (h : Quiet m) : Guarded guard m := by
  intro tr
  obtain ⟨evs, h1, h2⟩ := h.out tr
  exact ⟨evs, h1, releasesSatisfy_of_no_release guard evs
    (fun e he => quiet_no_release _ (h2 e he))⟩

theorem Guarded_pure {α : Type} {guard : List Event → String → Bool} (a : α) :
    Guarded guard (pure a : M α) :=
  Guarded_of_quiet (Emits_pure a)

theorem Guarded_ask {ρ : Type} {guard : List Event → String → Bool}
    (oracle : List Event → Call → Except Error ρ) (c : Call) (h : isReleaseEip c = false) :
    Guarded guard (ask oracle c) := by
  intro tr
  refine ⟨[{ call := c, ok := isOk (oracle tr c) }], by simp, ?_⟩
  exact releasesSatisfy_of_no_release guard _ (by simpa using h)

theorem Guarded_bind {α β : Type} {guard : List Event → String → Bool} {m : M α}
    {f : α → M β} (hm : Guarded guard m) (hf : ∀ a, Guarded guard (f a)) :
    Guarded guard (m >>= f) := by
  intro tr
  obtain ⟨evs, h1, h2⟩ := hm tr
  rw [bind_run]
  cases hr : m tr with
  | done a tr1 =>
    rw [hr] at h1
    simp only [trace_done] at h1
    obtain ⟨evs2, h3, h4⟩ := hf a tr1
    refine ⟨evs ++ evs2, ?_, ?_⟩
    · simp only
      rw [h3, h1, List.append_assoc]
    · intro hist
      rw [releasesSatisfy_append, h2, h4]
      rfl
  | panic tr1 =>
    rw [hr] at h1
    exact ⟨evs, by simpa using h1, h2⟩
  | outOfFuel tr1 =>
    rw [hr] at h1
    exact ⟨evs, by simpa using h1, h2⟩

theorem removeCleanup_guarded (env : Env) (fuel : Nat) (d : Driver) :
    Guarded teardownGuard (removeCleanup env fuel d) := by
  unfold removeCleanup
  refine Guarded_bind (Guarded_of_quiet (GetState_quiet env d)) ?_
  intro st
  refine Guarded_bind (m := if st.2 = none ∧ st.1 = .Running then Stop env d else pure none) ?_ ?_
  · split
    · exact Guarded_of_quiet (Stop_quiet env d)
    · exact Guarded_pure _
  intro _
  refine Guarded_bind (Guarded_of_quiet (getInstance_quiet env d)) ?_
  intro r
  split
  · exact Guarded_pure _
  · rename_i inst
    refine Guarded_bind ?_ ?_
    · split
      · intro tr
        simp only [bind_run, ask_run, pure_run, trace_done, List.append_assoc]
        refine ⟨_, rfl, ?_⟩
        intro hist
        simp [releasesSatisfy, teardownGuard, isAvailableWaitOf, isUnassociateOf]
      · exact Guarded_pure _
    · intro _
      split
      · exact Guarded_bind (Guarded_of_quiet (removeRouteEntry_quiet _ _ _ _ _ _))
          (fun _ => Guarded_pure _)
      · exact Guarded_pure _

theorem Remove_guarded (env : Env) (fuel : Nat) (d : Driver) :
    Guarded teardownGuard (Remove env fuel d) := by
  unfold Remove
  split
  · exact Guarded_pure _
  · refine Guarded_bind (removeCleanup_guarded env fuel d) ?_
    intro _
    refine Guarded_bind (Guarded_ask _ _ rfl) ?_
    intro r
    split <;> exact Guarded_pure _

theorem attachEip_guarded (env : Env) (d : Driver) (instanceId : String) :
    Guarded attachGuard (attachEip env d instanceId) := by
  intro tr
  unfold attachEip
  simp only [bind_run, ask_run]
  generalize env.text _ _ = r1
  cases r1 with
  | error e =>
    simp only [pure_run, trace_done]
    exact ⟨_, rfl, releasesSatisfy_of_no_release _ _ (by simp [isReleaseEip])⟩
  | ok allocationId =>
    simp only [bind_run, ask_run]
    generalize env.unit _ _ = r2
    cases r2 with
    | error e =>
      simp only [bind_run, ask_run, pure_run, trace_done, List.append_assoc]
      refine ⟨_, rfl, ?_⟩
      intro hist
      simp [releasesSatisfy, attachGuard, isAvailableWaitOf, isAllocateEip, isOk]
    | ok u =>
      simp only [bind_run, ask_run]
      generalize env.unit _ _ = r3
      cases r3 with
      | error e =>
        simp only [pure_run, trace_done, List.append_assoc]
        exact ⟨_, rfl, releasesSatisfy_of_no_release _ _ (by simp [isReleaseEip])⟩
      | ok u2 =>
        simp only [bind_run, ask_run]
        generalize env.unit _ _ = r4
        cases r4 with
        | error e =>
          simp only [pure_run, trace_done, List.append_assoc]
          exact ⟨_, rfl, releasesSatisfy_of_no_release _ _ (by simp [isReleaseEip])⟩
        | ok u3 =>
          simp only [pure_run, trace_done, List.append_assoc]
          exact ⟨_, rfl, releasesSatisfy_of_no_release _ _ (by simp [isReleaseEip])⟩

theorem configNetwork_guarded (env : Env) (fuel : Nat) (d : Driver) (vpcId instanceId : String) :
    Guarded attachGuard (configNetwork env fuel d vpcId instanceId) := by
  unfold configNetwork
  split
  · refine Guarded_bind ?_ (fun _ => Guarded_of_quiet (registerBackend_quiet _ _ _ _ _))
    split
    · refine Guarded_bind (Guarded_ask _ _ rfl) ?_
      intro r
      split <;> exact Guarded_pure _
    · exact Guarded_pure _
  · refine Guarded_bind (Guarded_of_quiet (addRouteEntry_quiet _ _ _ _)) ?_
    intro err
    split
    · exact Guarded_pure _
    · split
      · refine Guarded_bind (attachEip_guarded env d instanceId) ?_
        intro err2
        split
        · exact Guarded_pure _
        · exact Guarded_of_quiet (registerBackend_quiet _ _ _ _ _)
      · exact Guarded_of_quiet (registerBackend_quiet _ _ _ _ _)

/-- C10 (counterexample): in a private-network `configNetwork` run whose wait
for `Available` fails, and in a `Remove` run whose wait for `Available` fails,
`ReleaseEipAddress` is called though no successful wait came before it (and,
in `configNetwork`, no unassociate either). -/
theorem release_without_successful_wait :
    releasesSatisfy claimedGuard []
      (configNetwork (scriptedEnv failWaitForEip (.other "timeout") exInstance []) 30
        exVpcPublicDriver "vpc-1" "i-1" []).trace = false ∧
    (configNetwork (scriptedEnv failWaitForEip (.other "timeout") exInstance []) 30
        exVpcPublicDriver "vpc-1" "i-1" []).trace =
      [{ call := .AllocateEipAddress "cn-hangzhou" 1, ok := true },
       { call := .WaitForEip "cn-hangzhou" "eip-1" .Available 60, ok := false },
       { call := .ReleaseEipAddress "eip-1", ok := true }] ∧
    releasesSatisfy claimedGuard []
      (Remove (scriptedEnv failWaitForEip (.other "timeout") exEipInstance []) 30
        exVpcPublicDriver []).trace = false ∧
    (Remove (scriptedEnv failWaitForEip (.other "timeout") exEipInstance []) 30
        exVpcPublicDriver []).trace =
      [{ call := .DescribeInstanceAttribute "i-1", ok := true },
       { call := .DescribeInstanceAttribute "i-1", ok := true },
       { call := .UnassociateEipAddress "eip-1" "i-1", ok := true },
       { call := .WaitForEip "cn-hangzhou" "eip-1" .Available 0, ok := false },
       { call := .ReleaseEipAddress "eip-1", ok := true },
       { call := .DeleteInstance "i-1", ok := true }] := by
  refine ⟨?_, ?_, ?_, ?_⟩ <;> decide

/-- C10 (amended): in every run of `Remove`, each `ReleaseEipAddress a` directly
follows the calls `UnassociateEipAddress a _` and `WaitForEip _ a Available _`,
whatever those two returned; in every run of `configNetwork`, each
`ReleaseEipAddress a` directly follows a failed `WaitForEip _ a Available _`
that directly follows the successful `AllocateEipAddress`. -/
theorem release_ordering (env : Env) (fuel : Nat) (d : Driver) (vpcId instanceId : String)
    (tr : List Event) :
    (∃ evs, (Remove env fuel d tr).trace = tr ++ evs ∧
      releasesSatisfy teardownGuard [] evs = true) ∧
    (∃ evs, (configNetwork env fuel d vpcId instanceId tr).trace = tr ++ evs ∧
      releasesSatisfy attachGuard [] evs = true) := by
  constructor
  · obtain ⟨evs, h1, h2⟩ := Remove_guarded env fuel d tr
    exact ⟨evs, h1, h2 []⟩
  · obtain ⟨evs, h1, h2⟩ := configNetwork_guarded env fuel d vpcId instanceId tr
    exact ⟨evs, h1, h2 []⟩

/-! ## Rollback -/

theorem quiet_no_delete (c : Call) (h : quiet c = true) : isDeleteInstance c = false := by
  cases c <;> simp_all [quiet, isDeleteInstance]

theorem NoDelete_of_quiet {α : Type} {m : M α} (h : Quiet m) : NoDelete m :=
  Emits_mono h (fun _ he => quiet_no_delete _ he)

theorem attachEip_noDelete (env : Env) (d : Driver) (instanceId : String) :
    NoDelete (attachEip env d instanceId) := by
  unfold attachEip NoDelete
  repeat (first
    | exact Emits_pure _
    | exact Emits_panicM
    | exact Emits_outOfFuelM
    | exact Emits_ask _ _ (fun _ => rfl)
    | assumption
    | refine Emits_bind ?_ ?_
    | intro _
    | split)

theorem configNetwork_noDelete (env : Env) (fuel : Nat) (d : Driver) (vpcId instanceId : String) :
    NoDelete (configNetwork env fuel d vpcId instanceId) := by
  have h1 : ∀ err, NoDelete (registerBackend env fuel d instanceId err) :=
    fun err => NoDelete_of_quiet (registerBackend_quiet _ _ _ _ _)
  have h2 := NoDelete_of_quiet (addRouteEntry_quiet env fuel d vpcId)
  have h3 := attachEip_noDelete env d instanceId
  unfold configNetwork
  unfold NoDelete at *
  repeat (first
    | exact Emits_pure _
    | exact Emits_ask _ _ (fun _ => rfl)
    | exact h1 _
    | assumption
    | refine Emits_bind ?_ ?_
    | intro _
    | split)

theorem checkPrereqs_noDelete (env : Env) (d : Driver) : NoDelete (checkPrereqs env d) := by
  unfold checkPrereqs NoDelete
  repeat (first
    | exact Emits_pure _
    | exact Emits_panicM
    | exact Emits_outOfFuelM
    | exact Emits_ask _ _ (fun _ => rfl)
    | assumption
    | refine Emits_bind ?_ ?_
    | intro _
    | split)

theorem createKeyPair_noDelete (env : Env) (d : Driver) : NoDelete (createKeyPair env d) := by
  unfold createKeyPair NoDelete
  repeat (first
    | exact Emits_pure _
    | exact Emits_panicM
    | exact Emits_outOfFuelM
    | exact Emits_ask _ _ (fun _ => rfl)
    | assumption
    | refine Emits_bind ?_ ?_
    | intro _
    | split)

theorem getSecurityGroup_noDelete (env : Env) (d : Driver) (id : String) :
    NoDelete (getSecurityGroup env d id) :=
  Emits_ask _ _ (fun _ => rfl)

theorem findSecurityGroup_noDelete (env : Env) (d : Driver) (vpcId groupName : String)
    (fuel : Nat) : ∀ page, NoDelete (findSecurityGroup env d vpcId groupName fuel page) := by
  induction fuel with
  | zero => intro page; exact Emits_outOfFuelM
  | succ n ih =>
    intro page
    have hg : ∀ id, Emits (fun e => isDeleteInstance e.call = false) (getSecurityGroup env d id) :=
      fun id => getSecurityGroup_noDelete env d id
    unfold findSecurityGroup NoDelete
    unfold NoDelete at ih
    repeat (first
      | exact Emits_pure _
      | exact Emits_ask _ _ (fun _ => rfl)
      | exact hg _
      | exact ih _
      | refine Emits_bind ?_ ?_
      | intro _
      | split)

theorem WaitFor_noDelete (env : Env) (d : Driver) (groupId : String) (n : Nat) :
    NoDelete (WaitFor env d groupId n) := by
  induction n with
  | zero => exact Emits_pure _
  | succ n ih =>
    have hg : ∀ id, Emits (fun e => isDeleteInstance e.call = false) (getSecurityGroup env d id) :=
      fun id => getSecurityGroup_noDelete env d id
    unfold WaitFor NoDelete
    unfold NoDelete at ih
    repeat (first
      | exact Emits_pure _
      | exact hg _
      | exact ih
      | refine Emits_bind ?_ ?_
      | intro _
      | split)

theorem authorizeAll_noDelete (env : Env) (d : Driver) (perms : List IpPermission) :
    NoDelete (authorizeAll env d perms) := by
  induction perms with
  | nil => exact Emits_pure _
  | cons p ps ih =>
    unfold authorizeAll NoDelete
    unfold NoDelete at ih
    repeat (first
      | exact Emits_pure _
      | exact Emits_ask _ _ (fun _ => rfl)
      | exact ih
      | refine Emits_bind ?_ ?_
      | intro _
      | split)

theorem applyPermissions_noDelete (env : Env) (K : EcsConsts) (G : Globals) (d : Driver)
    (sg : DescribeSecurityGroupAttributeResponse) :
    NoDelete (applyPermissions env K G d sg) := by
  have h : ∀ d1 perms, Emits (fun e => isDeleteInstance e.call = false) (authorizeAll env d1 perms) :=
    fun d1 perms => authorizeAll_noDelete env d1 perms
  unfold applyPermissions NoDelete
  simp only
  repeat (first
    | exact Emits_pure _
    | exact Emits_panicM
    | exact h _ _
    | refine Emits_bind ?_ ?_
    | intro _
    | split)

theorem configureSecurityGroup_noDelete (env : Env) (K : EcsConsts) (G : Globals) (fuel : Nat)
    (d : Driver) (vpcId groupName : String) :
    NoDelete (configureSecurityGroup env K G fuel d vpcId groupName) := by
  have h1 : ∀ page, Emits (fun e => isDeleteInstance e.call = false)
      (findSecurityGroup env d vpcId groupName fuel page) :=
    fun page => findSecurityGroup_noDelete env d vpcId groupName fuel page
  have h2 : ∀ sg, Emits (fun e => isDeleteInstance e.call = false)
      (applyPermissions env K G d sg) :=
    fun sg => applyPermissions_noDelete env K G d sg
  have h3 : ∀ id n, Emits (fun e => isDeleteInstance e.call = false) (WaitFor env d id n) :=
    fun id n => WaitFor_noDelete env d id n
  have h4 : ∀ id, Emits (fun e => isDeleteInstance e.call = false) (getSecurityGroup env d id) :=
    fun id => getSecurityGroup_noDelete env d id
  unfold configureSecurityGroup NoDelete
  repeat (first
    | exact Emits_pure _
    | exact Emits_ask _ _ (fun _ => rfl)
    | exact h1 _
    | exact h2 _
    | exact h3 _ _
    | exact h4 _
    | refine Emits_bind ?_ ?_
    | intro _
    | split)

theorem findImage_noDelete (env : Env) (d : Driver) (fuel : Nat) :
    ∀ page, NoDelete (findImage env d fuel page) := by
  induction fuel with
  | zero => intro page; exact Emits_outOfFuelM
  | succ n ih =>
    intro page
    unfold findImage NoDelete
    unfold NoDelete at ih
    repeat (first
      | exact Emits_pure _
      | exact Emits_ask _ _ (fun _ => rfl)
      | exact ih _
      | refine Emits_bind ?_ ?_
      | intro _
      | split)

theorem GetImageID_noDelete (env : Env) (fuel : Nat) (d : Driver) (image : String) :
    NoDelete (GetImageID env fuel d image) := by
  have h : ∀ page, Emits (fun e => isDeleteInstance e.call = false) (findImage env d fuel page) :=
    fun page => findImage_noDelete env d fuel page
  unfold GetImageID NoDelete
  repeat (first
    | exact Emits_pure _
    | exact h _
    | refine Emits_bind ?_ ?_
    | intro _
    | split)

theorem setRandomPassword_noDelete (env : Env) (d : Driver) :
    NoDelete (setRandomPassword env d) := by
  refine ⟨fun tr => ?_⟩
  exact ⟨[], by simp [setRandomPassword], by simp⟩

theorem createInstancePhase_noDelete (env : Env) (K : EcsConsts) (G : Globals) (fuel : Nat)
    (d : Driver) : NoDelete (createInstancePhase env K G fuel d) := by
  have h1 : ∀ d1, Emits (fun e => isDeleteInstance e.call = false) (checkPrereqs env d1) :=
    fun d1 => checkPrereqs_noDelete env d1
  have h2 : ∀ d1, Emits (fun e => isDeleteInstance e.call = false) (createKeyPair env d1) :=
    fun d1 => createKeyPair_noDelete env d1
  have h3 : ∀ d1 v g, Emits (fun e => isDeleteInstance e.call = false)
      (configureSecurityGroup env K G fuel d1 v g) :=
    fun d1 v g => configureSecurityGroup_noDelete env K G fuel d1 v g
  have h4 : ∀ d1, Emits (fun e => isDeleteInstance e.call = false) (setRandomPassword env d1) :=
    fun d1 => setRandomPassword_noDelete env d1
  have h5 : ∀ d1 im, Emits (fun e => isDeleteInstance e.call = false) (GetImageID env fuel d1 im) :=
    fun d1 im => GetImageID_noDelete env fuel d1 im
  unfold createInstancePhase NoDelete
  repeat (first
    | exact Emits_pure _
    | exact Emits_ask _ _ (fun _ => rfl)
    | exact h1 _
    | exact h2 _
    | exact h3 _ _ _
    | exact h4 _
    | exact h5 _ _
    | refine Emits_bind ?_ ?_
    | intro _
    | split)

theorem Restart_noDelete (env : Env) (d : Driver) : NoDelete (Restart env d) := by
  unfold Restart NoDelete
  repeat (first
    | exact Emits_pure _
    | exact Emits_panicM
    | exact Emits_outOfFuelM
    | exact Emits_ask _ _ (fun _ => rfl)
    | assumption
    | refine Emits_bind ?_ ?_
    | intro _
    | split)

theorem postUpload_noDelete (env : Env) (d : Driver) : NoDelete (postUpload env d) := by
  have h : Emits (fun e => isDeleteInstance e.call = false) (Restart env d) :=
    Restart_noDelete env d
  unfold postUpload NoDelete
  repeat (first
    | exact Emits_pure _
    | exact Emits_panicM
    | exact Emits_outOfFuelM
    | exact Emits_ask _ _ (fun _ => rfl)
    | assumption
    | refine Emits_bind ?_ ?_
    | intro _
    | split)

theorem uploadKeyPair_noDelete (env : Env) (d : Driver) : NoDelete (uploadKeyPair env d) := by
  have h : Emits (fun e => isDeleteInstance e.call = false) (postUpload env d) :=
    postUpload_noDelete env d
  unfold uploadKeyPair NoDelete
  repeat (first
    | exact Emits_pure _
    | exact Emits_panicM
    | exact Emits_outOfFuelM
    | exact Emits_ask _ _ (fun _ => rfl)
    | assumption
    | refine Emits_bind ?_ ?_
    | intro _
    | split)

theorem startPhase_noDelete (env : Env) (d : Driver) (instanceId : String) :
    NoDelete (startPhase env d instanceId) := by
  have h1 : Emits (fun e => isDeleteInstance e.call = false) (getInstance env d) :=
    NoDelete_of_quiet (getInstance_quiet env d)
  have h2 : ∀ d1, Emits (fun e => isDeleteInstance e.call = false) (uploadKeyPair env d1) :=
    fun d1 => uploadKeyPair_noDelete env d1
  unfold startPhase NoDelete
  repeat (first
    | exact Emits_pure _
    | exact Emits_ask _ _ (fun _ => rfl)
    | exact h1
    | exact h2 _
    | refine Emits_bind ?_ ?_
    | intro _
    | split)

theorem provisionSteps_noDelete (env : Env) (fuel : Nat) (d : Driver) (VpcId instanceId : String) :
    NoDelete (provisionSteps env fuel d VpcId instanceId) := by
  have h1 : Emits (fun e => isDeleteInstance e.call = false)
      (configNetwork env fuel d VpcId instanceId) :=
    configNetwork_noDelete env fuel d VpcId instanceId
  have h2 : Emits (fun e => isDeleteInstance e.call = false) (startPhase env d instanceId) :=
    startPhase_noDelete env d instanceId
  unfold provisionSteps NoDelete
  repeat (first
    | exact Emits_pure _
    | exact Emits_panicM
    | exact Emits_outOfFuelM
    | exact Emits_ask _ _ (fun _ => rfl)
    | assumption
    | refine Emits_bind ?_ ?_
    | intro _
    | split)

theorem removeCleanup_noDelete (env : Env) (fuel : Nat) (d : Driver) :
    NoDelete (removeCleanup env fuel d) := by
  have h1 : Emits (fun e => isDeleteInstance e.call = false) (GetState env d) :=
    NoDelete_of_quiet (GetState_quiet env d)
  have h2 : Emits (fun e => isDeleteInstance e.call = false) (Stop env d) :=
    NoDelete_of_quiet (Stop_quiet env d)
  have h3 : Emits (fun e => isDeleteInstance e.call = false) (getInstance env d) :=
    NoDelete_of_quiet (getInstance_quiet env d)
  have h4 : ∀ a b c, Emits (fun e => isDeleteInstance e.call = false)
      (removeRouteEntry env fuel d a b c) :=
    fun a b c => NoDelete_of_quiet (removeRouteEntry_quiet env fuel d a b c)
  unfold removeCleanup NoDelete
  repeat (first
    | exact Emits_pure _
    | exact Emits_ask _ _ (fun _ => rfl)
    | exact h1
    | exact h2
    | exact h3
    | exact h4 _ _ _
    | refine Emits_bind ?_ ?_
    | intro _
    | split)

theorem deleteCalls_append (xs ys : List Event) :
    deleteCalls (xs ++ ys) = deleteCalls xs ++ deleteCalls ys := by
  induction xs with
  | nil => rfl
  | cons x xs ih =>
    simp only [List.cons_append, deleteCalls]
    split <;> simp [ih]

theorem deleteCalls_of_noDelete (evs : List Event)
    (h : ∀ e ∈ evs, isDeleteInstance e.call = false) : deleteCalls evs = [] := by
  induction evs with
  | nil => rfl
  | cons x xs ih =>
    have hx := h x (List.mem_cons_self _ _)
    have := ih (fun e he => h e (List.mem_cons_of_mem _ he))
    simp only [deleteCalls, this]
    cases hc : x.call <;> simp_all [isDeleteInstance]

theorem deleteCalls_run {α : Type} {m : M α} (h : NoDelete m) (tr : List Event) :
    deleteCalls (m tr).trace = deleteCalls tr := by
  obtain ⟨evs, h1, h2⟩ := h.out tr
  rw [h1, deleteCalls_append, deleteCalls_of_noDelete evs h2, List.append_nil]

theorem Total_pure {α : Type} (a : α) : Total (pure a : M α) :=
  ⟨fun tr => ⟨a, tr, rfl⟩⟩

theorem Total_ask {ρ : Type} (oracle : List Event → Call → Except Error ρ) (c : Call) :
    Total (ask oracle c) :=
  ⟨fun _ => ⟨_, _, rfl⟩⟩

theorem Total_bind {α β : Type} {m : M α} {f : α → M β} (hm : Total m)
    (hf : ∀ a, Total (f a)) : Total (m >>= f) := by
  refine ⟨fun tr => ?_⟩
  obtain ⟨a, tr1, h1⟩ := hm.out tr
  obtain ⟨b, tr2, h2⟩ := (hf a).out tr1
  exact ⟨b, tr2, by rw [bind_run, h1]; exact h2⟩

theorem Post_pure {α : Type} {Q : α → Prop} (a : α) (h : Q a) : Post Q (pure a : M α) := by
  refine ⟨fun _ b tr1 hb => ?_⟩
  simp only [pure_run, Run.done.injEq] at hb
  rw [← hb.1]
  exact h

theorem Post_panicM {α : Type} {Q : α → Prop} : Post Q (panicM : M α) :=
  ⟨fun _ _ _ hb => by simp at hb⟩

theorem Post_outOfFuelM {α : Type} {Q : α → Prop} : Post Q (outOfFuelM : M α) :=
  ⟨fun _ _ _ hb => by simp at hb⟩

theorem Post_bind {α β : Type} {Q : β → Prop} {m : M α} {f : α → M β}
    (hf : ∀ a, Post Q (f a)) : Post Q (m >>= f) := by
  refine ⟨fun tr b tr1 hb => ?_⟩
  rw [bind_run] at hb
  cases hr : m tr with
  | done a tr2 =>
    rw [hr] at hb
    exact (hf a).out tr2 b tr1 hb
  | panic tr2 => rw [hr] at hb; simp at hb
  | outOfFuel tr2 => rw [hr] at hb; simp at hb

theorem deleteRouteEntryLoop_total (env : Env) (d : Driver) (routeEntry : RouteEntrySetType)
    (fuel : Nat) : ∀ count, count ≤ maxRetry → maxRetry + 1 ≤ count + fuel →
      Total (deleteRouteEntryLoop env d routeEntry fuel count) := by
  induction fuel with
  | zero => intro count h1 h2; omega
  | succ n ih =>
    intro count h1 h2
    unfold deleteRouteEntryLoop
    refine Total_bind (Total_ask _ _) ?_
    intro r
    split
    · split
      · rename_i hle
        exact ih (count + 1) hle (by omega)
      · exact Total_pure _
    · exact Total_pure _

theorem removeRouteEntry_total (env : Env) (fuel : Nat) (d : Driver)
    (vpcId regionId instanceId : String) (hdesc : DescribesNonEmpty env)
    (hfuel : maxRetry + 1 ≤ fuel) :
    Total (removeRouteEntry env fuel d vpcId regionId instanceId) := by
  refine ⟨fun tr => ?_⟩
  unfold removeRouteEntry
  simp only [bind_run, ask_run]
  cases h1 : env.vpcs tr (.DescribeVpcs vpcId regionId) with
  | error e => exact ⟨_, _, rfl⟩
  | ok vpcs =>
    cases vpcs with
    | nil => exact absurd rfl (hdesc.1 _ _ _ h1)
    | cons vpc rest =>
      simp only [bind_run, ask_run]
      generalize htr : tr ++ [_] = tr1
      cases h2 : env.routeTables tr1 (.DescribeRouteTables vpc.VRouterId) with
      | error e => exact ⟨_, _, rfl⟩
      | ok tables =>
        cases tables with
        | nil => exact absurd rfl (hdesc.2 _ _ _ h2)
        | cons table rest2 =>
          simp only
          generalize List.find? _ table.RouteEntrys = found
          cases found with
          | none => exact ⟨_, _, rfl⟩
          | some routeEntry =>
            exact (deleteRouteEntryLoop_total env d routeEntry fuel 0 (Nat.zero_le _)
              (by omega)).out _

theorem removeCleanup_total (env : Env) (fuel : Nat) (d : Driver)
    (hdesc : DescribesNonEmpty env) (hfuel : maxRetry + 1 ≤ fuel) :
    Total (removeCleanup env fuel d) := by
  have h1 : ∀ a b c, Total (removeRouteEntry env fuel d a b c) :=
    fun a b c => removeRouteEntry_total env fuel d a b c hdesc hfuel
  unfold removeCleanup GetState Stop getInstance
  repeat (first
    | exact Total_pure _
    | exact Total_ask _ _
    | exact h1 _ _ _
    | refine Total_bind ?_ ?_
    | intro _
    | split)

/-- `Remove` on a driver with an instance id returns and calls
`DeleteInstance` once, with that id, as its last call. -/
theorem Remove_deletes_once (env : Env) (fuel : Nat) (d : Driver) (tr : List Event)
    (hid : d.InstanceId ≠ "") (hdesc : DescribesNonEmpty env) (hfuel : maxRetry + 1 ≤ fuel) :
    ∃ r tr1, Remove env fuel d tr = .done r tr1 ∧
      deleteCalls tr1 = deleteCalls tr ++ [d.InstanceId] := by
  obtain ⟨u, trc, hc⟩ := (removeCleanup_total env fuel d hdesc hfuel).out tr
  have hdel := deleteCalls_run (removeCleanup_noDelete env fuel d) tr
  rw [hc] at hdel
  simp only [trace_done] at hdel
  unfold Remove
  simp only [hid, if_false, bind_run, hc, ask_run]
  cases env.unit trc (.DeleteInstance d.InstanceId) with
  | error e =>
    exact ⟨_, _, rfl, by simp [deleteCalls_append, hdel, deleteCalls]⟩
  | ok v =>
    exact ⟨_, _, rfl, by simp [deleteCalls_append, hdel, deleteCalls]⟩

theorem createInstancePhase_post (env : Env) (K : EcsConsts) (G : Globals) (fuel : Nat)
    (d : Driver) :
    Post (fun p => ∀ i, p.1 = .ok i → p.2.InstanceId = i) (createInstancePhase env K G fuel d) := by
  unfold createInstancePhase
  repeat (first
    | exact Post_pure _ (by intro i h; cases h <;> rfl)
    | refine Post_bind ?_
    | intro _
    | split)

theorem startPhase_post (env : Env) (d : Driver) (instanceId : String) :
    Post (fun p => p.1 ≠ none → p.2 = d) (startPhase env d instanceId) := by
  unfold startPhase
  repeat (first
    | exact Post_pure _ (by intro h; first | rfl | exact absurd rfl h)
    | refine Post_bind ?_
    | intro _
    | split)

theorem provisionSteps_post (env : Env) (fuel : Nat) (d : Driver) (VpcId instanceId : String) :
    Post (fun p => p.1 ≠ none → p.2 = d) (provisionSteps env fuel d VpcId instanceId) := by
  have h := startPhase_post env d instanceId
  unfold provisionSteps
  repeat (first
    | exact Post_pure _ (fun _ => rfl)
    | exact h
    | refine Post_bind ?_
    | intro _
    | split)

theorem describesNonEmpty_scripted (fails : List Event → Call → Bool) (err : Error)
    (inst : InstanceAttributesType) (listing : List SecurityGroupItemType) :
    DescribesNonEmpty (scriptedEnv fails err inst listing) := by
  constructor
  · intro tr c l h
    simp only [scriptedEnv] at h
    split at h
    · cases h
    · cases h
      simp
  · intro tr c l h
    simp only [scriptedEnv] at h
    split at h
    · cases h
    · cases h
      simp

/-- C2 (counterexample): `CreateInstance` succeeds with the empty id and the
wait for `Stopped` fails; `Create` returns the error, but `Remove` stops at its
guard on the empty instance id and `DeleteInstance` is never called. -/
theorem Create_empty_id_no_delete :
    (Create (scriptedEnv failWaitStopped (.other "timeout") { exInstance with InstanceId := "" } [])
        exConsts initGlobals 30 exDriver []).result.map (fun r => r.1) =
      some (some (.wrapped "m1 | Failed to wait instance to 'stopped'" (.other "timeout"))) ∧
    deleteCalls
      (Create (scriptedEnv failWaitStopped (.other "timeout") { exInstance with InstanceId := "" } [])
        exConsts initGlobals 30 exDriver []).trace = [] ∧
    (Remove (scriptedEnv failWaitStopped (.other "timeout") { exInstance with InstanceId := "" } [])
        30 { exDriver with InstanceId := "" } []) =
      .done (some (.other "m1 | Unknown instance id")) [] := by
  refine ⟨?_, ?_, ?_⟩ <;> decide

/-- C2 (amended): in every run of `Create` in which `CreateInstance` succeeds
with a non-empty id `i` and a later step (wait for `Stopped`, network attach,
start, wait for `Running`) returns the error `e`, where the describe calls of
the route-entry cleanup answer with at least one element and the fuel covers
the bounded retry loop: `Create` runs `Remove` after the tag step, returns
`e`, and over the whole run `DeleteInstance` is called exactly once, with `i`. -/
theorem Create_rollback (env : Env) (K : EcsConsts) (G : Globals) (fuel : Nat) (d : Driver)
    (tr : List Event) (i : String) (d1 : Driver) (tr1 : List Event) (e : Error) (d2 : Driver)
    (tr2 : List Event)
    (hfuel : maxRetry + 1 ≤ fuel) (hdesc : DescribesNonEmpty env)
    (hcreate : createInstancePhase env K G fuel d tr = .done (.ok i, d1) tr1)
    (hstep : provisionSteps env fuel d1 d.VpcId i tr1 = .done (some e, d2) tr2)
    (hid : i ≠ "") :
    ∃ trT r tr3,
      (trT = tr2 ∨ ∃ ok, trT = tr2 ++ [{ call := .AddTags d2.Region i d2.Tags, ok := ok }]) ∧
      Remove env fuel d2 trT = .done r tr3 ∧
      Create env K G fuel d tr = .done (some e, d2) tr3 ∧
      deleteCalls tr3 = deleteCalls tr ++ [i] := by
  have hi1 : d1.InstanceId = i := (createInstancePhase_post env K G fuel d).out _ _ _ hcreate i rfl
  have hd2 : d2 = d1 := (provisionSteps_post env fuel d1 d.VpcId i).out _ _ _ hstep (by simp)
  have hi2 : d2.InstanceId ≠ "" := by rw [hd2, hi1]; exact hid
  have hdel1 : deleteCalls tr1 = deleteCalls tr := by
    have := deleteCalls_run (createInstancePhase_noDelete env K G fuel d) tr
    rwa [hcreate] at this
  have hdel2 : deleteCalls tr2 = deleteCalls tr1 := by
    have := deleteCalls_run (provisionSteps_noDelete env fuel d1 d.VpcId i) tr1
    rwa [hstep] at this
  by_cases htags : d2.Tags.length > 0
  · obtain ⟨r, tr3, h3, h4⟩ := Remove_deletes_once env fuel d2
      (tr2 ++ [{ call := .AddTags d2.Region i d2.Tags,
                 ok := isOk (env.unit tr2 (.AddTags d2.Region i d2.Tags)) }]) hi2 hdesc hfuel
    refine ⟨_, r, tr3, Or.inr ⟨_, rfl⟩, h3, ?_, ?_⟩
    · simp only [Create, bind_run, hcreate, hstep, finishCreate, htags, if_true, ask_run,
        pure_run, h3]
    · rw [h4, deleteCalls_append, hdel2, hdel1, hd2, hi1]
      simp [deleteCalls]
  · obtain ⟨r, tr3, h3, h4⟩ := Remove_deletes_once env fuel d2 tr2 hi2 hdesc hfuel
    refine ⟨_, r, tr3, Or.inl rfl, h3, ?_, ?_⟩
    · simp only [Create, bind_run, hcreate, hstep, finishCreate, htags, if_false, pure_run, h3]
    · rw [h4, hdel2, hdel1, hd2, hi1]

/-- Witness of C2: the wait for `Stopped` fails after instance `i-1` was
created. -/
theorem Create_rollback_witness :
    ∃ trT r tr3,
      (trT = (provisionSteps exRollbackEnv 30 exCreatedDriver exDriver.VpcId "i-1"
          (createInstancePhase exRollbackEnv exConsts initGlobals 30 exDriver []).trace).trace ∨
        ∃ ok, trT = (provisionSteps exRollbackEnv 30 exCreatedDriver exDriver.VpcId "i-1"
          (createInstancePhase exRollbackEnv exConsts initGlobals 30 exDriver []).trace).trace ++
            [{ call := .AddTags exCreatedDriver.Region "i-1" exCreatedDriver.Tags, ok := ok }]) ∧
      Remove exRollbackEnv 30 exCreatedDriver trT = .done r tr3 ∧
      Create exRollbackEnv exConsts initGlobals 30 exDriver [] =
        .done (some (.wrapped "m1 | Failed to wait instance to 'stopped'" (.other "timeout")),
          exCreatedDriver) tr3 ∧
      deleteCalls tr3 = deleteCalls [] ++ ["i-1"] :=
  Create_rollback exRollbackEnv exConsts initGlobals 30 exDriver [] "i-1" exCreatedDriver
    (createInstancePhase exRollbackEnv exConsts initGlobals 30 exDriver []).trace
    (.wrapped "m1 | Failed to wait instance to 'stopped'" (.other "timeout")) exCreatedDriver
    (provisionSteps exRollbackEnv 30 exCreatedDriver exDriver.VpcId "i-1"
      (createInstancePhase exRollbackEnv exConsts initGlobals 30 exDriver []).trace).trace
    (by decide) (describesNonEmpty_scripted _ _ _ _) rfl rfl (by decide)

/-! ## Security group lookup -/

/-- C9 (the code at the failing input): the listing holds a group with the
requested name and scope, describing it fails, and `configureSecurityGroup`
creates a second group and stores the new group's id. -/
theorem configureSecurityGroup_creates_duplicate :
    countCalls isCreateSecurityGroup
      (configureSecurityGroup
        (scriptedEnv failDescribeOldGroup (.other "failed") exInstance
          [{ SecurityGroupId := "sg-old", SecurityGroupName := "docker-machine", VpcId := "" }])
        exConsts initGlobals 5 exDriver "" "docker-machine" []).trace = 1 ∧
    (configureSecurityGroup
        (scriptedEnv failDescribeOldGroup (.other "failed") exInstance
          [{ SecurityGroupId := "sg-old", SecurityGroupName := "docker-machine", VpcId := "" }])
        exConsts initGlobals 5 exDriver "" "docker-machine" []).result.map
      (fun r => (r.1, r.2.SecurityGroupId)) = some (none, "sg-new") := by
  constructor <;> decide

/-! ## Elastic IP left behind -/

/-- C11 (the code at the failing input): in a private network
`AllocateEipAddress` succeeds with `eip-1`, the wait for `Available` succeeds
and `AssociateEipAddress` fails; `configNetwork` returns the association error
and never calls `ReleaseEipAddress`. -/
theorem configNetwork_leaks_eip_on_associate_failure :
    configNetwork (scriptedEnv failAssociateEip (.other "failed") exInstance []) 30
        exVpcPublicDriver "vpc-1" "i-1" [] =
      .done (some (.wrapped "m1 | Failed to associate EIP address" (.other "failed")))
        [{ call := .AllocateEipAddress "cn-hangzhou" 1, ok := true },
         { call := .WaitForEip "cn-hangzhou" "eip-1" .Available 60, ok := true },
         { call := .AssociateEipAddress "eip-1" "i-1", ok := false }] ∧
    countCalls isReleaseEip
      (configNetwork (scriptedEnv failAssociateEip (.other "failed") exInstance []) 30
        exVpcPublicDriver "vpc-1" "i-1" []).trace = 0 := by
  constructor <;> decide

/-! ## Success without an address -/

/-- C12 (the code at the failing input): every step succeeds, the instance
reaches `Running`, and the `DescribeInstanceAttribute` call that follows
fails; `Create` returns nil although no address was stored. -/
theorem Create_succeeds_without_address :
    (Create (scriptedEnv failDescribeInstance (.other "failed") exInstance [])
        exConsts initGlobals 30 exDriver []).result.map
      (fun r => (r.1, r.2.IPAddress, r.2.PrivateIPAddress)) = some (none, "", "") ∧
    List.drop 10
      (Create (scriptedEnv failDescribeInstance (.other "failed") exInstance [])
        exConsts initGlobals 30 exDriver []).trace =
      [{ call := .WaitForInstance "i-1" .Stopped 300, ok := true },
       { call := .AllocatePublicIpAddress "i-1", ok := true },
       { call := .StartInstance "i-1", ok := true },
       { call := .WaitForInstance "i-1" .Running 300, ok := true },
       { call := .DescribeInstanceAttribute "i-1", ok := false }] := by
  constructor <;> decide

/-! ## Port ranges without a second part -/

/-- C18 (the code at the failing input): for a group with one entry whose
port range is `-1`, without a slash, the loop reads `portRange[1]` of a
one-element slice: the run panics and no rule list is returned. -/
theorem configureSecurityGroupPermissions_panics :
    splitSlash "-1".data = ["-1".data] ∧
    configureSecurityGroupPermissions exConsts initGlobals exDriver
      (exGroup [{ IpProtocol := "ALL", PortRange := "-1", Policy := "Accept" }]) = none := by
  constructor <;> decide

/-! ## Route-entry removal -/

theorem deleteRouteEntryLoop_calls (env : Env) (d : Driver) (routeEntry : RouteEntrySetType)
    (fuel count : Nat) :
    Emits (fun e => e.call = .DeleteRouteEntry routeEntry.RouteTableId
      routeEntry.DestinationCidrBlock routeEntry.InstanceId)
      (deleteRouteEntryLoop env d routeEntry fuel count) := by
  induction fuel generalizing count with
  | zero => exact Emits_outOfFuelM
  | succ n ih =>
    unfold deleteRouteEntryLoop
    refine Emits_bind (Emits_ask _ _ (fun _ => rfl)) ?_
    intro r
    split
    · split
      · exact ih _
      · exact Emits_pure _
    · exact Emits_pure _

theorem deleteRouteEntryLoop_first (env : Env) (d : Driver) (routeEntry : RouteEntrySetType)
    (fuel count : Nat) (tr : List Event) :
    ∃ ok evs, (deleteRouteEntryLoop env d routeEntry (fuel + 1) count tr).trace =
        tr ++ { call := .DeleteRouteEntry routeEntry.RouteTableId
                  routeEntry.DestinationCidrBlock routeEntry.InstanceId, ok := ok } :: evs ∧
      ∀ e ∈ evs, e.call = .DeleteRouteEntry routeEntry.RouteTableId
        routeEntry.DestinationCidrBlock routeEntry.InstanceId := by
  unfold deleteRouteEntryLoop
  simp only [bind_run, ask_run]
  generalize env.unit _ _ = r
  cases r with
  | ok u => exact ⟨true, [], by simp [isOk], by simp⟩
  | error e =>
    simp only
    split
    · obtain ⟨evs, h1, h2⟩ := (deleteRouteEntryLoop_calls env d routeEntry fuel (count + 1)).out
        (tr ++ [{ call := .DeleteRouteEntry routeEntry.RouteTableId
                    routeEntry.DestinationCidrBlock routeEntry.InstanceId,
                  ok := isOk (Except.error e : Except Error Unit) }])
      exact ⟨false, evs, by rw [h1]; simp [isOk], h2⟩
    · exact ⟨false, [], by simp [isOk], by simp⟩

/-- C15: when both describe calls succeed (with a VPC and a first route
table), `removeRouteEntry` returns nil without any `DeleteRouteEntry` call if
no entry of that table has the instance as next hop (an empty table
included); if some entry has, the only calls after the two describes are
`DeleteRouteEntry` calls for one such entry's route-table id, destination
CIDR and next hop, and there is at least one. -/
theorem removeRouteEntry_idempotent (env : Env) (fuel : Nat) (d : Driver)
    (vpcId regionId instanceId : String) (tr : List Event)
    (vpc : VpcSetType) (rest : List VpcSetType)
    (table : RouteTableSetType) (rest2 : List RouteTableSetType)
    (hfuel : 1 ≤ fuel)
    (hv : env.vpcs tr (.DescribeVpcs vpcId regionId) = .ok (vpc :: rest))
    (hrt : env.routeTables (tr ++ [{ call := .DescribeVpcs vpcId regionId, ok := true }])
      (.DescribeRouteTables vpc.VRouterId) = .ok (table :: rest2)) :
    ((∀ e ∈ table.RouteEntrys, e.InstanceId ≠ instanceId) →
      removeRouteEntry env fuel d vpcId regionId instanceId tr =
        .done none (tr ++ [{ call := .DescribeVpcs vpcId regionId, ok := true },
                           { call := .DescribeRouteTables vpc.VRouterId, ok := true }]) ∧
      countCalls isDeleteRouteEntry
        (removeRouteEntry env fuel d vpcId regionId instanceId tr).trace =
        countCalls isDeleteRouteEntry tr) ∧
    ((∃ e ∈ table.RouteEntrys, e.InstanceId = instanceId) →
      ∃ entry ∈ table.RouteEntrys, entry.InstanceId = instanceId ∧
        ∃ ok evs, (removeRouteEntry env fuel d vpcId regionId instanceId tr).trace =
            tr ++ [{ call := .DescribeVpcs vpcId regionId, ok := true },
                   { call := .DescribeRouteTables vpc.VRouterId, ok := true }] ++
              { call := .DeleteRouteEntry entry.RouteTableId entry.DestinationCidrBlock
                  entry.InstanceId, ok := ok } :: evs ∧
          ∀ e ∈ evs, e.call = .DeleteRouteEntry entry.RouteTableId entry.DestinationCidrBlock
            entry.InstanceId) := by
  obtain ⟨f, rfl⟩ : ∃ f, fuel = f + 1 := ⟨fuel - 1, by omega⟩
  have hrun : ∀ found, table.RouteEntrys.find? (fun e => e.InstanceId = instanceId) = found →
      removeRouteEntry env (f + 1) d vpcId regionId instanceId tr =
        (match found with
         | none => (pure none : M (Option Error))
         | some routeEntry => deleteRouteEntryLoop env d routeEntry (f + 1) 0)
          (tr ++ [({ call := .DescribeVpcs vpcId regionId, ok := true } : Event),
                  { call := .DescribeRouteTables vpc.VRouterId, ok := true }]) := by
    intro found hfound
    unfold removeRouteEntry
    simp only [bind_run, ask_run, hv, isOk, hrt, List.append_assoc, List.singleton_append,
      hfound]
  constructor
  · intro hnone
    have hfind : table.RouteEntrys.find? (fun e => e.InstanceId = instanceId) = none := by
      rw [List.find?_eq_none]
      intro e he
      simpa using hnone e he
    rw [hrun none hfind]
    simp [countCalls, isDeleteRouteEntry]
  · intro hsome
    obtain ⟨e0, he0, hid0⟩ := hsome
    cases hfind : table.RouteEntrys.find? (fun e => e.InstanceId = instanceId) with
    | none =>
      rw [List.find?_eq_none] at hfind
      exact absurd (by simpa using hid0) (hfind e0 he0)
    | some entry =>
      have hmem := List.mem_of_find?_eq_some hfind
      have hp := List.find?_some hfind
      refine ⟨entry, hmem, by simpa using hp, ?_⟩
      rw [hrun (some entry) hfind]
      simp only
      obtain ⟨ok, evs, h1, h2⟩ := deleteRouteEntryLoop_first env d entry f 0
        (tr ++ [{ call := .DescribeVpcs vpcId regionId, ok := true },
                { call := .DescribeRouteTables vpc.VRouterId, ok := true }])
      exact ⟨ok, evs, h1, h2⟩

/-- Witness of C15: the scripted collaborator lists a route table without
entries. -/
theorem removeRouteEntry_idempotent_witness :
    ((∀ e ∈ ({ RouteTableId := "rt-1", RouteEntrys := [] } : RouteTableSetType).RouteEntrys,
        e.InstanceId ≠ "i-1") →
      removeRouteEntry (scriptedEnv (fun _ _ => false) (.other "failed") exInstance []) 21
          exVpcDriver "vpc-1" "cn-hangzhou" "i-1" [] =
        .done none ([] ++ [{ call := .DescribeVpcs "vpc-1" "cn-hangzhou", ok := true },
                           { call := .DescribeRouteTables "vr-1", ok := true }]) ∧
      countCalls isDeleteRouteEntry
        (removeRouteEntry (scriptedEnv (fun _ _ => false) (.other "failed") exInstance []) 21
          exVpcDriver "vpc-1" "cn-hangzhou" "i-1" []).trace =
        countCalls isDeleteRouteEntry []) ∧
    ((∃ e ∈ ({ RouteTableId := "rt-1", RouteEntrys := [] } : RouteTableSetType).RouteEntrys,
        e.InstanceId = "i-1") →
      ∃ entry ∈ ({ RouteTableId := "rt-1", RouteEntrys := [] } : RouteTableSetType).RouteEntrys,
        entry.InstanceId = "i-1" ∧
        ∃ ok evs,
          (removeRouteEntry (scriptedEnv (fun _ _ => false) (.other "failed") exInstance []) 21
            exVpcDriver "vpc-1" "cn-hangzhou" "i-1" []).trace =
            [] ++ [{ call := .DescribeVpcs "vpc-1" "cn-hangzhou", ok := true },
                   { call := .DescribeRouteTables "vr-1", ok := true }] ++
              { call := .DeleteRouteEntry entry.RouteTableId entry.DestinationCidrBlock
                  entry.InstanceId, ok := ok } :: evs ∧
          ∀ e ∈ evs, e.call = .DeleteRouteEntry entry.RouteTableId entry.DestinationCidrBlock
            entry.InstanceId) :=
  removeRouteEntry_idempotent (scriptedEnv (fun _ _ => false) (.other "failed") exInstance []) 21
    exVpcDriver "vpc-1" "cn-hangzhou" "i-1" [] { VpcId := "vpc-1", VRouterId := "vr-1" } []
    { RouteTableId := "rt-1", RouteEntrys := [] } [] (by decide) rfl rfl

/-! ## Teardown -/

/-- When the describe calls of the route-entry cleanup answer with at least
one element, `Remove` on a driver with an instance id returns, its last call
is the one `DeleteInstance` call, and it returns an error exactly when that
call fails. -/
theorem Remove_teardown_policy (env : Env) (fuel : Nat) (d : Driver) (tr : List Event)
    (hid : d.InstanceId ≠ "") (hdesc : DescribesNonEmpty env) (hfuel : maxRetry + 1 ≤ fuel) :
    ∃ r pre ok, Remove env fuel d tr =
        .done r (tr ++ pre ++ [{ call := .DeleteInstance d.InstanceId, ok := ok }]) ∧
      (∀ e ∈ pre, isDeleteInstance e.call = false) ∧ (r = none ↔ ok = true) := by
  obtain ⟨u, trc, hc⟩ := (removeCleanup_total env fuel d hdesc hfuel).out tr
  obtain ⟨pre, h1, h2⟩ := (removeCleanup_noDelete env fuel d).out tr
  rw [hc] at h1
  simp only [trace_done] at h1
  subst h1
  unfold Remove
  simp only [hid, if_false, bind_run, hc, ask_run]
  cases env.unit (tr ++ pre) (.DeleteInstance d.InstanceId) with
  | error e => exact ⟨_, pre, false, rfl, h2, by simp [isOk]⟩
  | ok v => exact ⟨_, pre, true, rfl, h2, by simp [isOk]⟩

/-- C14 (the code at the failing input): the instance belongs to `vpc-1` and
`DescribeVpcs` answers, without error, with an empty list; `removeRouteEntry`
indexes `vpcs[0]`, the run panics and `DeleteInstance` is never called. -/
theorem Remove_panics_before_delete :
    Remove exEmptyVpcsEnv 30 exVpcPublicDriver [] =
      .panic [{ call := .DescribeInstanceAttribute "i-1", ok := true },
              { call := .DescribeInstanceAttribute "i-1", ok := true },
              { call := .DescribeVpcs "vpc-1" "cn-hangzhou", ok := true }] ∧
    deleteCalls (Remove exEmptyVpcsEnv 30 exVpcPublicDriver []).trace = [] := by
  constructor <;> decide

/-! ## Steps after a failure -/

theorem addRouteEntry_attachCalls (env : Env) (fuel : Nat) (d : Driver) (vpcId : String) :
    Emits (fun e => attachCalls e.call = true) (addRouteEntry env fuel d vpcId) := by
  have hloop : ∀ rt fuel count, Emits (fun e => attachCalls e.call = true)
      (createRouteEntryLoop env d rt fuel count) := by
    intro rt fuel
    induction fuel with
    | zero => intro count; exact Emits_outOfFuelM
    | succ n ih =>
      intro count
      unfold createRouteEntryLoop
      repeat (first
        | exact Emits_pure _
        | exact Emits_ask _ _ (fun _ => rfl)
        | exact ih _
        | refine Emits_bind ?_ ?_
        | intro _
        | split)
  unfold addRouteEntry
  repeat (first
    | exact Emits_pure _
    | exact Emits_panicM
    | exact Emits_ask _ _ (fun _ => rfl)
    | exact hloop _ _ _
    | refine Emits_bind ?_ ?_
    | intro _
    | split)

theorem registerBackend_attachCalls (env : Env) (fuel : Nat) (d : Driver) (instanceId : String)
    (err : Option Error) :
    Emits (fun e => attachCalls e.call = true) (registerBackend env fuel d instanceId err) := by
  have hloop : ∀ fuel count, Emits (fun e => attachCalls e.call = true)
      (addBackendServersLoop env d instanceId fuel count) := by
    intro fuel
    induction fuel with
    | zero => intro count; exact Emits_outOfFuelM
    | succ n ih =>
      intro count
      unfold addBackendServersLoop
      repeat (first
        | exact Emits_pure _
        | exact Emits_ask _ _ (fun _ => rfl)
        | exact ih _
        | refine Emits_bind ?_ ?_
        | intro _
        | split)
  unfold registerBackend
  split
  · exact hloop _ _
  · exact Emits_pure _

theorem attachEip_attachCalls (env : Env) (d : Driver) (instanceId : String) :
    Emits (fun e => attachCalls e.call = true) (attachEip env d instanceId) := by
  unfold attachEip
  repeat (first
    | exact Emits_pure _
    | exact Emits_ask _ _ (fun _ => rfl)
    | refine Emits_bind ?_ ?_
    | intro _
    | split)

theorem configNetwork_attachCalls (env : Env) (fuel : Nat) (d : Driver)
    (vpcId instanceId : String) :
    Emits (fun e => attachCalls e.call = true) (configNetwork env fuel d vpcId instanceId) := by
  have h1 := fun err => registerBackend_attachCalls env fuel d instanceId err
  have h2 := addRouteEntry_attachCalls env fuel d vpcId
  have h3 := attachEip_attachCalls env d instanceId
  unfold configNetwork
  repeat (first
    | exact Emits_pure _
    | exact Emits_ask _ _ (fun _ => rfl)
    | exact h1 _
    | exact h2
    | exact h3
    | refine Emits_bind ?_ ?_
    | intro _
    | split)

theorem removeRouteEntry_teardownCalls (env : Env) (fuel : Nat) (d : Driver)
    (vpcId regionId instanceId : String) :
    Emits (fun e => teardownCalls e.call = true)
      (removeRouteEntry env fuel d vpcId regionId instanceId) := by
  have hloop : ∀ entry fuel count, Emits (fun e => teardownCalls e.call = true)
      (deleteRouteEntryLoop env d entry fuel count) := by
    intro entry fuel
    induction fuel with
    | zero => intro count; exact Emits_outOfFuelM
    | succ n ih =>
      intro count
      unfold deleteRouteEntryLoop
      repeat (first
        | exact Emits_pure _
        | exact Emits_ask _ _ (fun _ => rfl)
        | exact ih _
        | refine Emits_bind ?_ ?_
        | intro _
        | split)
  unfold removeRouteEntry
  repeat (first
    | exact Emits_pure _
    | exact Emits_panicM
    | exact Emits_ask _ _ (fun _ => rfl)
    | exact hloop _ _ _
    | refine Emits_bind ?_ ?_
    | intro _
    | split)

theorem Remove_teardownCalls (env : Env) (fuel : Nat) (d : Driver) :
    Emits (fun e => teardownCalls e.call = true) (Remove env fuel d) := by
  have h1 := fun a b c => removeRouteEntry_teardownCalls env fuel d a b c
  unfold Remove removeCleanup GetState Stop getInstance
  repeat (first
    | exact Emits_pure _
    | exact Emits_ask _ _ (fun _ => rfl)
    | exact h1 _ _ _
    | refine Emits_bind ?_ ?_
    | intro _
    | split)

/-- A failed start phase stops at the failed call. -/
theorem startPhase_failure (env : Env) (d : Driver) (instanceId : String) (trN : List Event)
    (e : Error) (d2 : Driver) (tr2 : List Event)
    (h : startPhase env d instanceId trN = .done (some e, d2) tr2) :
    tr2 = trN ++ [{ call := .StartInstance instanceId, ok := false }] ∨
    tr2 = trN ++ [{ call := .StartInstance instanceId, ok := true },
                  { call := .WaitForInstance instanceId .Running timeout, ok := false }] := by
  unfold startPhase at h
  simp only [bind_run, ask_run] at h
  generalize env.unit trN _ = r1 at h
  cases r1 with
  | error e1 =>
    simp only [pure_run, Run.done.injEq, isOk] at h
    exact Or.inl h.2.symm
  | ok u1 =>
    simp only [bind_run, ask_run, isOk] at h
    generalize env.unit _ _ = r2 at h
    cases r2 with
    | error e2 =>
      simp only [pure_run, Run.done.injEq, isOk, List.append_assoc, List.singleton_append] at h
      exact Or.inr h.2.symm
    | ok u2 =>
      exfalso
      have hpost : Post (fun p : Option Error × Driver => p.1 = none)
          (do
            let r ← getInstance env d
            match r with
            | .error _ => pure (none, d)
            | .ok inst =>
              let d1 := { d with Zone := inst.ZoneId, PrivateIPAddress := GetPrivateIP inst }
              let d2 := { d1 with IPAddress := getIP d1 inst }
              let _ ← uploadKeyPair env d2
              pure (none, d2)) := by
        repeat (first
          | exact Post_pure _ rfl
          | refine Post_bind ?_
          | intro _
          | split)
      have := hpost.out _ _ _ h
      simp at this

/-- C13 (counterexample): the wait for `Stopped` fails on a driver with a tag;
`Create` still calls `AddTags` before it rolls back. -/
theorem Create_tags_after_failure :
    (Create (scriptedEnv failWaitStopped (.other "timeout") exInstance [])
        exConsts initGlobals 30 exTaggedDriver []).result.map (fun r => r.1) =
      some (some (.wrapped "m1 | Failed to wait instance to 'stopped'" (.other "timeout"))) ∧
    List.drop 10
      (Create (scriptedEnv failWaitStopped (.other "timeout") exInstance [])
        exConsts initGlobals 30 exTaggedDriver []).trace =
      [{ call := .WaitForInstance "i-1" .Stopped 300, ok := false },
       { call := .AddTags "cn-hangzhou" "i-1" [("env", "test")], ok := true },
       { call := .DescribeInstanceAttribute "i-1", ok := true },
       { call := .DescribeInstanceAttribute "i-1", ok := true },
       { call := .DeleteInstance "i-1", ok := true }] := by
  constructor <;> decide

/-- C13 (amended): in every run of `Create` in which a step after instance
creation returns an error, the steps end at the failed one: either the wait
for `Stopped` failed and nothing followed, or `configNetwork` returned the
error and only its own calls followed the wait, or `StartInstance` failed, or
the wait for `Running` failed, each as the last call of the steps. After
that, `Create` calls `AddTags` when the tag set is non-empty and then runs
`Remove`; every later call is `AddTags` or a call of `Remove`, so no
`StartInstance` follows a failed attach. -/
theorem Create_failure_aborts (env : Env) (K : EcsConsts) (G : Globals) (fuel : Nat)
    (d : Driver) (tr : List Event) (i : String) (d1 : Driver) (tr1 : List Event) (e : Error)
    (d2 : Driver) (tr2 : List Event)
    (hcreate : createInstancePhase env K G fuel d tr = .done (.ok i, d1) tr1)
    (hstep : provisionSteps env fuel d1 d.VpcId i tr1 = .done (some e, d2) tr2) :
    (tr2 = tr1 ++ [{ call := .WaitForInstance i .Stopped timeout, ok := false }] ∨
     (∃ evs,
        configNetwork env fuel d1 d.VpcId i
          (tr1 ++ [{ call := .WaitForInstance i .Stopped timeout, ok := true }]) =
          .done (some e) tr2 ∧
        tr2 = tr1 ++ { call := .WaitForInstance i .Stopped timeout, ok := true } :: evs ∧
        ∀ ev ∈ evs, attachCalls ev.call = true) ∨
     (∃ trN,
        configNetwork env fuel d1 d.VpcId i
          (tr1 ++ [{ call := .WaitForInstance i .Stopped timeout, ok := true }]) =
          .done none trN ∧
        (tr2 = trN ++ [{ call := .StartInstance i, ok := false }] ∨
         tr2 = trN ++ [{ call := .StartInstance i, ok := true },
                       { call := .WaitForInstance i .Running timeout, ok := false }]))) ∧
    (Create env K G fuel d tr).trace =
      (Remove env fuel d2
        (if d2.Tags.length > 0 then
          tr2 ++ [{ call := .AddTags d2.Region i d2.Tags,
                    ok := isOk (env.unit tr2 (.AddTags d2.Region i d2.Tags)) }]
         else tr2)).trace ∧
    (∃ evs, (Create env K G fuel d tr).trace = tr2 ++ evs ∧
      ∀ ev ∈ evs, isAddTags ev.call = true ∨ teardownCalls ev.call = true) := by
  have hB : (Create env K G fuel d tr).trace =
      (Remove env fuel d2
        (if d2.Tags.length > 0 then
          tr2 ++ [{ call := .AddTags d2.Region i d2.Tags,
                    ok := isOk (env.unit tr2 (.AddTags d2.Region i d2.Tags)) }]
         else tr2)).trace := by
    by_cases htags : d2.Tags.length > 0
    · simp only [Create, bind_run, hcreate, hstep, finishCreate, htags, if_true, ask_run,
        pure_run]
      cases Remove env fuel d2 _ <;> rfl
    · simp only [Create, bind_run, hcreate, hstep, finishCreate, htags, if_false, pure_run]
      cases Remove env fuel d2 _ <;> rfl
  refine ⟨?_, hB, ?_⟩
  · have h := hstep
    unfold provisionSteps at h
    simp only [bind_run, ask_run] at h
    generalize env.unit tr1 _ = r1 at h
    cases r1 with
    | error e1 =>
      simp only [pure_run, Run.done.injEq, isOk] at h
      exact Or.inl h.2.symm
    | ok u1 =>
      simp only [isOk] at h
      cases hcn : configNetwork env fuel d1 d.VpcId i
          (tr1 ++ [{ call := .WaitForInstance i .Stopped timeout, ok := true }]) with
      | done err trN =>
        rw [bind_run, hcn] at h
        cases err with
        | some e1 =>
          simp only [pure_run, Run.done.injEq, Prod.mk.injEq, Option.some.injEq] at h
          obtain ⟨⟨he, _⟩, htr⟩ := h
          subst he
          subst htr
          obtain ⟨evs, h1, h2⟩ := (configNetwork_attachCalls env fuel d1 d.VpcId i).out
            (tr1 ++ [{ call := .WaitForInstance i .Stopped timeout, ok := true }])
          rw [hcn] at h1
          simp only [trace_done] at h1
          exact Or.inr (Or.inl ⟨evs, rfl, by rw [h1]; simp, h2⟩)
        | none =>
          simp only at h
          exact Or.inr (Or.inr ⟨trN, rfl, startPhase_failure env d1 i trN e d2 tr2 h⟩)
      | panic trN => rw [bind_run, hcn] at h; simp at h
      | outOfFuel trN => rw [bind_run, hcn] at h; simp at h
  · rw [hB]
    by_cases htags : d2.Tags.length > 0
    · simp only [htags, if_true]
      obtain ⟨evs, h1, h2⟩ := (Remove_teardownCalls env fuel d2).out
        (tr2 ++ [{ call := .AddTags d2.Region i d2.Tags,
                   ok := isOk (env.unit tr2 (.AddTags d2.Region i d2.Tags)) }])
      refine ⟨{ call := .AddTags d2.Region i d2.Tags,
                ok := isOk (env.unit tr2 (.AddTags d2.Region i d2.Tags)) } :: evs,
        by rw [h1]; simp, ?_⟩
      intro ev hev
      rcases List.mem_cons.mp hev with h | h
      · left; rw [h]; rfl
      · right; exact h2 ev h
    · simp only [htags, if_false]
      obtain ⟨evs, h1, h2⟩ := (Remove_teardownCalls env fuel d2).out tr2
      exact ⟨evs, h1, fun ev hev => Or.inr (h2 ev hev)⟩

/-- Witness of C13: the wait for `Stopped` fails after instance `i-1` was
created; every later call is a call of `Remove`. -/
theorem Create_failure_aborts_witness :
    ∃ evs, (Create exRollbackEnv exConsts initGlobals 30 exDriver []).trace =
        (provisionSteps exRollbackEnv 30 exCreatedDriver exDriver.VpcId "i-1"
          (createInstancePhase exRollbackEnv exConsts initGlobals 30 exDriver []).trace).trace ++
          evs ∧
      ∀ ev ∈ evs, isAddTags ev.call = true ∨ teardownCalls ev.call = true :=
  (Create_failure_aborts exRollbackEnv exConsts initGlobals 30 exDriver [] "i-1" exCreatedDriver
    (createInstancePhase exRollbackEnv exConsts initGlobals 30 exDriver []).trace
    (.wrapped "m1 | Failed to wait instance to 'stopped'" (.other "timeout")) exCreatedDriver
    (provisionSteps exRollbackEnv 30 exCreatedDriver exDriver.VpcId "i-1"
      (createInstancePhase exRollbackEnv exConsts initGlobals 30 exDriver []).trace).trace
    rfl rfl).2.2

/-! ## Configuration from flags -/

theorem setSwarmPort_silent (L : Lib) (d : Driver) (G : Globals) :
    Emits (fun _ => False) (setSwarmPort L d G) := by
  unfold setSwarmPort
  repeat (first
    | exact Emits_pure _
    | exact Emits_panicM
    | split)

theorem checkCredentials_silent (L : Lib) (d : Driver) (G : Globals) :
    Emits (fun _ => False) (checkCredentials L d G) := by
  have h := setSwarmPort_silent L d G
  unfold checkCredentials
  repeat (first
    | exact Emits_pure _
    | exact h
    | split)

theorem validateConfig_silent (L : Lib) (d : Driver) (G : Globals) :
    Emits (fun _ => False) (validateConfig L d G) := by
  have h := fun d1 => checkCredentials_silent L d1 G
  unfold validateConfig
  repeat (first
    | exact Emits_pure _
    | exact h _
    | split)

/-- `SetConfigFromFlags` makes no call to a collaborator. -/
theorem SetConfigFromFlags_silent (L : Lib) (flags : DriverOptions) (d : Driver) (G : Globals) :
    Emits (fun _ => False) (SetConfigFromFlags L flags d G) := by
  have h := fun d1 => validateConfig_silent L d1 G
  unfold SetConfigFromFlags
  repeat (first
    | exact Emits_pure _
    | exact h _
    | split)

theorem SetConfigFromFlags_trace (L : Lib) (flags : DriverOptions) (d : Driver) (G : Globals)
    (tr : List Event) : (SetConfigFromFlags L flags d G tr).trace = tr := by
  obtain ⟨evs, h1, h2⟩ := (SetConfigFromFlags_silent L flags d G).out tr
  cases evs with
  | nil => simpa using h1
  | cons e rest => exact (h2 e (List.mem_cons_self _ _)).elim

theorem setSwarmPort_driver (L : Lib) (d : Driver) (G : Globals) :
    Post (fun p => p.2.1 = d) (setSwarmPort L d G) := by
  unfold setSwarmPort
  repeat (first
    | exact Post_pure _ rfl
    | exact Post_panicM
    | split)

theorem checkCredentials_driver (L : Lib) (d : Driver) (G : Globals) :
    Post (fun p => p.2.1 = d) (checkCredentials L d G) := by
  have h := setSwarmPort_driver L d G
  unfold checkCredentials
  repeat (first
    | exact Post_pure _ rfl
    | exact h
    | split)

theorem withTags_bandwidth (d : Driver) (tagMap : List (String × String)) :
    (withTags d tagMap).InternetMaxBandwidthOut = d.InternetMaxBandwidthOut := by
  unfold withTags
  split <;> rfl

theorem withDefaultBandwidth_value (d : Driver) :
    (withDefaultBandwidth d).InternetMaxBandwidthOut =
      (if d.InternetMaxBandwidthOut = 0 then 1 else d.InternetMaxBandwidthOut) := by
  unfold withDefaultBandwidth
  split <;> rfl

theorem validateConfig_bandwidth_post (L : Lib) (d : Driver) (G : Globals) :
    Post (fun p => p.1 = none →
        (1 ≤ p.2.1.InternetMaxBandwidthOut ∧ p.2.1.InternetMaxBandwidthOut ≤ 100) ∧
        (d.InternetMaxBandwidthOut = 0 → p.2.1.InternetMaxBandwidthOut = 1) ∧
        (d.InternetMaxBandwidthOut ≠ 0 →
          p.2.1.InternetMaxBandwidthOut = d.InternetMaxBandwidthOut))
      (validateConfig L d G) := by
  unfold validateConfig
  split
  · exact Post_pure _ (by intro h; cases h)
  · split
    · exact Post_pure _ (by intro h; cases h)
    · rename_i hrange
      refine ⟨fun tr0 p tr1 hp => ?_⟩
      intro _
      have hd := (checkCredentials_driver L _ G).out tr0 p tr1 hp
      rw [hd, withDefaultBandwidth_value]
      by_cases h0 : d.InternetMaxBandwidthOut = 0
      · simp [h0]
      · simp only [h0, if_false, ne_eq, not_false_eq_true, forall_true_left, false_implies,
          and_true]
        omega

theorem SetConfigFromFlags_bandwidth_post (L : Lib) (flags : DriverOptions) (d : Driver)
    (G : Globals) :
    Post (fun p => p.1 = none →
        (1 ≤ p.2.1.InternetMaxBandwidthOut ∧ p.2.1.InternetMaxBandwidthOut ≤ 100) ∧
        (flags.internetMaxBandwidth = 0 → p.2.1.InternetMaxBandwidthOut = 1) ∧
        (flags.internetMaxBandwidth ≠ 0 →
          p.2.1.InternetMaxBandwidthOut = flags.internetMaxBandwidth))
      (SetConfigFromFlags L flags d G) := by
  unfold SetConfigFromFlags
  split
  · exact Post_pure _ (by intro h; cases h)
  · rename_i region _
    split
    · exact Post_pure _ (by intro h; cases h)
    · rename_i tagMap _
      have h := validateConfig_bandwidth_post L (withTags (assignFlags flags region d) tagMap) G
      rw [withTags_bandwidth] at h
      exact h

/-- C16 (counterexample): the bandwidth value 0 lies outside 1..100, yet
`SetConfigFromFlags` accepts the flag set and stores the default 1. -/
theorem SetConfigFromFlags_accepts_zero_bandwidth :
    ¬ ((1 : Int) ≤ 0 ∧ (0 : Int) ≤ 100) ∧
    (SetConfigFromFlags exLib { exFlags with internetMaxBandwidth := 0 } exDriver
        initGlobals []).result.map (fun r => (r.1, r.2.1.InternetMaxBandwidthOut)) =
      some (none, 1) := by
  constructor <;> decide

/-- C16 (amended): for every flag set whose bandwidth is negative or above 100
(150 for one), `SetConfigFromFlags` returns an error, adds no call to the
trace and leaves the package variables alone; for every flag set it accepts,
no call was made and the stored `InternetMaxBandwidthOut` lies in 1..100: it
is 1 when the flag is 0 and the flag value otherwise. -/
theorem SetConfigFromFlags_bandwidth (L : Lib) (flags : DriverOptions) (d : Driver)
    (G : Globals) (tr : List Event) :
    ((flags.internetMaxBandwidth < 0 ∨ 100 < flags.internetMaxBandwidth) →
      ∃ e d1, SetConfigFromFlags L flags d G tr = .done (some e, d1, G) tr) ∧
    (∀ d1 G1 tr1, SetConfigFromFlags L flags d G tr = .done (none, d1, G1) tr1 →
      tr1 = tr ∧
      (1 ≤ d1.InternetMaxBandwidthOut ∧ d1.InternetMaxBandwidthOut ≤ 100) ∧
      (flags.internetMaxBandwidth = 0 → d1.InternetMaxBandwidthOut = 1) ∧
      (flags.internetMaxBandwidth ≠ 0 →
        d1.InternetMaxBandwidthOut = flags.internetMaxBandwidth)) := by
  constructor
  · intro hbad
    unfold SetConfigFromFlags
    cases L.validateECSRegion flags.region with
    | error e => exact ⟨_, _, rfl⟩
    | ok region =>
      simp only
      cases parseTags L flags.tags [] with
      | error e => exact ⟨_, _, rfl⟩
      | ok tagMap =>
        simp only
        have hbad2 : (withTags (assignFlags flags region d) tagMap).InternetMaxBandwidthOut < 0 ∨
            (withTags (assignFlags flags region d) tagMap).InternetMaxBandwidthOut > 100 := by
          rw [withTags_bandwidth]
          exact hbad
        unfold validateConfig
        by_cases hc : (withTags (assignFlags flags region d) tagMap).RouteCIDR ≠ "" ∧
            (L.ParseCIDR (withTags (assignFlags flags region d) tagMap).RouteCIDR).isSome = true
        · rw [if_pos hc]
          exact ⟨_, _, rfl⟩
        · rw [if_neg hc, if_pos hbad2]
          exact ⟨_, _, rfl⟩
  · intro d1 G1 tr1 h
    have htr := SetConfigFromFlags_trace L flags d G tr
    rw [h] at htr
    exact ⟨htr, (SetConfigFromFlags_bandwidth_post L flags d G).out tr _ tr1 h rfl⟩

/-- Witness of C16: the bandwidth 150 is refused before any call. -/
theorem SetConfigFromFlags_bandwidth_witness :
    ∃ e d1, SetConfigFromFlags exLib { exFlags with internetMaxBandwidth := 150 } exDriver
      initGlobals [] = .done (some e, d1, initGlobals) [] :=
  (SetConfigFromFlags_bandwidth exLib { exFlags with internetMaxBandwidth := 150 } exDriver
    initGlobals []).1 (Or.inr (by decide))

theorem assignFlags_master (flags : DriverOptions) (region : String) (d : Driver) (m : Bool) :
    assignFlags { flags with swarmMaster := m } region d =
      { assignFlags flags region d with SwarmMaster := m } := rfl

theorem withTags_master (d : Driver) (tagMap : List (String × String)) (m : Bool) :
    withTags { d with SwarmMaster := m } tagMap = { withTags d tagMap with SwarmMaster := m } := by
  unfold withTags
  split <;> rfl

theorem withTags_swarmHost (d : Driver) (tagMap : List (String × String)) :
    (withTags d tagMap).SwarmHost = d.SwarmHost := by
  unfold withTags
  split <;> rfl

theorem withDefaultBandwidth_master (d : Driver) (m : Bool) :
    withDefaultBandwidth { d with SwarmMaster := m } =
      { withDefaultBandwidth d with SwarmMaster := m } := by
  unfold withDefaultBandwidth
  dsimp only
  split <;> rfl

theorem withDefaultBandwidth_swarmHost (d : Driver) :
    (withDefaultBandwidth d).SwarmHost = d.SwarmHost := by
  unfold withDefaultBandwidth
  split <;> rfl

theorem setSwarmPort_not_master (L : Lib) (d : Driver) (G : Globals) (tr : List Event) :
    setSwarmPort L { d with SwarmMaster := false } G tr =
      .done (none, { d with SwarmMaster := false }, G) tr := rfl

/-- The checks before the swarm block do not read the swarm-master flag:
either they fail with the same error whatever the flag is, or they pass and
the run is the swarm block. -/
theorem checkCredentials_master (L : Lib) (d : Driver) (G : Globals) (tr : List Event)
    (m : Bool) :
    (∃ e d0 d1,
      checkCredentials L { d with SwarmMaster := false } G tr = .done (some e, d0, G) tr ∧
      checkCredentials L { d with SwarmMaster := m } G tr = .done (some e, d1, G) tr) ∨
    (checkCredentials L { d with SwarmMaster := false } G tr =
        .done (none, { d with SwarmMaster := false }, G) tr ∧
      checkCredentials L { d with SwarmMaster := m } G tr =
        setSwarmPort L { d with SwarmMaster := m } G tr) := by
  unfold checkCredentials
  dsimp only
  by_cases h1 : d.AccessKey = ""
  · rw [if_pos h1, if_pos h1]
    exact Or.inl ⟨_, _, _, rfl, rfl⟩
  · rw [if_neg h1, if_neg h1]
    by_cases h2 : d.SecretKey = ""
    · rw [if_pos h2, if_pos h2]
      exact Or.inl ⟨_, _, _, rfl, rfl⟩
    · rw [if_neg h2, if_neg h2]
      by_cases h3 : (d.VpcId = "" ∧ d.VSwitchId ≠ "") ∨ (d.VpcId ≠ "" ∧ d.VSwitchId = "")
      · rw [if_pos h3, if_pos h3]
        exact Or.inl ⟨_, _, _, rfl, rfl⟩
      · rw [if_neg h3, if_neg h3]
        exact Or.inr ⟨rfl, rfl⟩

theorem validateConfig_master (L : Lib) (d : Driver) (G : Globals) (tr : List Event)
    (m : Bool) :
    (∃ e d0 d1,
      validateConfig L { d with SwarmMaster := false } G tr = .done (some e, d0, G) tr ∧
      validateConfig L { d with SwarmMaster := m } G tr = .done (some e, d1, G) tr) ∨
    (∃ d0 : Driver, d0.SwarmHost = d.SwarmHost ∧
      validateConfig L { d with SwarmMaster := false } G tr =
        .done (none, { d0 with SwarmMaster := false }, G) tr ∧
      validateConfig L { d with SwarmMaster := m } G tr =
        setSwarmPort L { d0 with SwarmMaster := m } G tr) := by
  unfold validateConfig
  dsimp only
  by_cases h1 : d.RouteCIDR ≠ "" ∧ (L.ParseCIDR d.RouteCIDR).isSome = true
  · rw [if_pos h1, if_pos h1]
    exact Or.inl ⟨_, _, _, rfl, rfl⟩
  · rw [if_neg h1, if_neg h1]
    by_cases h2 : d.InternetMaxBandwidthOut < 0 ∨ d.InternetMaxBandwidthOut > 100
    · rw [if_pos h2, if_pos h2]
      exact Or.inl ⟨_, _, _, rfl, rfl⟩
    · rw [if_neg h2, if_neg h2]
      rw [withDefaultBandwidth_master d false, withDefaultBandwidth_master d m]
      rcases checkCredentials_master L (withDefaultBandwidth d) G tr m with
        ⟨e, d0, d1, h3, h4⟩ | ⟨h3, h4⟩
      · exact Or.inl ⟨e, d0, d1, h3, h4⟩
      · exact Or.inr ⟨withDefaultBandwidth d, withDefaultBandwidth_swarmHost d, h3, h4⟩

theorem SetConfigFromFlags_master (L : Lib) (flags : DriverOptions) (d : Driver) (G : Globals)
    (tr : List Event) (m : Bool) :
    (∃ e d0 d1,
      SetConfigFromFlags L { flags with swarmMaster := false } d G tr =
        .done (some e, d0, G) tr ∧
      SetConfigFromFlags L { flags with swarmMaster := m } d G tr = .done (some e, d1, G) tr) ∨
    (∃ d0 : Driver, d0.SwarmHost = flags.swarmHost ∧
      SetConfigFromFlags L { flags with swarmMaster := false } d G tr =
        .done (none, { d0 with SwarmMaster := false }, G) tr ∧
      SetConfigFromFlags L { flags with swarmMaster := m } d G tr =
        setSwarmPort L { d0 with SwarmMaster := m } G tr) := by
  unfold SetConfigFromFlags
  dsimp only
  cases L.validateECSRegion flags.region with
  | error e => exact Or.inl ⟨_, _, _, rfl, rfl⟩
  | ok region =>
    dsimp only
    cases parseTags L flags.tags [] with
    | error e => exact Or.inl ⟨_, _, _, rfl, rfl⟩
    | ok tagMap =>
      dsimp only
      rw [assignFlags_master flags region d false, assignFlags_master flags region d m,
        withTags_master (assignFlags flags region d) tagMap false,
        withTags_master (assignFlags flags region d) tagMap m]
      rcases validateConfig_master L (withTags (assignFlags flags region d) tagMap) G tr m with
        ⟨e, d0, d1, h3, h4⟩ | ⟨d0, h2, h3, h4⟩
      · exact Or.inl ⟨e, d0, d1, h3, h4⟩
      · refine Or.inr ⟨d0, ?_, h3, h4⟩
        rw [h2, withTags_swarmHost]
        rfl

/-- C17 (counterexample): parsing the flags of a swarm master whose swarm host
is `tcp://0.0.0.0:4000` changes the package variable `swarmPort` from 3376 to
4000; the rules computed for another swarm-master driver, on a group that
already opens 3376, differ before and after. -/
theorem SetConfigFromFlags_overwrites_swarmPort :
    (SetConfigFromFlags exLib exSwarmFlags exDriver initGlobals []).result.map
      (fun r => (r.1, r.2.2)) = some (none, { dockerPort := 2376, swarmPort := 4000 }) ∧
    configureSecurityGroupPermissions exConsts initGlobals { exDriver with SwarmMaster := true }
        (exGroup [{ IpProtocol := "TCP", PortRange := "3376/3376", Policy := "Accept" }]) =
      some [{ IpProtocol := "tcp", FromPort := 22, ToPort := 22, IpRange := "0.0.0.0/0" },
            { IpProtocol := "tcp", FromPort := 2376, ToPort := 2376, IpRange := "0.0.0.0/0" },
            { IpProtocol := "all", FromPort := -1, ToPort := -1, IpRange := "0.0.0.0/0" }] ∧
    configureSecurityGroupPermissions exConsts { dockerPort := 2376, swarmPort := 4000 }
        { exDriver with SwarmMaster := true }
        (exGroup [{ IpProtocol := "TCP", PortRange := "3376/3376", Policy := "Accept" }]) =
      some [{ IpProtocol := "tcp", FromPort := 22, ToPort := 22, IpRange := "0.0.0.0/0" },
            { IpProtocol := "tcp", FromPort := 2376, ToPort := 2376, IpRange := "0.0.0.0/0" },
            { IpProtocol := "tcp", FromPort := 4000, ToPort := 4000, IpRange := "0.0.0.0/0" },
            { IpProtocol := "all", FromPort := -1, ToPort := -1, IpRange := "0.0.0.0/0" }] := by
  refine ⟨?_, ?_, ?_⟩ <;> decide

/-- C17 (amended): `SetConfigFromFlags` makes no call and never changes
`dockerPort`. For flags that are not a swarm master it returns with both
package variables unchanged. For a swarm master, take the same flags without
the swarm-master flag: they return some result `err0` with the variables
unchanged; if `err0` is an error the swarm master's flags are rejected with
that error and the variables stay unchanged; if they are accepted, the run
goes on to the swarm host: a host that does not parse gives an error, a host
without a port makes the run panic, a port that is not a number gives an
error, all with the variables unchanged, and otherwise the flags are accepted
and the package variable `swarmPort` is overwritten with the port of the
swarm host. -/
theorem SetConfigFromFlags_globals (L : Lib) (flags : DriverOptions) (d : Driver) (G : Globals)
    (tr : List Event) :
    (flags.swarmMaster = false →
      ∃ err d1, SetConfigFromFlags L flags d G tr = .done (err, d1, G) tr) ∧
    (flags.swarmMaster = true →
      ∃ err0 d0,
        SetConfigFromFlags L { flags with swarmMaster := false } d G tr =
          .done (err0, d0, G) tr ∧
        (∀ e, err0 = some e →
          ∃ d1, SetConfigFromFlags L flags d G tr = .done (some e, d1, G) tr) ∧
        (err0 = none →
          (∀ e, L.urlParseHost flags.swarmHost = .error e →
            ∃ d1, SetConfigFromFlags L flags d G tr =
              .done (some (.wrapped "error parsing swarm host" e), d1, G) tr) ∧
          (∀ host, L.urlParseHost flags.swarmHost = .ok host →
            ((splitChar ':' host.data)[1]? = none →
              SetConfigFromFlags L flags d G tr = .panic tr) ∧
            (∀ part, (splitChar ':' host.data)[1]? = some part →
              ((Atoi part).2 = false →
                ∃ e1 d1, SetConfigFromFlags L flags d G tr = .done (some e1, d1, G) tr) ∧
              ((Atoi part).2 = true →
                ∃ d1, SetConfigFromFlags L flags d G tr =
                  .done (none, d1,
                    { dockerPort := G.dockerPort, swarmPort := (Atoi part).1 }) tr))))) := by
  constructor
  · intro hm
    have hf : flags = { flags with swarmMaster := false } := by
      cases flags
      simp only at hm
      subst hm
      rfl
    rcases SetConfigFromFlags_master L flags d G tr false with
      ⟨e, d0, d1, h3, h4⟩ | ⟨d0, h2, h3, h4⟩
    · rw [← hf] at h3
      exact ⟨_, _, h3⟩
    · rw [← hf] at h3
      exact ⟨_, _, h3⟩
  · intro hm
    have hf : flags = { flags with swarmMaster := true } := by
      cases flags
      simp only at hm
      subst hm
      rfl
    rcases SetConfigFromFlags_master L flags d G tr true with
      ⟨e, d0, d1, h3, h4⟩ | ⟨d0, h2, h3, h4⟩
    · rw [← hf] at h4
      refine ⟨some e, d0, h3, ?_, ?_⟩
      · intro e1 he1
        injection he1 with he1
        subst he1
        exact ⟨d1, h4⟩
      · intro hnone
        cases hnone
    · rw [← hf] at h4
      refine ⟨none, _, h3, ?_, ?_⟩
      · intro e1 he1
        cases he1
      · intro _
        rw [h4]
        unfold setSwarmPort
        dsimp only
        rw [h2]
        simp only [if_true]
        constructor
        · intro e he
          rw [he]
          exact ⟨_, rfl⟩
        · intro host hh
          rw [hh]
          dsimp only
          constructor
          · intro hp
            rw [hp]
            rfl
          · intro part hp
            rw [hp]
            dsimp only
            constructor
            · intro ha
              rw [ha]
              exact ⟨_, _, rfl⟩
            · intro ha
              rw [ha]
              exact ⟨_, rfl⟩

/-- Witness of C17: the swarm master whose host is `tcp://0.0.0.0:4000` is
accepted and leaves `swarmPort` at 4000. -/
theorem SetConfigFromFlags_globals_witness :
    ∃ d1, SetConfigFromFlags exLib exSwarmFlags exDriver initGlobals [] =
      .done (none, d1, { dockerPort := 2376, swarmPort := 4000 }) [] := by
  obtain ⟨err0, d0, h0, _, h2⟩ :=
    (SetConfigFromFlags_globals exLib exSwarmFlags exDriver initGlobals []).2 rfl
  have hnone : err0 = none := by
    have h : (SetConfigFromFlags exLib { exSwarmFlags with swarmMaster := false } exDriver
        initGlobals []).result.map (fun r => r.1) = some none := by decide
    rw [h0] at h
    simpa [Run.result] using h
  obtain ⟨d1, h3⟩ := (((h2 hnone).2 _ rfl).2 "4000".data (by decide)).2 (by decide)
  refine ⟨d1, ?_⟩
  rw [h3]
  have hp : (Atoi "4000".data).1 = 4000 := by decide
  rw [hp]
  rfl

end Aliyunecs
